import Mathlib

/-!
# Etsy print sizing app: geometry engine and metadata embedder

A shallow embedding of `src/utils/constants.js`, `src/utils/sizeCalculations.js`,
`src/utils/dpiUtils.js` and `src/utils/imageUtils.js`.

Modelling conventions.
* JavaScript numbers are modelled by exact rationals `ℚ`; `Math.round` is
  `jsRound`, the nearest integer with ties going toward `+∞`.  The results
  below are therefore statements about the arithmetic the code writes down,
  not about IEEE-754 rounding of intermediate products and quotients.  The
  one exception is `getBestAspectRatio`, whose result turns on comparisons
  of nearly equal differences: there every operation is rounded to the
  nearest double by `toDouble`.
* A `Uint8Array` is a `List Nat` of byte values.  Reading past the end yields
  `undefined` (modelled by `none` of `xs[i]?`), and an indexed store past the
  end is silently dropped, as typed arrays do.
* `null` results are `none`; thrown exceptions are `Except.error`.
-/

namespace EtsyPrintSizing

/-! ## constants.js -/

/-- A catalog entry of `PRINT_SIZES`: physical width and height in inches and a label. -/
structure PrintSize where
  width : ℚ
  height : ℚ
  label : String
deriving DecidableEq

/-- The table `PRINT_SIZES`, as the list of its `(key, entries)` pairs in declaration order. -/
def PRINT_SIZES : List (String × List PrintSize) :=
  [ ("2:3",
      [ { width := 4, height := 6, label := "4×6\"" },
        { width := 8, height := 12, label := "8×12\"" },
        { width := 12, height := 18, label := "12×18\"" },
        { width := 20, height := 30, label := "20×30\"" } ]),
    ("3:4",
      [ { width := 6, height := 8, label := "6×8\"" },
        { width := 9, height := 12, label := "9×12\"" },
        { width := 12, height := 16, label := "12×16\"" },
        { width := 18, height := 24, label := "18×24\"" } ]),
    ("4:5",
      [ { width := 8, height := 10, label := "8×10\"" },
        { width := 11, height := 14, label := "11×14\"" },
        { width := 16, height := 20, label := "16×20\"" } ]),
    ("5:7",
      [ { width := 5, height := 7, label := "5×7\"" },
        { width := 10, height := 14, label := "10×14\"" },
        { width := 15, height := 21, label := "15×21\"" } ]),
    ("custom",
      [ { width := 11, height := 14, label := "11×14\"" } ]) ]

/-- The constant `TARGET_DPI`. -/
def TARGET_DPI : ℕ := 300

/-- The table `QUALITY_SETTINGS`. -/
def QUALITY_SETTINGS : List (String × ℚ) :=
  [("jpeg", 92 / 100), ("png", 1)]

/-- The table `ASPECT_RATIOS`, as the list of its entries in declaration order, which is
the order `Object.entries` visits them in. -/
def ASPECT_RATIOS : List (String × ℚ) :=
  [("2:3", 2 / 3), ("3:4", 3 / 4), ("4:5", 4 / 5), ("5:7", 5 / 7), ("custom", 11 / 14)]

/-- The function `getAllSizes`: `Object.values(PRINT_SIZES).flat()`. -/
def getAllSizes : List PrintSize :=
  (PRINT_SIZES.map Prod.snd).flatten

/-! ## sizeCalculations.js -/

/-- JavaScript `Math.round` on an exact rational: `floor(x + 1/2)`. -/
def jsRound (x : ℚ) : ℤ := ⌊x + 1 / 2⌋

/-- The function `inchesToPixels`. -/
def inchesToPixels (inches : ℚ) : ℤ :=
  jsRound (inches * (TARGET_DPI : ℚ))

/-- The function `pixelsToInches`. -/
def pixelsToInches (pixels : ℚ) : ℚ :=
  pixels / (TARGET_DPI : ℚ)

/-- The object returned by `calculatePixelDimensions`. -/
structure PixelDimensions where
  width : ℤ
  height : ℤ
  label : String
  aspectRatio : ℚ
deriving DecidableEq

/-- The function `calculatePixelDimensions`. -/
def calculatePixelDimensions (size : PrintSize) : PixelDimensions :=
  { width := inchesToPixels size.width,
    height := inchesToPixels size.height,
    label := size.label,
    aspectRatio := size.width / size.height }

/-- The object returned by `calculateCropDimensions`. -/
structure CropRegion where
  x : ℤ
  y : ℤ
  width : ℤ
  height : ℤ
deriving DecidableEq

/-- The function `calculateCropDimensions`. -/
def calculateCropDimensions (imageWidth imageHeight targetRatio : ℚ) : CropRegion :=
  let imageRatio := imageWidth / imageHeight
  if imageRatio > targetRatio then
    -- image is wider than the target ratio: crop width
    let cropHeight := imageHeight
    let cropWidth := imageHeight * targetRatio
    let x := (imageWidth - cropWidth) / 2
    let y := 0
    { x := jsRound x, y := jsRound y, width := jsRound cropWidth, height := jsRound cropHeight }
  else
    -- image is taller than the target ratio: crop height
    let cropWidth := imageWidth
    let cropHeight := imageWidth / targetRatio
    let x := 0
    let y := (imageHeight - cropHeight) / 2
    { x := jsRound x, y := jsRound y, width := jsRound cropWidth, height := jsRound cropHeight }

/-- Rounding of a rational to the nearest integer, a tie going to the even neighbour: the
rounding of a binary64 significand. -/
def roundHalfEven (m : ℚ) : ℤ :=
  let f := ⌊m⌋
  if m - f < 1 / 2 then f
  else if 1 / 2 < m - f then f + 1
  else if f % 2 = 0 then f else f + 1

/-- The double nearest to a rational, as every arithmetic operation of JavaScript rounds its
exact result: 53 significant bits, ties to even.  With `2 ^ e ≤ |x| < 2 ^ (e + 1)` the
spacing of the doubles around `x` is `2 ^ (e - 52)`.  The exponent is not bounded here, so
the value is that of binary64 for zero and for magnitudes from `2 ^ (-1022)` up to the
overflow threshold; the quotients and differences `getBestAspectRatio` forms from whole
sides below `2 ^ 53` all lie in that range (a difference of two such doubles, when not
zero, has magnitude at least `2 ^ (-105)`). -/
def toDouble (x : ℚ) : ℚ :=
  if x = 0 then 0
  else
    let e := Int.log 2 |x|
    let ulp : ℚ := 2 ^ (e - 52)
    roundHalfEven (x / ulp) * ulp

/-- The value of `difference` in `getBestAspectRatio`, `Math.abs(imageRatio - ratio)`:
`ratio` is the double that the quotient written in `ASPECT_RATIOS` evaluates to, the
subtraction rounds to a double, and `Math.abs` is exact. -/
def ratioDifference (imageRatio ratio : ℚ) : ℚ :=
  |toDouble (imageRatio - toDouble ratio)|

/-- One step of the `forEach` of `getBestAspectRatio`: the pair is `bestMatch` and
`smallestDifference`, where `none` stands for the initial `Infinity`. -/
def bestRatioStep (imageRatio : ℚ) (acc : String × Option ℚ) (entry : String × ℚ) :
    String × Option ℚ :=
  let difference := ratioDifference imageRatio entry.2
  match acc.2 with
  | none => (entry.1, some difference)
  | some smallestDifference =>
    if difference < smallestDifference then (entry.1, some difference) else acc

/-- The function `getBestAspectRatio`, in double arithmetic: `imageWidth / imageHeight` is
the double nearest to the quotient of the two sides (themselves doubles). -/
def getBestAspectRatio (imageWidth imageHeight : ℚ) : String :=
  let imageRatio := toDouble (imageWidth / imageHeight)
  (ASPECT_RATIOS.foldl (bestRatioStep imageRatio) ("4:5", none)).1

/-- The regular expression `\.[^/.]+$` matches the whole of the given characters: a dot,
then one or more characters other than `/` and `.`, then the end of the input. -/
def extensionMatches : List Char → Bool
  | [] => false
  | c :: rest => c == '.' && !rest.isEmpty && rest.all (fun d => d != '/' && d != '.')

/-- The call `originalName.replace(/\.[^/.]+$/, '')` on the characters of the name: the
leftmost position where the expression matches is searched from the left, and the match, which
runs to the end of the input, is replaced by the empty string. -/
def replaceExtension : List Char → List Char
  | [] => []
  | c :: rest => if extensionMatches (c :: rest) then [] else c :: replaceExtension rest

/-- The function `generateFilename`. -/
def generateFilename (originalName : String) (size : PrintSize) (format : String) : String :=
  let baseName := String.mk (replaceExtension originalName.data)
  let extension := if format = "jpeg" then "jpg" else format
  baseName ++ "_" ++ size.label ++ "_300DPI." ++ extension

/-! ## dpiUtils.js -/

/-- A `Blob`: its bytes and its MIME type. -/
structure Blob where
  bytes : List Nat
  type : String
deriving DecidableEq

/-- The indexed store `a[i] = v` into a `Uint8Array`: the value is reduced modulo 256 and a
store at an index past the end is dropped. -/
def u8set (a : List Nat) (i v : Nat) : List Nat :=
  a.set i (v % 256)

/-- The method `target.set(source, offset)` of a typed array: it throws a `RangeError` when
the source does not fit, and otherwise overwrites `source.length` entries from `offset`. -/
def typedArraySet (target source : List Nat) (offset : Nat) : Except String (List Nat) :=
  if offset + source.length ≤ target.length then
    .ok (target.take offset ++ source ++ target.drop (offset + source.length))
  else
    .error "RangeError: offset is out of bounds"

/-- The byte pair `FF marker` stands at index `j` of the data. -/
def markerAt (jpegData : List Nat) (marker : Nat) (j : Nat) : Prop :=
  jpegData[j]? = some 0xFF ∧ jpegData[j + 1]? = some marker

instance (jpegData : List Nat) (marker j : Nat) : Decidable (markerAt jpegData marker j) := by
  unfold markerAt
  infer_instance

/-- The scanning loop of `addJFIFDPI` and `createJFIFHeader`,
`for (let i = 0; i < jpegData.length - 1; i++)
   if (jpegData[i] === 0xFF && jpegData[i + 1] === marker) { index = i; break; }`,
entered at index `i` with `n` iterations left; `none` is the initial index `-1`. -/
def scanMarker (jpegData : List Nat) (marker : Nat) : Nat → Nat → Option Nat
  | _, 0 => none
  | i, n + 1 =>
    if jpegData[i]? = some 0xFF ∧ jpegData[i + 1]? = some marker then some i
    else scanMarker jpegData marker (i + 1) n

/-- The scanning loop run from index `0` over `jpegData.length - 1` positions. -/
def findMarker (jpegData : List Nat) (marker : Nat) : Option Nat :=
  scanMarker jpegData marker 0 (jpegData.length - 1)

/-- The array `jfifHeader` built by `createJFIFHeader`.  For a natural number `dpi` the
bits 8..15 and 0..7 selected by `(dpi >> 8) & 0xFF` and `dpi & 0xFF` are not affected by
the 32-bit conversion of the JavaScript operators. -/
def jfifHeader (dpi : Nat) : List Nat :=
  [ 0xFF, 0xE0,                         -- JFIF marker
    0x00, 0x10,                         -- length (16 bytes)
    0x4A, 0x46, 0x49, 0x46, 0x00,       -- "JFIF\0"
    0x01, 0x01,                         -- version 1.1
    0x01,                               -- units: inches
    (dpi >>> 8) &&& 0xFF, dpi &&& 0xFF, -- X density
    (dpi >>> 8) &&& 0xFF, dpi &&& 0xFF, -- Y density
    0x00, 0x00 ]                        -- no thumbnail

/-- The function `createJFIFHeader`: `.ok none` is the `null` result, `.error` a thrown
exception. -/
def createJFIFHeader (jpegData : List Nat) (dpi : Nat) : Except String (Option Blob) :=
  match findMarker jpegData 0xD8 with
  | none => .ok none
  | some _ => do
    let result := List.replicate (2 + (jfifHeader dpi).length + jpegData.length - 2) 0
    let result ← typedArraySet result (jpegData.take 2) 0
    let result ← typedArraySet result (jfifHeader dpi) 2
    let result ← typedArraySet result (jpegData.drop 2) (2 + (jfifHeader dpi).length)
    .ok (some { bytes := result, type := "image/jpeg" })

/-- The function `addJFIFDPI`; its `catch` turns every exception into `null`. -/
def addJFIFDPI (jpegData : List Nat) (dpi : Nat) : Option Blob :=
  match findMarker jpegData 0xE0 with
  | none =>
    match createJFIFHeader jpegData dpi with
    | .ok r => r
    | .error _ => none
  | some jfifIndex =>
    let newData := jpegData
    let jfifStart := jfifIndex + 4
    if newData[jfifStart]? = some 0x4A ∧ newData[jfifStart + 1]? = some 0x46 then
      let newData := u8set newData (jfifStart + 7) 0x01
      let newData := u8set newData (jfifStart + 8) ((dpi >>> 8) &&& 0xFF)
      let newData := u8set newData (jfifStart + 9) (dpi &&& 0xFF)
      let newData := u8set newData (jfifStart + 10) ((dpi >>> 8) &&& 0xFF)
      let newData := u8set newData (jfifStart + 11) (dpi &&& 0xFF)
      some { bytes := newData, type := "image/jpeg" }
    else
      none

/-- The function `addEXIFDPI`.  The chain `btoa`, `piexif.dump`, `piexif.insert`, `fetch`,
`response.blob()` belongs to the platform and the `piexifjs` library and is the parameter
`exifInsert`; whatever it throws is logged and thrown again. -/
def addEXIFDPI (exifInsert : List Nat → Nat → Except String Blob)
    (jpegData : List Nat) (dpi : Nat) : Except String Blob :=
  match exifInsert jpegData dpi with
  | .ok resultBlob => .ok resultBlob
  | .error error => .error error

/-- The function `embedDPIMetadata`: JFIF first, EXIF as the fallback, and the original blob
when an exception reaches the outer `catch`. -/
def embedDPIMetadata (exifInsert : List Nat → Nat → Except String Blob)
    (blob : Blob) (dpi : Nat) : Blob :=
  let uint8Array := blob.bytes
  match addJFIFDPI uint8Array dpi with
  | some jfifBlob => jfifBlob
  | none =>
    match addEXIFDPI exifInsert uint8Array dpi with
    | .ok resultBlob => resultBlob
    | .error _ => blob

/-! ## imageUtils.js -/

/-- The function `addDPIMetadata`: EXIF insertion through the same library chain
`exifInsert`, and the original blob when it throws. -/
def addDPIMetadata (exifInsert : List Nat → Nat → Except String Blob)
    (blob : Blob) (dpi : Nat) : Blob :=
  match exifInsert blob.bytes dpi with
  | .ok resultBlob => resultBlob
  | .error _ => blob

/-- An `HTMLImageElement`: its pixel dimensions and the source it was loaded from. -/
structure Image where
  width : ℕ
  height : ℕ
  src : String
deriving DecidableEq

/-- A crop rectangle in source-image coordinates as the canvas and the crop editor hold it;
after a drag its origin need not be a whole number. -/
structure CropArea where
  x : ℚ
  y : ℚ
  width : ℚ
  height : ℚ
deriving DecidableEq

/-- The object returned by `calculateCropDimensions`, read as a crop rectangle. -/
def CropRegion.toCropArea (c : CropRegion) : CropArea :=
  { x := c.x, y := c.y, width := c.width, height := c.height }

/-- The browser operations the pipeline calls.  `drawAndEncode` stands for `createCanvas`,
`getContext`, `drawImage` and `canvas.toBlob` with the canvas size, the source rectangle, the
destination rectangle, the MIME type and the quality it is given; it may throw, and when it
does not, `canvas.toBlob` is taken to deliver a blob.
`exifInsert` is the `piexifjs` chain of `addDPIMetadata`, and `createObjectURL` is
`URL.createObjectURL`. -/
structure Platform where
  drawAndEncode : ℤ → ℤ → Image → ℚ → ℚ → ℚ → ℚ → ℚ → ℚ → ℚ → ℚ → String → ℚ → Except String Blob
  exifInsert : List Nat → Nat → Except String Blob
  createObjectURL : Blob → String

/-- The function `processImageForSize`; `.error` is a rejected promise. -/
def processImageForSize (p : Platform) (image : Image) (printSize : PrintSize)
    (cropSettings : Option CropArea) (format : String) : Except String Blob :=
  let pixelDimensions := calculatePixelDimensions printSize
  let source : CropArea :=
    match cropSettings with
    | some crop => crop
    | none =>
      -- auto-crop to fit the aspect ratio
      let targetRatio := printSize.width / printSize.height
      (calculateCropDimensions image.width image.height targetRatio).toCropArea
  let quality := (QUALITY_SETTINGS.lookup format).getD (92 / 100)
  let mimeType := if format = "jpeg" then "image/jpeg" else "image/png"
  match p.drawAndEncode pixelDimensions.width pixelDimensions.height image
      source.x source.y source.width source.height
      0 0 pixelDimensions.width pixelDimensions.height mimeType quality with
  | .error e => .error e
  | .ok blob =>
    if format = "jpeg" then .ok (addDPIMetadata p.exifInsert blob TARGET_DPI)
    else .ok blob

/-- An element of the `processedImages` collection. -/
structure ProcessedResult where
  size : PrintSize
  blob : Blob
  pixelDimensions : PixelDimensions
  url : String
  cropSettings : Option CropArea
deriving DecidableEq

/-- The loop of `processImageForAllSizes` from index `i` on, over the entries still to do.
The state is the `results` array together with the values passed to `onProgress` so far; an
entry whose processing throws is logged and skipped by the `catch`. -/
def processImageForAllSizesFrom (p : Platform) (image : Image) (total : ℕ) :
    List PrintSize → ℕ → List ProcessedResult × List ℚ → List ProcessedResult × List ℚ
  | [], _, acc => acc
  | printSize :: rest, i, (results, progress) =>
    match processImageForSize p image printSize none "jpeg" with
    | .ok blob =>
      let pixelDimensions := calculatePixelDimensions printSize
      processImageForAllSizesFrom p image total rest (i + 1)
        (results ++ [{ size := printSize, blob := blob, pixelDimensions := pixelDimensions,
                       url := p.createObjectURL blob, cropSettings := none }],
         progress ++ [((i : ℚ) + 1) / total])
    | .error _ =>
      processImageForAllSizesFrom p image total rest (i + 1) (results, progress)

/-- The function `processImageForAllSizes` called with an `onProgress` callback: the returned
`results` and the sequence of values `onProgress` received. -/
def processImageForAllSizes (p : Platform) (image : Image) (printSizes : List PrintSize) :
    List ProcessedResult × List ℚ :=
  processImageForAllSizesFrom p image printSizes.length printSizes 0 ([], [])

/-! ## PreviewGrid.jsx and useFileDownload.js -/

/-- The download name set by `handleDownload` of the preview grid, whose base is
`originalFile.name.split('.')[0]`. -/
def handleDownload (originalFileName : String) (imageData : ProcessedResult) : String :=
  String.mk (originalFileName.data.takeWhile (fun c => c != '.'))
    ++ "_" ++ imageData.size.label ++ "_300DPI.jpg"

/-- The file name `downloadSingle` hands to `saveAs`. -/
def downloadSingle (imageData : ProcessedResult) (originalFileName : String) : String :=
  generateFilename originalFileName imageData.size "jpeg"

/-- The calls `zip.file(filename, blob)` made by `downloadAll`, in order. -/
def downloadAll (processedImages : List ProcessedResult) (originalFileName : String) :
    List (String × Blob) :=
  processedImages.map
    (fun imageData => (generateFilename originalFileName imageData.size "jpeg", imageData.blob))

/-! ## useAppStore.js -/

/-- The state held by `useAppStore`. -/
structure AppStore where
  originalFile : Option String
  originalImage : Option Image
  previewUrl : Option String
  isProcessing : Bool
  processingProgress : ℚ
  processedImages : List ProcessedResult
  selectedSizes : List PrintSize
  activeTab : String
  showCropEditor : Bool
  selectedImageForCrop : Option ProcessedResult
  error : Option String

/-- The action `setProcessing`. -/
def setProcessing (store : AppStore) (isProcessing : Bool) (progress : ℚ) : AppStore :=
  { store with isProcessing := isProcessing, processingProgress := progress }

/-- The action `setProcessedImages`. -/
def setProcessedImages (store : AppStore) (images : List ProcessedResult) : AppStore :=
  { store with processedImages := images, isProcessing := false, processingProgress := 100 }

/-- The action `openCropEditor`. -/
def openCropEditor (store : AppStore) (imageData : ProcessedResult) : AppStore :=
  { store with showCropEditor := true, selectedImageForCrop := some imageData }

/-- The action `closeCropEditor`. -/
def closeCropEditor (store : AppStore) : AppStore :=
  { store with showCropEditor := false, selectedImageForCrop := none }

/-! ## CropEditor.jsx -/

/-- The local state of the `CropEditor` component. -/
structure EditorState where
  cropArea : CropArea
  isDragging : Bool
  dragStart : ℚ × ℚ
  zoom : ℚ

/-- The function `initializeCrop`: the value `cropArea` has afterwards. -/
def initializeCrop (selectedImageForCrop : Option ProcessedResult)
    (originalImage : Option Image) (cropArea : CropArea) : CropArea :=
  match selectedImageForCrop, originalImage with
  | some selected, some image =>
    match selected.cropSettings with
    | some stored => stored
    | none =>
      let targetRatio := selected.size.width / selected.size.height
      (calculateCropDimensions image.width image.height targetRatio).toCropArea
  | _, _ => cropArea

/-- The state of the component once it is shown for an entry: the `useState` defaults, then
the effect that runs `initializeCrop`. -/
def openEditor (selectedImageForCrop : ProcessedResult) (originalImage : Image) : EditorState :=
  { cropArea := initializeCrop (some selectedImageForCrop) (some originalImage)
      { x := 0, y := 0, width := 100, height := 100 },
    isDragging := false,
    dragStart := (0, 0),
    zoom := 1 }

/-- The handler `handleMouseDown`; `x` and `y` are the pointer position inside the canvas. -/
def handleMouseDown (s : EditorState) (x y : ℚ) : EditorState :=
  { s with isDragging := true, dragStart := (x, y) }

/-- The handler `handleMouseMove`; `canvasWidth` and `canvasHeight` are the size the canvas
has when the event arrives. -/
def handleMouseMove (originalImage : Image) (s : EditorState)
    (x y canvasWidth canvasHeight : ℚ) : EditorState :=
  if !s.isDragging then s
  else
    let deltaX := x - s.dragStart.1
    let deltaY := y - s.dragStart.2
    let scaleX := (originalImage.width : ℚ) / canvasWidth
    let scaleY := (originalImage.height : ℚ) / canvasHeight
    let newX := max 0 (min ((originalImage.width : ℚ) - s.cropArea.width)
      (s.cropArea.x + deltaX * scaleX))
    let newY := max 0 (min ((originalImage.height : ℚ) - s.cropArea.height)
      (s.cropArea.y + deltaY * scaleY))
    { s with cropArea := { s.cropArea with x := newX, y := newY }, dragStart := (x, y) }

/-- The handler `handleMouseUp`, also bound to `onMouseLeave`. -/
def handleMouseUp (s : EditorState) : EditorState :=
  { s with isDragging := false }

/-- The handler `handleReset`. -/
def handleReset (selectedImageForCrop : ProcessedResult) (originalImage : Image)
    (s : EditorState) : EditorState :=
  { s with cropArea := initializeCrop (some selectedImageForCrop) (some originalImage) s.cropArea }

/-- The state setter `setZoom` together with the effect whose dependency list contains
`zoom`: when the value changes, the effect runs `initializeCrop` again. -/
def setZoom (selectedImageForCrop : ProcessedResult) (originalImage : Image)
    (s : EditorState) (zoom : ℚ) : EditorState :=
  if zoom = s.zoom then s
  else
    { s with
      zoom := zoom,
      cropArea := initializeCrop (some selectedImageForCrop) (some originalImage) s.cropArea }

/-- What the user can do to the open editor. -/
inductive EditorEvent where
  | mouseDown (x y : ℚ)
  | mouseMove (x y canvasWidth canvasHeight : ℚ)
  | mouseUp
  | reset
  | zoomOut
  | zoomIn

/-- The reaction of the open editor to one event. -/
def editorStep (selectedImageForCrop : ProcessedResult) (originalImage : Image)
    (s : EditorState) : EditorEvent → EditorState
  | .mouseDown x y => handleMouseDown s x y
  | .mouseMove x y canvasWidth canvasHeight =>
    handleMouseMove originalImage s x y canvasWidth canvasHeight
  | .mouseUp => handleMouseUp s
  | .reset => handleReset selectedImageForCrop originalImage s
  | .zoomOut => setZoom selectedImageForCrop originalImage s (max (1 / 2) (s.zoom - 1 / 10))
  | .zoomIn => setZoom selectedImageForCrop originalImage s (min 3 (s.zoom + 1 / 10))

/-- The handler `handleApply`: the store it leaves behind. -/
def handleApply (p : Platform) (store : AppStore) (cropArea : CropArea) : AppStore :=
  match store.selectedImageForCrop, store.originalImage with
  | some selected, some originalImage =>
    let store := setProcessing store true 0
    match processImageForSize p originalImage selected.size (some cropArea) "jpeg" with
    | .ok newBlob =>
      let updatedImages := store.processedImages.map (fun img =>
        if img.size.label = selected.size.label then
          { img with blob := newBlob, url := p.createObjectURL newBlob,
                     cropSettings := some cropArea }
        else img)
      let store := setProcessedImages store updatedImages
      let store := setProcessing store false 100
      closeCropEditor store
    | .error _ => setProcessing store false 0
  | _, _ => store

/-- The handler `handleApply` as the component runs it: it reads `cropArea` from the local
state and calls none of the local state setters, so the local state is handed back as it
was. -/
def handleApplyInEditor (p : Platform) (store : AppStore) (s : EditorState) :
    AppStore × EditorState :=
  (handleApply p store s.cropArea, s)

/-! ## Rounding lemmas -/

theorem jsRound_intCast (n : ℤ) : jsRound (n : ℚ) = n := by
  unfold jsRound
  rw [Int.floor_eq_iff]
  constructor <;> norm_num

theorem jsRound_natCast (n : ℕ) : jsRound (n : ℚ) = n := by
  have h := jsRound_intCast (n : ℤ)
  simpa using h

theorem jsRound_zero : jsRound 0 = 0 := by
  have h := jsRound_intCast 0
  simpa using h

theorem jsRound_le (x : ℚ) : (jsRound x : ℚ) ≤ x + 1 / 2 := by
  unfold jsRound
  exact Int.floor_le _

theorem jsRound_gt (x : ℚ) : x - 1 / 2 < (jsRound x : ℚ) := by
  unfold jsRound
  have h := Int.lt_floor_add_one (x + 1 / 2)
  linarith

theorem jsRound_nonneg {x : ℚ} (hx : 0 ≤ x) : 0 ≤ jsRound x := by
  unfold jsRound
  apply Int.floor_nonneg.mpr
  linarith

theorem jsRound_eq_iff (x : ℚ) (n : ℤ) :
    jsRound x = n ↔ (n : ℚ) - 1 / 2 ≤ x ∧ x < n + 1 / 2 := by
  unfold jsRound
  rw [Int.floor_eq_iff]
  constructor <;> rintro ⟨h1, h2⟩ <;> constructor <;> linarith

theorem jsRound_abs_sub_le (x : ℚ) : |(jsRound x : ℚ) - x| ≤ 1 / 2 := by
  rw [abs_le]
  have h1 := jsRound_le x
  have h2 := jsRound_gt x
  constructor <;> linarith

/-- The sum of the rounded margin and the rounded band never exceeds the full side:
for `c < n`, `round((n - c)/2) + round(c) ≤ n`. -/
theorem jsRound_margin_add_band_lt {c : ℚ} {n : ℤ} (hc : c < n) :
    jsRound ((n - c) / 2) + jsRound c ≤ n := by
  unfold jsRound
  have h1 : ⌊((n : ℚ) - c) / 2 + 1 / 2⌋ + ⌊c + 1 / 2⌋ ≤ ⌊(((n : ℚ) - c) / 2 + 1 / 2) + (c + 1 / 2)⌋ :=
    Int.le_floor_add _ _
  have h2 : ⌊(((n : ℚ) - c) / 2 + 1 / 2) + (c + 1 / 2)⌋ < n + 1 := by
    rw [Int.floor_lt]
    push_cast
    linarith
  omega

theorem jsRound_margin_add_band {c : ℚ} {n : ℤ} (hc : c ≤ n) :
    jsRound ((n - c) / 2) + jsRound c ≤ n := by
  rcases lt_or_eq_of_le hc with h | h
  · exact jsRound_margin_add_band_lt h
  · subst h
    rw [sub_self, zero_div, jsRound_zero, jsRound_intCast]
    omega

/-! ## Auto-crop -/

theorem crop_wide {W H r : ℚ} (h : W / H > r) :
    calculateCropDimensions W H r =
      { x := jsRound ((W - H * r) / 2), y := 0, width := jsRound (H * r), height := jsRound H } := by
  simp only [calculateCropDimensions, if_pos h, jsRound_zero]

theorem crop_tall {W H r : ℚ} (h : ¬ W / H > r) :
    calculateCropDimensions W H r =
      { x := 0, y := jsRound ((H - W / r) / 2), width := jsRound W, height := jsRound (W / r) } := by
  simp only [calculateCropDimensions, if_neg h, jsRound_zero]

theorem crop_example :
    calculateCropDimensions 4000 3000 (4 / 5) = ⟨800, 0, 2400, 3000⟩ := by
  have h : (4000 : ℚ) / 3000 > 4 / 5 := by norm_num
  have e1 : jsRound (((4000 : ℚ) - 3000 * (4 / 5)) / 2) = 800 := by
    rw [jsRound_eq_iff]; norm_num
  have e2 : jsRound ((3000 : ℚ) * (4 / 5)) = 2400 := by
    rw [jsRound_eq_iff]; norm_num
  have e3 : jsRound (3000 : ℚ) = 3000 := by
    rw [jsRound_eq_iff]; norm_num
  rw [crop_wide h, e1, e2, e3]

/-- C1: for positive integer image sides and a positive target ratio,
`calculateCropDimensions` returns, when `imageWidth/imageHeight > targetRatio`, the full
height with `width = round(imageHeight * targetRatio)`,
`x = round((imageWidth - imageHeight * targetRatio)/2)` and `y = 0`; otherwise the full width
with `height = round(imageWidth / targetRatio)`, `x = 0` and
`y = round((imageHeight - imageWidth / targetRatio)/2)`.  For a 4000x3000 source and ratio
4/5 the result is `x = 800, y = 0, width = 2400, height = 3000`. -/
theorem calculateCropDimensions_spec (W H : ℕ) (r : ℚ) (hW : 0 < W) (hH : 0 < H) (hr : 0 < r) :
    ((W : ℚ) / H > r →
        (calculateCropDimensions W H r).height = H ∧
        (calculateCropDimensions W H r).width = jsRound (H * r) ∧
        (calculateCropDimensions W H r).x = jsRound (((W : ℚ) - H * r) / 2) ∧
        (calculateCropDimensions W H r).y = 0) ∧
    (¬ (W : ℚ) / H > r →
        (calculateCropDimensions W H r).width = W ∧
        (calculateCropDimensions W H r).height = jsRound (W / r) ∧
        (calculateCropDimensions W H r).x = 0 ∧
        (calculateCropDimensions W H r).y = jsRound (((H : ℚ) - W / r) / 2)) ∧
    calculateCropDimensions 4000 3000 (4 / 5) =
      { x := 800, y := 0, width := 2400, height := 3000 } := by
  refine ⟨fun h => ?_, fun h => ?_, crop_example⟩
  · rw [crop_wide h]
    exact ⟨jsRound_natCast H, rfl, rfl, rfl⟩
  · rw [crop_tall h]
    exact ⟨jsRound_natCast W, rfl, rfl, rfl⟩

theorem calculateCropDimensions_spec_witness :
    ((calculateCropDimensions (4000 : ℕ) (3000 : ℕ) (4 / 5)).height = (3000 : ℕ) ∧
      (calculateCropDimensions (4000 : ℕ) (3000 : ℕ) (4 / 5)).width
        = jsRound ((3000 : ℕ) * (4 / 5)) ∧
      (calculateCropDimensions (4000 : ℕ) (3000 : ℕ) (4 / 5)).x
        = jsRound ((((4000 : ℕ) : ℚ) - (3000 : ℕ) * (4 / 5)) / 2) ∧
      (calculateCropDimensions (4000 : ℕ) (3000 : ℕ) (4 / 5)).y = 0) ∧
    ((calculateCropDimensions (3000 : ℕ) (4000 : ℕ) (4 / 5)).width = (3000 : ℕ) ∧
      (calculateCropDimensions (3000 : ℕ) (4000 : ℕ) (4 / 5)).height
        = jsRound ((3000 : ℕ) / (4 / 5)) ∧
      (calculateCropDimensions (3000 : ℕ) (4000 : ℕ) (4 / 5)).x = 0 ∧
      (calculateCropDimensions (3000 : ℕ) (4000 : ℕ) (4 / 5)).y
        = jsRound ((((4000 : ℕ) : ℚ) - (3000 : ℕ) / (4 / 5)) / 2)) :=
  ⟨(calculateCropDimensions_spec 4000 3000 (4 / 5) (by decide) (by decide) (by norm_num)).1
      (by norm_num),
   (calculateCropDimensions_spec 3000 4000 (4 / 5) (by decide) (by decide) (by norm_num)).2.1
      (by norm_num)⟩

/-- C2: for positive integer image sides and a positive target ratio, the rounded region
returned by `calculateCropDimensions` lies inside the image: `0 ≤ x`, `0 ≤ y`,
`x + width ≤ imageWidth` and `y + height ≤ imageHeight`. -/
theorem calculateCropDimensions_inside (W H : ℕ) (r : ℚ)
    (hW : 0 < W) (hH : 0 < H) (hr : 0 < r) :
    0 ≤ (calculateCropDimensions W H r).x ∧
    0 ≤ (calculateCropDimensions W H r).y ∧
    (calculateCropDimensions W H r).x + (calculateCropDimensions W H r).width ≤ W ∧
    (calculateCropDimensions W H r).y + (calculateCropDimensions W H r).height ≤ H := by
  have hHq : (0 : ℚ) < H := by exact_mod_cast hH
  have hWq : (0 : ℚ) < W := by exact_mod_cast hW
  by_cases h : (W : ℚ) / H > r
  · rw [crop_wide h]
    have hlt : (H : ℚ) * r < W := by
      have := (lt_div_iff₀ hHq).mp h
      linarith
    have hlt' : (H : ℚ) * r < ((W : ℤ) : ℚ) := by simpa using hlt
    have hsum := jsRound_margin_add_band_lt hlt'
    have hx : 0 ≤ jsRound (((W : ℚ) - H * r) / 2) := jsRound_nonneg (by linarith)
    have hh : jsRound (H : ℚ) = H := jsRound_natCast H
    have hmul : 0 ≤ jsRound ((H : ℚ) * r) := jsRound_nonneg (by positivity)
    simp only [Int.cast_natCast] at hsum
    refine ⟨hx, le_refl _, hsum, ?_⟩
    simp only [hh]
    omega
  · rw [crop_tall h]
    have hle : (W : ℚ) / r ≤ H := by
      have h1 : (W : ℚ) / H ≤ r := not_lt.mp h
      have h2 : (W : ℚ) ≤ r * H := (div_le_iff₀ hHq).mp h1
      rw [div_le_iff₀ hr]
      linarith
    have hle' : (W : ℚ) / r ≤ ((H : ℤ) : ℚ) := by simpa using hle
    have hsum := jsRound_margin_add_band hle'
    have hy : 0 ≤ jsRound (((H : ℚ) - W / r) / 2) := jsRound_nonneg (by linarith)
    have hw : jsRound (W : ℚ) = W := jsRound_natCast W
    simp only [Int.cast_natCast] at hsum
    refine ⟨le_refl _, hy, ?_, hsum⟩
    simp only [hw]
    omega

theorem calculateCropDimensions_inside_witness :
    0 ≤ (calculateCropDimensions (4000 : ℕ) (3000 : ℕ) (4 / 5)).x ∧
    0 ≤ (calculateCropDimensions (4000 : ℕ) (3000 : ℕ) (4 / 5)).y ∧
    (calculateCropDimensions (4000 : ℕ) (3000 : ℕ) (4 / 5)).x
      + (calculateCropDimensions (4000 : ℕ) (3000 : ℕ) (4 / 5)).width ≤ (4000 : ℕ) ∧
    (calculateCropDimensions (4000 : ℕ) (3000 : ℕ) (4 / 5)).y
      + (calculateCropDimensions (4000 : ℕ) (3000 : ℕ) (4 / 5)).height ≤ (3000 : ℕ) :=
  calculateCropDimensions_inside 4000 3000 (4 / 5) (by decide) (by decide) (by norm_num)

theorem crop_width_sub_le (W H : ℕ) (r : ℚ) (hr : 0 < r) :
    |((calculateCropDimensions W H r).width : ℚ) - (calculateCropDimensions W H r).height * r|
      ≤ max 1 r / 2 := by
  by_cases h : (W : ℚ) / H > r
  · rw [crop_wide h]
    simp only [jsRound_natCast, Int.cast_natCast]
    have h1 := jsRound_abs_sub_le ((H : ℚ) * r)
    have h2 : (1 : ℚ) ≤ max 1 r := le_max_left _ _
    linarith
  · rw [crop_tall h]
    simp only [jsRound_natCast, Int.cast_natCast]
    have h1 := jsRound_abs_sub_le ((W : ℚ) / r)
    have h2 : r ≤ max 1 r := le_max_right _ _
    have e : (W : ℚ) - (jsRound ((W : ℚ) / r) : ℚ) * r
        = -(((jsRound ((W : ℚ) / r) : ℚ) - (W : ℚ) / r) * r) := by
      field_simp
    rw [e, abs_neg, abs_mul, abs_of_pos hr]
    nlinarith [abs_nonneg ((jsRound ((W : ℚ) / r) : ℚ) - (W : ℚ) / r)]

/-- C3 as stated fails: a 10x10 image with target ratio 3/4 is cropped to 8x10, whose
ratio 0.8 is 0.05 away from 0.75. -/
theorem calculateCropDimensions_ratio_counterexample :
    calculateCropDimensions 10 10 (3 / 4) = { x := 1, y := 0, width := 8, height := 10 } ∧
    ¬ |((calculateCropDimensions 10 10 (3 / 4)).width : ℚ)
        / (calculateCropDimensions 10 10 (3 / 4)).height - 3 / 4| ≤ 1 / 100 := by
  have h : (10 : ℚ) / 10 > 3 / 4 := by norm_num
  have e1 : jsRound (((10 : ℚ) - 10 * (3 / 4)) / 2) = 1 := by
    rw [jsRound_eq_iff]; norm_num
  have e2 : jsRound ((10 : ℚ) * (3 / 4)) = 8 := by
    rw [jsRound_eq_iff]; norm_num
  have e3 : jsRound (10 : ℚ) = 10 := by
    rw [jsRound_eq_iff]; norm_num
  have e : calculateCropDimensions 10 10 (3 / 4) = { x := 1, y := 0, width := 8, height := 10 } := by
    rw [crop_wide h, e1, e2, e3]
  refine ⟨e, ?_⟩
  rw [e]
  norm_num [abs_le]

/-- C3 (amended): for positive integer image sides and a positive target ratio, the returned
region satisfies `|width - height * targetRatio| ≤ max(1, targetRatio)/2`, so that
`|width/height - targetRatio| ≤ 0.01` whenever the returned height is at least
`50 * max(1, targetRatio)`. -/
theorem calculateCropDimensions_ratio (W H : ℕ) (r : ℚ)
    (hW : 0 < W) (hH : 0 < H) (hr : 0 < r) :
    |((calculateCropDimensions W H r).width : ℚ) - (calculateCropDimensions W H r).height * r|
      ≤ max 1 r / 2 ∧
    (50 * max 1 r ≤ ((calculateCropDimensions W H r).height : ℚ) →
      |((calculateCropDimensions W H r).width : ℚ) / (calculateCropDimensions W H r).height - r|
        ≤ 1 / 100) := by
  have hmain := crop_width_sub_le W H r hr
  refine ⟨hmain, fun hbig => ?_⟩
  have hm : (1 : ℚ) ≤ max 1 r := le_max_left _ _
  have hpos : (0 : ℚ) < ((calculateCropDimensions W H r).height : ℚ) := by linarith
  have e : ((calculateCropDimensions W H r).width : ℚ) / (calculateCropDimensions W H r).height - r
      = (((calculateCropDimensions W H r).width : ℚ) - (calculateCropDimensions W H r).height * r)
          / (calculateCropDimensions W H r).height := by
    field_simp
  rw [e, abs_div, abs_of_pos hpos, div_le_iff₀ hpos]
  linarith

theorem calculateCropDimensions_ratio_witness :
    |((calculateCropDimensions (4000 : ℕ) (3000 : ℕ) (4 / 5)).width : ℚ)
        - (calculateCropDimensions (4000 : ℕ) (3000 : ℕ) (4 / 5)).height * (4 / 5)|
      ≤ max 1 (4 / 5) / 2 ∧
    |((calculateCropDimensions (4000 : ℕ) (3000 : ℕ) (4 / 5)).width : ℚ)
        / (calculateCropDimensions (4000 : ℕ) (3000 : ℕ) (4 / 5)).height - 4 / 5|
      ≤ 1 / 100 :=
  ⟨(calculateCropDimensions_ratio 4000 3000 (4 / 5) (by decide) (by decide) (by norm_num)).1,
   (calculateCropDimensions_ratio 4000 3000 (4 / 5) (by decide) (by decide) (by norm_num)).2 (by
      have e : calculateCropDimensions ((4000 : ℕ) : ℚ) ((3000 : ℕ) : ℚ) (4 / 5)
          = { x := 800, y := 0, width := 2400, height := 3000 } := by
        simpa using crop_example
      rw [e]
      norm_num)⟩

/-- C4: for positive integer image sides and a positive target ratio, the returned region
spans the full image width or the full image height, and every rectangle `w x h` with
`w / h = targetRatio`, `0 < w ≤ imageWidth` and `0 < h ≤ imageHeight` has
`w ≤ width + 1/2` and `h ≤ height + 1/2`: the returned sizes are the rounded sizes of the
largest rectangle of that ratio fitting in the image. -/
theorem calculateCropDimensions_maximal (W H : ℕ) (r : ℚ)
    (hW : 0 < W) (hH : 0 < H) (hr : 0 < r) :
    ((calculateCropDimensions W H r).width = W ∨ (calculateCropDimensions W H r).height = H) ∧
    ∀ w h : ℚ, w / h = r → 0 < w → w ≤ W → 0 < h → h ≤ H →
      w ≤ (calculateCropDimensions W H r).width + 1 / 2 ∧
      h ≤ (calculateCropDimensions W H r).height + 1 / 2 := by
  by_cases hc : (W : ℚ) / H > r
  · rw [crop_wide hc]
    simp only [jsRound_natCast, Int.cast_natCast]
    refine ⟨Or.inr trivial, fun w h hwh _ _ hh0 hhH => ?_⟩
    have hw : w = h * r := by
      rw [← hwh]; field_simp
    have h1 := jsRound_gt ((H : ℚ) * r)
    have h2 : h * r ≤ (H : ℚ) * r := mul_le_mul_of_nonneg_right hhH hr.le
    constructor <;> linarith
  · rw [crop_tall hc]
    simp only [jsRound_natCast, Int.cast_natCast]
    refine ⟨Or.inl trivial, fun w h hwh _ hwW hh0 _ => ?_⟩
    have hh : h = w / r := by
      rw [← hwh]; field_simp
    have h1 := jsRound_gt ((W : ℚ) / r)
    have h2 : w / r ≤ (W : ℚ) / r := div_le_div_of_nonneg_right hwW hr.le
    constructor <;> linarith

theorem calculateCropDimensions_maximal_witness :
    ((calculateCropDimensions (4000 : ℕ) (3000 : ℕ) (4 / 5)).width = (4000 : ℕ) ∨
      (calculateCropDimensions (4000 : ℕ) (3000 : ℕ) (4 / 5)).height = (3000 : ℕ)) ∧
    ((2400 : ℚ) ≤ (calculateCropDimensions (4000 : ℕ) (3000 : ℕ) (4 / 5)).width + 1 / 2 ∧
      (3000 : ℚ) ≤ (calculateCropDimensions (4000 : ℕ) (3000 : ℕ) (4 / 5)).height + 1 / 2) :=
  ⟨(calculateCropDimensions_maximal 4000 3000 (4 / 5) (by decide) (by decide) (by norm_num)).1,
   (calculateCropDimensions_maximal 4000 3000 (4 / 5) (by decide) (by decide) (by norm_num)).2
      2400 3000 (by norm_num) (by norm_num) (by norm_num) (by norm_num) (by norm_num)⟩

/-! ## Pixel dimensions of the catalog -/

theorem inchesToPixels_natCast_mul (n : ℕ) : inchesToPixels (n : ℚ) = n * 300 := by
  unfold inchesToPixels TARGET_DPI
  have h := jsRound_natCast (n * 300)
  push_cast at h
  exact h

/-- C5: for every entry of the catalog returned by `getAllSizes`,
`calculatePixelDimensions` has `width = round(size.width * 300)` and
`height = round(size.height * 300)`, each side converted on its own, and keeps the label
and `aspectRatio = size.width / size.height`; the 4x6 entry gives 1200x1800 and the 11x14
entry gives 3300x4200. -/
theorem calculatePixelDimensions_catalog :
    (∀ size ∈ getAllSizes,
      (calculatePixelDimensions size).width = jsRound (size.width * 300) ∧
      (calculatePixelDimensions size).height = jsRound (size.height * 300) ∧
      (calculatePixelDimensions size).label = size.label ∧
      (calculatePixelDimensions size).aspectRatio = size.width / size.height) ∧
    ({ width := 4, height := 6, label := "4×6\"" } ∈ getAllSizes ∧
      calculatePixelDimensions { width := 4, height := 6, label := "4×6\"" }
        = { width := 1200, height := 1800, label := "4×6\"", aspectRatio := 4 / 6 }) ∧
    ({ width := 11, height := 14, label := "11×14\"" } ∈ getAllSizes ∧
      calculatePixelDimensions { width := 11, height := 14, label := "11×14\"" }
        = { width := 3300, height := 4200, label := "11×14\"", aspectRatio := 11 / 14 }) := by
  refine ⟨fun size _ => ⟨rfl, rfl, rfl, rfl⟩, ⟨?_, ?_⟩, ⟨?_, ?_⟩⟩
  · simp [getAllSizes, PRINT_SIZES]
  · have h4 := inchesToPixels_natCast_mul 4
    have h6 := inchesToPixels_natCast_mul 6
    norm_num at h4 h6
    simp only [calculatePixelDimensions, h4, h6]
  · simp [getAllSizes, PRINT_SIZES]
  · have h11 := inchesToPixels_natCast_mul 11
    have h14 := inchesToPixels_natCast_mul 14
    norm_num at h11 h14
    simp only [calculatePixelDimensions, h11, h14]

theorem calculatePixelDimensions_catalog_witness :
    (calculatePixelDimensions { width := 8, height := 10, label := "8×10\"" }).width
        = jsRound ((8 : ℚ) * 300) ∧
    (calculatePixelDimensions { width := 8, height := 10, label := "8×10\"" }).height
        = jsRound ((10 : ℚ) * 300) ∧
    (calculatePixelDimensions { width := 8, height := 10, label := "8×10\"" }).label
        = "8×10\"" ∧
    (calculatePixelDimensions { width := 8, height := 10, label := "8×10\"" }).aspectRatio
        = (8 : ℚ) / 10 :=
  calculatePixelDimensions_catalog.1 { width := 8, height := 10, label := "8×10\"" }
    (by simp [getAllSizes, PRINT_SIZES])

/-! ## The marker scan -/

theorem markerAt_lt_length {d : List Nat} {m j : Nat} (h : markerAt d m j) :
    j + 1 < d.length := by
  by_contra hlt
  have hnone : d[j + 1]? = none := List.getElem?_eq_none (by omega)
  rw [h.2] at hnone
  exact Option.noConfusion hnone

theorem scanMarker_eq_some {d : List Nat} {m : Nat} :
    ∀ (n i k : Nat), scanMarker d m i n = some k →
      i ≤ k ∧ k < i + n ∧ markerAt d m k ∧ ∀ j, i ≤ j → j < k → ¬ markerAt d m j := by
  intro n
  induction n with
  | zero =>
    intro i k h
    simp [scanMarker] at h
  | succ n ih =>
    intro i k h
    unfold scanMarker at h
    split at h
    · rename_i hc
      injection h with h
      subst h
      exact ⟨le_refl _, by omega, hc, fun j h1 h2 => by omega⟩
    · rename_i hc
      obtain ⟨h1, h2, h3, h4⟩ := ih (i + 1) k h
      refine ⟨by omega, by omega, h3, fun j hj1 hj2 => ?_⟩
      rcases Nat.eq_or_lt_of_le hj1 with e | e
      · subst e
        exact hc
      · exact h4 j e hj2

theorem scanMarker_eq_none {d : List Nat} {m : Nat} :
    ∀ (n i : Nat), scanMarker d m i n = none →
      ∀ j, i ≤ j → j < i + n → ¬ markerAt d m j := by
  intro n
  induction n with
  | zero =>
    intro i _ j h1 h2
    omega
  | succ n ih =>
    intro i h j h1 h2
    unfold scanMarker at h
    split at h
    · exact Option.noConfusion h
    · rename_i hc
      rcases Nat.eq_or_lt_of_le h1 with e | e
      · subst e
        exact hc
      · exact ih (i + 1) h j e (by omega)

/-- The scan returns `k` exactly when `k` is the first index holding the pair. -/
theorem findMarker_eq_some_iff {d : List Nat} {m k : Nat} :
    findMarker d m = some k ↔ markerAt d m k ∧ ∀ j, j < k → ¬ markerAt d m j := by
  constructor
  · intro h
    obtain ⟨_, _, h3, h4⟩ := scanMarker_eq_some _ _ _ h
    exact ⟨h3, fun j hj => h4 j (Nat.zero_le _) hj⟩
  · rintro ⟨hk, hmin⟩
    have hlen := markerAt_lt_length hk
    cases hres : findMarker d m with
    | none =>
      exact absurd hk (scanMarker_eq_none _ _ hres k (Nat.zero_le _) (by omega))
    | some k' =>
      obtain ⟨_, _, h3, h4⟩ := scanMarker_eq_some _ _ _ hres
      rcases Nat.lt_trichotomy k' k with h | h | h
      · exact absurd h3 (hmin k' h)
      · rw [h]
      · exact absurd hk (h4 k (Nat.zero_le _) h)

/-- The scan returns the index `-1` exactly when the pair occurs nowhere. -/
theorem findMarker_eq_none_iff {d : List Nat} {m : Nat} :
    findMarker d m = none ↔ ∀ j, ¬ markerAt d m j := by
  constructor
  · intro h j hj
    have hlen := markerAt_lt_length hj
    exact scanMarker_eq_none _ _ h j (Nat.zero_le _) (by omega) hj
  · intro h
    cases hres : findMarker d m with
    | none => rfl
    | some k =>
      obtain ⟨_, _, h3, _⟩ := scanMarker_eq_some _ _ _ hres
      exact absurd h3 (h k)

/-! ## Density bytes -/

theorem dpi_high_byte (dpi : Nat) : (dpi >>> 8) &&& 0xFF = dpi / 256 % 256 := by
  have h := Nat.and_pow_two_sub_one_eq_mod (dpi >>> 8) 8
  rw [Nat.shiftRight_eq_div_pow] at h
  rw [Nat.shiftRight_eq_div_pow]
  exact h

theorem dpi_low_byte (dpi : Nat) : dpi &&& 0xFF = dpi % 256 := by
  have h := Nat.and_pow_two_sub_one_eq_mod dpi 8
  exact h

theorem dpi_bytes_decode {dpi : Nat} (h : dpi < 65536) :
    ((dpi >>> 8) &&& 0xFF) % 256 * 256 + (dpi &&& 0xFF) % 256 = dpi := by
  rw [dpi_high_byte, dpi_low_byte]
  omega

/-! ## Synthesizing a header -/

theorem jfifHeader_length (dpi : Nat) : (jfifHeader dpi).length = 18 := rfl

theorem typedArraySet_ok {t s : List Nat} {o : Nat} (h : o + s.length ≤ t.length) :
    typedArraySet t s o = .ok (t.take o ++ s ++ t.drop (o + s.length)) :=
  if_pos h

/-- Whenever a start-of-image marker exists somewhere, `createJFIFHeader` returns the first
two bytes of the input, then the header block, then the rest of the input. -/
theorem createJFIFHeader_of_soi {d : List Nat} {s : Nat} (dpi : Nat)
    (h : findMarker d 0xD8 = some s) :
    createJFIFHeader d dpi
      = .ok (some { bytes := d.take 2 ++ jfifHeader dpi ++ d.drop 2, type := "image/jpeg" }) := by
  have hlen : s + 1 < d.length := markerAt_lt_length (findMarker_eq_some_iff.mp h).1
  match d, hlen with
  | b0 :: b1 :: rest, _ =>
    have e0 : 2 + (jfifHeader dpi).length + (b0 :: b1 :: rest).length - 2 = rest.length + 20 := by
      simp only [jfifHeader_length, List.length_cons]
      omega
    have s1 : typedArraySet (List.replicate (rest.length + 20) 0) ((b0 :: b1 :: rest).take 2) 0
        = .ok (b0 :: b1 :: List.replicate (rest.length + 18) 0) := by
      rw [typedArraySet_ok (by simp)]
      simp
    have s2 : typedArraySet (b0 :: b1 :: List.replicate (rest.length + 18) 0) (jfifHeader dpi) 2
        = .ok (b0 :: b1 :: (jfifHeader dpi ++ List.replicate rest.length 0)) := by
      rw [typedArraySet_ok (by simp [jfifHeader_length])]
      simp [jfifHeader_length]
    have s3 : typedArraySet (b0 :: b1 :: (jfifHeader dpi ++ List.replicate rest.length 0))
          ((b0 :: b1 :: rest).drop 2) (2 + (jfifHeader dpi).length)
        = .ok (b0 :: b1 :: (jfifHeader dpi ++ rest)) := by
      rw [typedArraySet_ok (by simp [jfifHeader_length]; omega)]
      simp [jfifHeader_length]
      omega
    unfold createJFIFHeader
    rw [h]
    simp only [e0, s1, s2, s3, bind, Except.bind]
    simp

/-- C7 (the code departs from the claim): on the input `00 FF D8 01`, which has no `FF E0`
pair and whose start-of-image marker is at index 1, the header block is spliced in at
offset 2, between the two bytes of the marker, and not at offset 3 right after it. -/
theorem createJFIFHeader_splits_marker :
    findMarker [0x00, 0xFF, 0xD8, 0x01] 0xE0 = none ∧
    findMarker [0x00, 0xFF, 0xD8, 0x01] 0xD8 = some 1 ∧
    createJFIFHeader [0x00, 0xFF, 0xD8, 0x01] 300
      = .ok (some { bytes := [0x00, 0xFF] ++ jfifHeader 300 ++ [0xD8, 0x01],
                    type := "image/jpeg" }) ∧
    addJFIFDPI [0x00, 0xFF, 0xD8, 0x01] 300
      = some { bytes := [0x00, 0xFF, 0xFF, 0xE0, 0x00, 0x10, 0x4A, 0x46, 0x49, 0x46, 0x00,
                         0x01, 0x01, 0x01, 0x01, 0x2C, 0x01, 0x2C, 0x00, 0x00, 0xD8, 0x01],
               type := "image/jpeg" } ∧
    [0x00, 0xFF] ++ jfifHeader 300 ++ [0xD8, 0x01]
      ≠ [0x00, 0xFF, 0xD8] ++ jfifHeader 300 ++ [0x01] := by
  refine ⟨by decide, by decide, rfl, by decide, by decide⟩

/-! ## Overwriting an existing header -/

theorem u8set_getElem? (a : List Nat) (i v j : Nat) :
    (u8set a i v)[j]? = if i = j then (if i < a.length then some (v % 256) else none) else a[j]? :=
  List.getElem?_set

theorem u8set_length (a : List Nat) (i v : Nat) : (u8set a i v).length = a.length :=
  List.length_set _ _ _

/-- The result of `addJFIFDPI` when the first `FF E0` pair is followed by `JF`. -/
theorem addJFIFDPI_of_header {d : List Nat} {i : Nat} (dpi : Nat)
    (hfm : findMarker d 0xE0 = some i)
    (hJF : d[i + 4]? = some 0x4A ∧ d[i + 4 + 1]? = some 0x46) :
    addJFIFDPI d dpi =
      some { bytes :=
               u8set (u8set (u8set (u8set (u8set d (i + 4 + 7) 0x01)
                 (i + 4 + 8) ((dpi >>> 8) &&& 0xFF)) (i + 4 + 9) (dpi &&& 0xFF))
                 (i + 4 + 10) ((dpi >>> 8) &&& 0xFF)) (i + 4 + 11) (dpi &&& 0xFF),
             type := "image/jpeg" } := by
  unfold addJFIFDPI
  rw [hfm]
  simp only [if_pos hJF]

theorem addJFIFDPI_of_not_header {d : List Nat} {i : Nat} (dpi : Nat)
    (hfm : findMarker d 0xE0 = some i)
    (hJF : ¬ (d[i + 4]? = some 0x4A ∧ d[i + 4 + 1]? = some 0x46)) :
    addJFIFDPI d dpi = none := by
  unfold addJFIFDPI
  rw [hfm]
  simp only [if_neg hJF]

/-- C6 as stated fails on a truncated header: for the six bytes `FF E0 00 10 4A 46` the
first `FF E0` pair is at index 0 and is followed by `JF`, the five stores fall past the end
and are dropped, and the output has no unit byte at index 11. -/
theorem addJFIFDPI_overwrite_counterexample :
    markerAt [0xFF, 0xE0, 0x00, 0x10, 0x4A, 0x46] 0xE0 0 ∧
    ([0xFF, 0xE0, 0x00, 0x10, 0x4A, 0x46] : List Nat)[0 + 4]? = some 0x4A ∧
    ([0xFF, 0xE0, 0x00, 0x10, 0x4A, 0x46] : List Nat)[0 + 5]? = some 0x46 ∧
    addJFIFDPI [0xFF, 0xE0, 0x00, 0x10, 0x4A, 0x46] 300
      = some { bytes := [0xFF, 0xE0, 0x00, 0x10, 0x4A, 0x46], type := "image/jpeg" } ∧
    ([0xFF, 0xE0, 0x00, 0x10, 0x4A, 0x46] : List Nat)[0 + 11]? ≠ some 1 := by
  refine ⟨by decide, by decide, by decide, by decide, by decide⟩

/-- C6 (amended): for every byte array of at least `i + 16` bytes whose first `FF E0` pair
is at index `i` with bytes `i+4`, `i+5` equal to `J`, `F`, and every `dpi < 65536`,
`addJFIFDPI` returns an array of the same length whose byte `i+11` is 1 (inches), whose
bytes `i+12..i+13` and `i+14..i+15` each decode as a big-endian 16-bit number to `dpi`, and
whose bytes outside positions `i+11..i+15` are those of the input. -/
theorem addJFIFDPI_overwrite (d : List Nat) (i dpi : Nat)
    (hpair : markerAt d 0xE0 i) (hfirst : ∀ j, j < i → ¬ markerAt d 0xE0 j)
    (hJ : d[i + 4]? = some 0x4A) (hF : d[i + 5]? = some 0x46)
    (hdpi : dpi < 65536) (hlen : i + 15 < d.length) :
    ∃ out : Blob, addJFIFDPI d dpi = some out ∧
      out.bytes.length = d.length ∧
      out.bytes[i + 11]? = some 1 ∧
      (∃ hi lo, out.bytes[i + 12]? = some hi ∧ out.bytes[i + 13]? = some lo ∧
        hi < 256 ∧ lo < 256 ∧ hi * 256 + lo = dpi) ∧
      (∃ hi lo, out.bytes[i + 14]? = some hi ∧ out.bytes[i + 15]? = some lo ∧
        hi < 256 ∧ lo < 256 ∧ hi * 256 + lo = dpi) ∧
      ∀ j, (j < i + 11 ∨ i + 15 < j) → out.bytes[j]? = d[j]? := by
  have hfm : findMarker d 0xE0 = some i := findMarker_eq_some_iff.mpr ⟨hpair, hfirst⟩
  have hdec := dpi_bytes_decode hdpi
  have hhi : ((dpi >>> 8) &&& 0xFF) % 256 < 256 := Nat.mod_lt _ (by decide)
  have hlo : (dpi &&& 0xFF) % 256 < 256 := Nat.mod_lt _ (by decide)
  refine ⟨_, addJFIFDPI_of_header dpi hfm ⟨hJ, hF⟩, ?_, ?_, ?_, ?_, ?_⟩
  · simp only [u8set_length]
  · have e1 : i + 4 + 7 = i + 11 := by omega
    have n2 : i + 4 + 8 ≠ i + 11 := by omega
    have n3 : i + 4 + 9 ≠ i + 11 := by omega
    have n4 : i + 4 + 10 ≠ i + 11 := by omega
    have n5 : i + 4 + 11 ≠ i + 11 := by omega
    have hl : i + 11 < d.length := by omega
    simp only [u8set_getElem?, u8set_length, if_neg n2, if_neg n3, if_neg n4, if_neg n5, e1,
      if_pos rfl, if_pos hl, ↓reduceIte]
  · refine ⟨((dpi >>> 8) &&& 0xFF) % 256, (dpi &&& 0xFF) % 256, ?_, ?_, hhi, hlo, hdec⟩
    · have e2 : i + 4 + 8 = i + 12 := by omega
      have n3 : i + 4 + 9 ≠ i + 12 := by omega
      have n4 : i + 4 + 10 ≠ i + 12 := by omega
      have n5 : i + 4 + 11 ≠ i + 12 := by omega
      have hl : i + 12 < d.length := by omega
      simp only [u8set_getElem?, u8set_length, if_neg n3, if_neg n4, if_neg n5, e2,
        if_pos rfl, if_pos hl, ↓reduceIte]
    · have e3 : i + 4 + 9 = i + 13 := by omega
      have n4 : i + 4 + 10 ≠ i + 13 := by omega
      have n5 : i + 4 + 11 ≠ i + 13 := by omega
      have hl : i + 13 < d.length := by omega
      simp only [u8set_getElem?, u8set_length, if_neg n4, if_neg n5, e3, if_pos rfl, if_pos hl, ↓reduceIte]
  · refine ⟨((dpi >>> 8) &&& 0xFF) % 256, (dpi &&& 0xFF) % 256, ?_, ?_, hhi, hlo, hdec⟩
    · have e4 : i + 4 + 10 = i + 14 := by omega
      have n5 : i + 4 + 11 ≠ i + 14 := by omega
      have hl : i + 14 < d.length := by omega
      simp only [u8set_getElem?, u8set_length, if_neg n5, e4, if_pos rfl, if_pos hl, ↓reduceIte]
    · have e5 : i + 4 + 11 = i + 15 := by omega
      simp only [u8set_getElem?, u8set_length, e5, if_pos rfl, if_pos hlen, ↓reduceIte]
  · intro j hj
    have n1 : i + 4 + 7 ≠ j := by omega
    have n2 : i + 4 + 8 ≠ j := by omega
    have n3 : i + 4 + 9 ≠ j := by omega
    have n4 : i + 4 + 10 ≠ j := by omega
    have n5 : i + 4 + 11 ≠ j := by omega
    simp only [u8set_getElem?, if_neg n1, if_neg n2, if_neg n3, if_neg n4, if_neg n5]

theorem addJFIFDPI_overwrite_witness :
    ∃ out : Blob,
      addJFIFDPI [0xFF, 0xD8, 0xFF, 0xE0, 0x00, 0x10, 0x4A, 0x46, 0x49, 0x46, 0x00, 0x01, 0x01,
                  0x00, 0x00, 0x48, 0x00, 0x48, 0x00, 0x00] 300 = some out ∧
      out.bytes.length
        = [0xFF, 0xD8, 0xFF, 0xE0, 0x00, 0x10, 0x4A, 0x46, 0x49, 0x46, 0x00, 0x01, 0x01,
           0x00, 0x00, 0x48, 0x00, 0x48, 0x00, 0x00].length ∧
      out.bytes[2 + 11]? = some 1 ∧
      (∃ hi lo, out.bytes[2 + 12]? = some hi ∧ out.bytes[2 + 13]? = some lo ∧
        hi < 256 ∧ lo < 256 ∧ hi * 256 + lo = 300) ∧
      (∃ hi lo, out.bytes[2 + 14]? = some hi ∧ out.bytes[2 + 15]? = some lo ∧
        hi < 256 ∧ lo < 256 ∧ hi * 256 + lo = 300) ∧
      ∀ j, (j < 2 + 11 ∨ 2 + 15 < j) → out.bytes[j]?
        = [0xFF, 0xD8, 0xFF, 0xE0, 0x00, 0x10, 0x4A, 0x46, 0x49, 0x46, 0x00, 0x01, 0x01,
           0x00, 0x00, 0x48, 0x00, 0x48, 0x00, 0x00][j]? :=
  addJFIFDPI_overwrite
    [0xFF, 0xD8, 0xFF, 0xE0, 0x00, 0x10, 0x4A, 0x46, 0x49, 0x46, 0x00, 0x01, 0x01,
     0x00, 0x00, 0x48, 0x00, 0x48, 0x00, 0x00] 2 300
    (by decide) (by decide) (by decide) (by decide) (by decide) (by decide)

/-! ## Idempotence -/

theorem and_255_mod (x : Nat) : (x &&& 0xFF) % 256 = x &&& 0xFF := by
  rw [dpi_low_byte, Nat.mod_mod]

/-- Storing the five density bytes a second time changes nothing. -/
theorem u8set_density_twice (d : List Nat) (k v1 v2 v3 v4 v5 : Nat) :
    u8set (u8set (u8set (u8set (u8set
      (u8set (u8set (u8set (u8set (u8set d (k + 7) v1) (k + 8) v2) (k + 9) v3) (k + 10) v4)
        (k + 11) v5)
      (k + 7) v1) (k + 8) v2) (k + 9) v3) (k + 10) v4) (k + 11) v5
    = u8set (u8set (u8set (u8set (u8set d (k + 7) v1) (k + 8) v2) (k + 9) v3) (k + 10) v4)
        (k + 11) v5 := by
  apply List.ext_getElem?
  intro j
  simp only [u8set_getElem?, u8set_length]
  split_ifs <;> rfl

/-- The five stores leave every byte below `k + 7` alone. -/
theorem u8set_density_below (d : List Nat) (k v1 v2 v3 v4 v5 j : Nat) (hj : j < k + 7) :
    (u8set (u8set (u8set (u8set (u8set d (k + 7) v1) (k + 8) v2) (k + 9) v3) (k + 10) v4)
        (k + 11) v5)[j]? = d[j]? := by
  have n1 : k + 7 ≠ j := by omega
  have n2 : k + 8 ≠ j := by omega
  have n3 : k + 9 ≠ j := by omega
  have n4 : k + 10 ≠ j := by omega
  have n5 : k + 11 ≠ j := by omega
  simp only [u8set_getElem?, if_neg n1, if_neg n2, if_neg n3, if_neg n4, if_neg n5]

theorem addJFIFDPI_idem_overwrite {d : List Nat} {i : Nat} (dpi : Nat) {out : Blob}
    (hfm : findMarker d 0xE0 = some i) (h : addJFIFDPI d dpi = some out) :
    addJFIFDPI out.bytes dpi = some out := by
  by_cases hJF : d[i + 4]? = some 0x4A ∧ d[i + 4 + 1]? = some 0x46
  · rw [addJFIFDPI_of_header dpi hfm hJF] at h
    injection h with h
    subst h
    obtain ⟨hpair, hmin⟩ := findMarker_eq_some_iff.mp hfm
    have hsame : ∀ j, j < i + 4 + 7 →
        (u8set (u8set (u8set (u8set (u8set d (i + 4 + 7) 0x01)
          (i + 4 + 8) ((dpi >>> 8) &&& 0xFF)) (i + 4 + 9) (dpi &&& 0xFF))
          (i + 4 + 10) ((dpi >>> 8) &&& 0xFF)) (i + 4 + 11) (dpi &&& 0xFF))[j]? = d[j]? :=
      fun j hj => u8set_density_below d (i + 4) _ _ _ _ _ j hj
    have hfm2 : findMarker
        (u8set (u8set (u8set (u8set (u8set d (i + 4 + 7) 0x01)
          (i + 4 + 8) ((dpi >>> 8) &&& 0xFF)) (i + 4 + 9) (dpi &&& 0xFF))
          (i + 4 + 10) ((dpi >>> 8) &&& 0xFF)) (i + 4 + 11) (dpi &&& 0xFF)) 0xE0 = some i := by
      rw [findMarker_eq_some_iff]
      constructor
      · unfold markerAt
        rw [hsame i (by omega), hsame (i + 1) (by omega)]
        exact hpair
      · intro j hj hm
        apply hmin j hj
        unfold markerAt at hm ⊢
        rw [hsame j (by omega), hsame (j + 1) (by omega)] at hm
        exact hm
    have hJF2 :
        (u8set (u8set (u8set (u8set (u8set d (i + 4 + 7) 0x01)
          (i + 4 + 8) ((dpi >>> 8) &&& 0xFF)) (i + 4 + 9) (dpi &&& 0xFF))
          (i + 4 + 10) ((dpi >>> 8) &&& 0xFF)) (i + 4 + 11) (dpi &&& 0xFF))[i + 4]? = some 0x4A ∧
        (u8set (u8set (u8set (u8set (u8set d (i + 4 + 7) 0x01)
          (i + 4 + 8) ((dpi >>> 8) &&& 0xFF)) (i + 4 + 9) (dpi &&& 0xFF))
          (i + 4 + 10) ((dpi >>> 8) &&& 0xFF)) (i + 4 + 11) (dpi &&& 0xFF))[i + 4 + 1]?
            = some 0x46 := by
      rw [hsame (i + 4) (by omega), hsame (i + 4 + 1) (by omega)]
      exact hJF
    rw [addJFIFDPI_of_header dpi hfm2 hJF2, u8set_density_twice]
  · rw [addJFIFDPI_of_not_header dpi hfm hJF] at h
    exact Option.noConfusion h

theorem addJFIFDPI_of_no_app0 {d : List Nat} {s : Nat} (dpi : Nat)
    (hE : findMarker d 0xE0 = none) (hD : findMarker d 0xD8 = some s) :
    addJFIFDPI d dpi
      = some { bytes := d.take 2 ++ jfifHeader dpi ++ d.drop 2, type := "image/jpeg" } := by
  unfold addJFIFDPI
  rw [hE]
  simp only [createJFIFHeader_of_soi dpi hD]

theorem addJFIFDPI_of_no_marker {d : List Nat} (dpi : Nat)
    (hE : findMarker d 0xE0 = none) (hD : findMarker d 0xD8 = none) :
    addJFIFDPI d dpi = none := by
  unfold addJFIFDPI createJFIFHeader
  rw [hE]
  simp only [hD]

theorem addJFIFDPI_idem_synthesized {d : List Nat} (dpi : Nat) {out : Blob}
    (hE : findMarker d 0xE0 = none) (h : addJFIFDPI d dpi = some out) :
    addJFIFDPI out.bytes dpi = some out := by
  cases hD : findMarker d 0xD8 with
  | none =>
    rw [addJFIFDPI_of_no_marker dpi hE hD] at h
    exact Option.noConfusion h
  | some s =>
    rw [addJFIFDPI_of_no_app0 dpi hE hD] at h
    injection h with h
    subst h
    have hlen : s + 1 < d.length := markerAt_lt_length (findMarker_eq_some_iff.mp hD).1
    have h0 : ¬ markerAt d 0xE0 0 := (findMarker_eq_none_iff.mp hE) 0
    match d, hlen, h0 with
    | b0 :: b1 :: rest, _, h0 =>
      have hfm2 : findMarker ((b0 :: b1 :: rest).take 2 ++ jfifHeader dpi
          ++ (b0 :: b1 :: rest).drop 2) 0xE0 = some 2 := by
        rw [findMarker_eq_some_iff]
        constructor
        · simp [markerAt, jfifHeader]
        · intro j hj hm
          have hj' : j = 0 ∨ j = 1 := by omega
          rcases hj' with e | e
          · subst e
            apply h0
            simpa [markerAt] using hm
          · subst e
            simp [markerAt, jfifHeader] at hm
      have hJF2 :
          ((b0 :: b1 :: rest).take 2 ++ jfifHeader dpi ++ (b0 :: b1 :: rest).drop 2)[2 + 4]?
            = some 0x4A ∧
          ((b0 :: b1 :: rest).take 2 ++ jfifHeader dpi ++ (b0 :: b1 :: rest).drop 2)[2 + 4 + 1]?
            = some 0x46 := by
        simp [jfifHeader]
      rw [addJFIFDPI_of_header dpi hfm2 hJF2]
      simp [u8set, jfifHeader, and_255_mod]

/-- C8: whenever `addJFIFDPI` produces an output for some `dpi` (in particular for
`0 ≤ dpi < 65536`), applying `addJFIFDPI` with the same `dpi` to that output succeeds and
returns the very same bytes, hence the same declared unit and densities, both when the first
call overwrote an existing header and when it synthesized one. -/
theorem addJFIFDPI_idempotent (d : List Nat) (dpi : Nat) (out : Blob)
    (h : addJFIFDPI d dpi = some out) :
    addJFIFDPI out.bytes dpi = some out := by
  cases hE : findMarker d 0xE0 with
  | none => exact addJFIFDPI_idem_synthesized dpi hE h
  | some i => exact addJFIFDPI_idem_overwrite dpi hE h

theorem addJFIFDPI_idempotent_witness :
    addJFIFDPI
        (Blob.mk [0xFF, 0xD8, 0xFF, 0xE0, 0x00, 0x10, 0x4A, 0x46, 0x49, 0x46, 0x00, 0x01, 0x01,
                  0x01, 0x01, 0x2C, 0x01, 0x2C, 0x00, 0x00] "image/jpeg").bytes 300
      = some (Blob.mk [0xFF, 0xD8, 0xFF, 0xE0, 0x00, 0x10, 0x4A, 0x46, 0x49, 0x46, 0x00, 0x01,
                       0x01, 0x01, 0x01, 0x2C, 0x01, 0x2C, 0x00, 0x00] "image/jpeg") ∧
    addJFIFDPI
        (Blob.mk [0xFF, 0xD8, 0xFF, 0xE0, 0x00, 0x10, 0x4A, 0x46, 0x49, 0x46, 0x00, 0x01, 0x01,
                  0x01, 0x01, 0x2C, 0x01, 0x2C, 0x00, 0x00, 0xFF, 0xDB, 0x00] "image/jpeg").bytes
        300
      = some (Blob.mk [0xFF, 0xD8, 0xFF, 0xE0, 0x00, 0x10, 0x4A, 0x46, 0x49, 0x46, 0x00, 0x01,
                       0x01, 0x01, 0x01, 0x2C, 0x01, 0x2C, 0x00, 0x00, 0xFF, 0xDB, 0x00]
                "image/jpeg") :=
  ⟨addJFIFDPI_idempotent
      [0xFF, 0xD8, 0xFF, 0xE0, 0x00, 0x10, 0x4A, 0x46, 0x49, 0x46, 0x00, 0x01, 0x01,
       0x00, 0x00, 0x48, 0x00, 0x48, 0x00, 0x00] 300 _ (by decide),
   addJFIFDPI_idempotent [0xFF, 0xD8, 0xFF, 0xDB, 0x00] 300 _ (by decide)⟩

/-! ## When the primary strategy gives up -/

/-- C9 as stated fails: the ten bytes `FF D8 FF E0 00 10 41 56 49 31` (a start-of-image
marker followed by an `AVI1` application segment) contain an `FF D8` pair at index 0, and
`addJFIFDPI` still returns `null`, because the first `FF E0` pair is not followed by `JF`. -/
theorem addJFIFDPI_null_counterexample :
    markerAt [0xFF, 0xD8, 0xFF, 0xE0, 0x00, 0x10, 0x41, 0x56, 0x49, 0x31] 0xD8 0 ∧
    addJFIFDPI [0xFF, 0xD8, 0xFF, 0xE0, 0x00, 0x10, 0x41, 0x56, 0x49, 0x31] 300 = none := by
  refine ⟨by decide, by decide⟩

/-- C9 (amended): `addJFIFDPI` returns `null`, so that `embedDPIMetadata` falls back to
`addEXIFDPI`, exactly when either the input contains neither an `FF E0` pair nor an `FF D8`
pair, or its first `FF E0` pair, at index `i`, is not followed by `J`, `F` at `i+4`, `i+5`. -/
theorem addJFIFDPI_eq_none_iff (d : List Nat) (dpi : Nat) :
    addJFIFDPI d dpi = none ↔
      ((∀ j, ¬ markerAt d 0xE0 j) ∧ (∀ j, ¬ markerAt d 0xD8 j)) ∨
      (∃ i, (markerAt d 0xE0 i ∧ ∀ j, j < i → ¬ markerAt d 0xE0 j) ∧
        ¬ (d[i + 4]? = some 0x4A ∧ d[i + 5]? = some 0x46)) := by
  constructor
  · intro h
    cases hE : findMarker d 0xE0 with
    | none =>
      cases hD : findMarker d 0xD8 with
      | none => exact Or.inl ⟨findMarker_eq_none_iff.mp hE, findMarker_eq_none_iff.mp hD⟩
      | some s =>
        rw [addJFIFDPI_of_no_app0 dpi hE hD] at h
        exact Option.noConfusion h
    | some i =>
      by_cases hJF : d[i + 4]? = some 0x4A ∧ d[i + 4 + 1]? = some 0x46
      · rw [addJFIFDPI_of_header dpi hE hJF] at h
        exact Option.noConfusion h
      · exact Or.inr ⟨i, findMarker_eq_some_iff.mp hE, hJF⟩
  · rintro (⟨hE, hD⟩ | ⟨i, hfirst, hJF⟩)
    · exact addJFIFDPI_of_no_marker dpi (findMarker_eq_none_iff.mpr hE)
        (findMarker_eq_none_iff.mpr hD)
    · exact addJFIFDPI_of_not_header dpi (findMarker_eq_some_iff.mpr hfirst) hJF

/-! ## Embedding never fails the caller -/

/-- C10: if both strategies of `embedDPIMetadata` fail (`addJFIFDPI` yields `null` and
`addEXIFDPI` throws), `embedDPIMetadata` returns the original blob; and `addDPIMetadata`
returns the original blob when the EXIF insertion throws. -/
theorem embedding_failure_returns_original
    (exifInsert : List Nat → Nat → Except String Blob) (blob : Blob) (dpi : Nat) :
    (addJFIFDPI blob.bytes dpi = none →
      (∃ e, addEXIFDPI exifInsert blob.bytes dpi = .error e) →
      embedDPIMetadata exifInsert blob dpi = blob) ∧
    ((∃ e, exifInsert blob.bytes dpi = .error e) →
      addDPIMetadata exifInsert blob dpi = blob) := by
  constructor
  · rintro h1 ⟨e, h2⟩
    unfold embedDPIMetadata
    simp only [h1, h2]
  · rintro ⟨e, h2⟩
    unfold addDPIMetadata
    simp only [h2]

theorem embedding_failure_returns_original_witness :
    embedDPIMetadata (fun _ _ => .error "piexif: invalid jpeg")
        { bytes := [0x89, 0x50, 0x4E, 0x47], type := "image/png" } 300
      = { bytes := [0x89, 0x50, 0x4E, 0x47], type := "image/png" } ∧
    addDPIMetadata (fun _ _ => .error "piexif: invalid jpeg")
        { bytes := [0x89, 0x50, 0x4E, 0x47], type := "image/png" } 300
      = { bytes := [0x89, 0x50, 0x4E, 0x47], type := "image/png" } :=
  ⟨(embedding_failure_returns_original (fun _ _ => .error "piexif: invalid jpeg")
      { bytes := [0x89, 0x50, 0x4E, 0x47], type := "image/png" } 300).1
      (by decide) ⟨"piexif: invalid jpeg", rfl⟩,
   (embedding_failure_returns_original (fun _ _ => .error "piexif: invalid jpeg")
      { bytes := [0x89, 0x50, 0x4E, 0x47], type := "image/png" } 300).2
      ⟨"piexif: invalid jpeg", rfl⟩⟩

/-! ## Best aspect ratio -/

theorem roundHalfEven_intCast (k : ℤ) : roundHalfEven (k : ℚ) = k := by
  simp [roundHalfEven]

/-- A value strictly within one half of an integer rounds to that integer. -/
theorem roundHalfEven_eq_of_lt (m : ℚ) (k : ℤ) (h1 : (k : ℚ) - 1 / 2 < m)
    (h2 : m < k + 1 / 2) : roundHalfEven m = k := by
  have hf1 : k - 1 ≤ ⌊m⌋ := Int.le_floor.mpr (by push_cast; linarith)
  have hf2 : ⌊m⌋ < k + 1 := Int.floor_lt.mpr (by push_cast; linarith)
  have hfl := Int.floor_le m
  have hfl2 := Int.lt_floor_add_one m
  unfold roundHalfEven
  rcases (by omega : ⌊m⌋ = k - 1 ∨ ⌊m⌋ = k) with h | h
  · have hc : ((⌊m⌋ : ℤ) : ℚ) = k - 1 := by rw [h]; push_cast; ring
    simp only [hc]
    rw [if_neg (by linarith), if_pos (by linarith), h]
    ring
  · have hc : ((⌊m⌋ : ℤ) : ℚ) = k := by rw [h]
    simp only [hc]
    rw [if_pos (by linarith), h]

/-- Rounding moves a value by at most one half. -/
theorem abs_roundHalfEven_sub_le (m : ℚ) : |(roundHalfEven m : ℚ) - m| ≤ 1 / 2 := by
  have hfl := Int.floor_le m
  have hfl2 := Int.lt_floor_add_one m
  unfold roundHalfEven
  simp only
  rw [abs_le]
  split_ifs with h1 h2 h3
  · constructor <;> linarith
  · push_cast; constructor <;> linarith
  · constructor <;> linarith
  · push_cast; constructor <;> linarith

theorem log_two_abs_eq (x : ℚ) (e : ℤ) (h1 : (2 : ℚ) ^ e ≤ |x|) (h2 : |x| < (2 : ℚ) ^ (e + 1)) :
    Int.log 2 |x| = e := by
  have hpos : 0 < |x| := lt_of_lt_of_le (by positivity) h1
  have a1 : e ≤ Int.log 2 |x| :=
    (Int.zpow_le_iff_le_log (by norm_num : 1 < 2) hpos).mp (by exact_mod_cast h1)
  have a2 : Int.log 2 |x| < e + 1 :=
    (Int.lt_zpow_iff_log_lt (by norm_num : 1 < 2) hpos).mp (by exact_mod_cast h2)
  omega

theorem zpow_log_two_le (x : ℚ) (hx : x ≠ 0) : (2 : ℚ) ^ Int.log 2 |x| ≤ |x| := by
  have := Int.zpow_log_le_self (by norm_num : 1 < 2) (abs_pos.mpr hx)
  exact_mod_cast this

theorem lt_zpow_log_two_succ (x : ℚ) : |x| < (2 : ℚ) ^ (Int.log 2 |x| + 1) := by
  have := Int.lt_zpow_succ_log_self (by norm_num : 1 < 2) |x|
  exact_mod_cast this

/-- The double nearest to `x`, once the binade of `x` is known. -/
theorem toDouble_eq (x : ℚ) (e : ℤ) (h1 : (2 : ℚ) ^ e ≤ |x|) (h2 : |x| < (2 : ℚ) ^ (e + 1)) :
    toDouble x = roundHalfEven (x / 2 ^ (e - 52)) * 2 ^ (e - 52) := by
  have hpos : 0 < |x| := lt_of_lt_of_le (by positivity) h1
  have hx : x ≠ 0 := abs_pos.mp hpos
  unfold toDouble
  rw [if_neg hx]
  simp only [log_two_abs_eq x e h1 h2]

/-- The relative error of one rounding is at most `2 ^ (-53)`. -/
theorem abs_toDouble_sub_le (x : ℚ) : |toDouble x - x| ≤ |x| / 2 ^ 53 := by
  by_cases hx : x = 0
  · simp [toDouble, hx]
  · have h1 := zpow_log_two_le x hx
    have h2 := lt_zpow_log_two_succ x
    rw [toDouble_eq x _ h1 h2]
    set e := Int.log 2 |x| with he
    have hu : (0 : ℚ) < 2 ^ (e - 52) := by positivity
    have hr := abs_roundHalfEven_sub_le (x / 2 ^ (e - 52))
    have hsplit : (roundHalfEven (x / 2 ^ (e - 52)) : ℚ) * 2 ^ (e - 52) - x =
        ((roundHalfEven (x / 2 ^ (e - 52)) : ℚ) - x / 2 ^ (e - 52)) * 2 ^ (e - 52) := by
      field_simp
    rw [hsplit, abs_mul, abs_of_pos hu]
    have hpow : (2 : ℚ) ^ (e - 52) = 2 ^ e / 2 ^ 52 := by
      rw [zpow_sub₀ (by norm_num : (2 : ℚ) ≠ 0)]
      norm_num
    calc |(roundHalfEven (x / 2 ^ (e - 52)) : ℚ) - x / 2 ^ (e - 52)| * 2 ^ (e - 52)
        ≤ 1 / 2 * 2 ^ (e - 52) := by
          exact mul_le_mul_of_nonneg_right hr (le_of_lt hu)
      _ = 2 ^ e / 2 ^ 53 := by rw [hpow]; ring
      _ ≤ |x| / 2 ^ 53 := by
          apply div_le_div_of_nonneg_right h1
          positivity

/-- A value with at most 53 significant bits is a double: rounding leaves it alone. -/
theorem toDouble_of_dyadic (n k : ℤ) (hn : |n| < 2 ^ 53) :
    toDouble ((n : ℚ) * 2 ^ k) = (n : ℚ) * 2 ^ k := by
  by_cases h0 : n = 0
  · simp [toDouble, h0]
  · have hn0 : (n : ℚ) ≠ 0 := by exact_mod_cast h0
    have h2k : (0 : ℚ) < 2 ^ k := by positivity
    have hx : (n : ℚ) * 2 ^ k ≠ 0 := mul_ne_zero hn0 (ne_of_gt h2k)
    have h1 := zpow_log_two_le _ hx
    have h2 := lt_zpow_log_two_succ ((n : ℚ) * 2 ^ k)
    rw [toDouble_eq _ _ h1 h2]
    generalize Int.log 2 |(n : ℚ) * 2 ^ k| = e at h1 h2 ⊢
    have habs : |(n : ℚ) * 2 ^ k| = |(n : ℚ)| * 2 ^ k := by
      rw [abs_mul, abs_of_pos h2k]
    have hnq : |(n : ℚ)| < 2 ^ 53 := by exact_mod_cast hn
    have hlt : (2 : ℚ) ^ e < 2 ^ (53 + k) := by
      calc (2 : ℚ) ^ e ≤ |(n : ℚ)| * 2 ^ k := by rw [← habs]; exact h1
        _ < 2 ^ 53 * 2 ^ k := mul_lt_mul_of_pos_right hnq h2k
        _ = 2 ^ (53 + k) := by
            rw [zpow_add₀ (by norm_num : (2 : ℚ) ≠ 0)]
            norm_num
    have he : e < 53 + k := (zpow_lt_zpow_iff_right₀ (by norm_num : (1 : ℚ) < 2)).mp hlt
    obtain ⟨j, hj⟩ : ∃ j : ℕ, k = e - 52 + j := ⟨(k - e + 52).toNat, by omega⟩
    have hu : (2 : ℚ) ^ (e - 52) ≠ 0 := by positivity
    have hq : (n : ℚ) * 2 ^ k / 2 ^ (e - 52) = ((n * 2 ^ j : ℤ) : ℚ) := by
      rw [hj, zpow_add₀ (by norm_num : (2 : ℚ) ≠ 0), zpow_natCast]
      push_cast
      field_simp
      ring
    rw [hq, roundHalfEven_intCast]
    push_cast
    rw [hj, zpow_add₀ (by norm_num : (2 : ℚ) ≠ 0), zpow_natCast]
    ring

/-- The difference of two doubles on the grid of spacing `2 ^ (-53)` is exact when it has
at most 53 significant bits. -/
theorem toDouble_sub_div (a b : ℤ) (h : |a - b| < 2 ^ 53) :
    toDouble ((a : ℚ) / 2 ^ 53 - (b : ℚ) / 2 ^ 53) = ((a - b : ℤ) : ℚ) / 2 ^ 53 := by
  have := toDouble_of_dyadic (a - b) (-53) h
  have e1 : (a : ℚ) / 2 ^ 53 - (b : ℚ) / 2 ^ 53 = ((a - b : ℤ) : ℚ) * 2 ^ (-53 : ℤ) := by
    rw [zpow_neg]
    push_cast
    norm_num
    ring
  have e2 : ((a - b : ℤ) : ℚ) / 2 ^ 53 = ((a - b : ℤ) : ℚ) * 2 ^ (-53 : ℤ) := by
    rw [zpow_neg]
    norm_num
    ring
  rw [e1, e2]
  exact this

/-- The double nearest to a value of the binade from 1/2 to 1, where the doubles are
`2 ^ (-53)` apart. -/
theorem toDouble_of_half_le (x : ℚ) (m : ℤ) (h1 : 1 / 2 ≤ x) (h2 : x < 1)
    (hm1 : (m : ℚ) - 1 / 2 < x * 2 ^ 53) (hm2 : x * 2 ^ 53 < m + 1 / 2) :
    toDouble x = (m : ℚ) / 2 ^ 53 := by
  have hx : |x| = x := abs_of_pos (by linarith)
  have b1 : (2 : ℚ) ^ (-1 : ℤ) ≤ |x| := by
    rw [hx]
    norm_num
    linarith
  have b2 : |x| < (2 : ℚ) ^ ((-1 : ℤ) + 1) := by
    rw [hx]
    norm_num
    exact h2
  rw [toDouble_eq x (-1) b1 b2]
  have hu : (2 : ℚ) ^ ((-1 : ℤ) - 52) = 1 / 2 ^ 53 := by norm_num
  rw [hu]
  have hq : x / (1 / 2 ^ 53) = x * 2 ^ 53 := by field_simp
  rw [hq, roundHalfEven_eq_of_lt _ m hm1 hm2]
  ring

theorem toDouble_two_thirds : toDouble (2 / 3) = ((6004799503160661 : ℤ) : ℚ) / 2 ^ 53 :=
  toDouble_of_half_le _ _ (by norm_num) (by norm_num) (by norm_num) (by norm_num)

theorem toDouble_three_quarters : toDouble (3 / 4) = ((6755399441055744 : ℤ) : ℚ) / 2 ^ 53 :=
  toDouble_of_half_le _ _ (by norm_num) (by norm_num) (by norm_num) (by norm_num)

theorem toDouble_four_fifths : toDouble (4 / 5) = ((7205759403792794 : ℤ) : ℚ) / 2 ^ 53 :=
  toDouble_of_half_le _ _ (by norm_num) (by norm_num) (by norm_num) (by norm_num)

theorem toDouble_five_sevenths : toDouble (5 / 7) = ((6433713753386423 : ℤ) : ℚ) / 2 ^ 53 :=
  toDouble_of_half_le _ _ (by norm_num) (by norm_num) (by norm_num) (by norm_num)

theorem toDouble_eleven_fourteenths :
    toDouble (11 / 14) = ((7077085128725065 : ℤ) : ℚ) / 2 ^ 53 :=
  toDouble_of_half_le _ _ (by norm_num) (by norm_num) (by norm_num) (by norm_num)

theorem toDouble_41_56 : toDouble (41 / 56) = ((6594556597221083 : ℤ) : ℚ) / 2 ^ 53 :=
  toDouble_of_half_le _ _ (by norm_num) (by norm_num) (by norm_num) (by norm_num)

theorem toDouble_29_42 : toDouble (29 / 42) = ((6219256628273542 : ℤ) : ℚ) / 2 ^ 53 :=
  toDouble_of_half_le _ _ (by norm_num) (by norm_num) (by norm_num) (by norm_num)

/-- Folding `bestRatioStep` from a state that already holds a finite difference either
leaves the state alone, when no entry has a strictly smaller computed difference, or ends on
the first entry that attains the least computed difference. -/
theorem foldl_bestRatioStep_some (r : ℚ) :
    ∀ (l : List (String × ℚ)) (k : String) (d : ℚ),
      (l.foldl (bestRatioStep r) (k, some d) = (k, some d) ∧
        ∀ x ∈ l, d ≤ ratioDifference r x.2) ∨
      (∃ pre e post, l = pre ++ e :: post ∧
        l.foldl (bestRatioStep r) (k, some d) = (e.1, some (ratioDifference r e.2)) ∧
        ratioDifference r e.2 < d ∧
        (∀ x ∈ pre, ratioDifference r e.2 < ratioDifference r x.2) ∧
        (∀ x ∈ post, ratioDifference r e.2 ≤ ratioDifference r x.2)) := by
  intro l
  induction l with
  | nil =>
    intro k d
    exact Or.inl ⟨rfl, fun x hx => absurd hx (List.not_mem_nil x)⟩
  | cons a t ih =>
    intro k d
    by_cases hlt : ratioDifference r a.2 < d
    · have hstep : bestRatioStep r (k, some d) a = (a.1, some (ratioDifference r a.2)) := by
        simp only [bestRatioStep, if_pos hlt]
      rw [List.foldl_cons, hstep]
      rcases ih a.1 (ratioDifference r a.2) with
        ⟨hres, hall⟩ | ⟨pre, e, post, hl, hres, hlt', hpre, hpost⟩
      · exact Or.inr ⟨[], a, t, rfl, hres, hlt, fun x hx => absurd hx (List.not_mem_nil x), hall⟩
      · refine Or.inr ⟨a :: pre, e, post, by rw [hl]; rfl, hres, lt_trans hlt' hlt, ?_, hpost⟩
        intro x hx
        rcases List.mem_cons.mp hx with h | h
        · rw [h]; exact hlt'
        · exact hpre x h
    · have hstep : bestRatioStep r (k, some d) a = (k, some d) := by
        simp only [bestRatioStep, if_neg hlt]
      rw [List.foldl_cons, hstep]
      rcases ih k d with ⟨hres, hall⟩ | ⟨pre, e, post, hl, hres, hlt', hpre, hpost⟩
      · refine Or.inl ⟨hres, ?_⟩
        intro x hx
        rcases List.mem_cons.mp hx with h | h
        · rw [h]; exact not_lt.mp hlt
        · exact hall x h
      · refine Or.inr ⟨a :: pre, e, post, by rw [hl]; rfl, hres, hlt', ?_, hpost⟩
        intro x hx
        rcases List.mem_cons.mp hx with h | h
        · rw [h]; exact lt_of_lt_of_le hlt' (not_lt.mp hlt)
        · exact hpre x h

/-- Folding `bestRatioStep` from the initial state over a non-empty table ends on the first
entry that attains the least computed difference. -/
theorem foldl_bestRatioStep_none (r : ℚ) (a : String × ℚ) (t : List (String × ℚ))
    (k : String) :
    ∃ pre e post, a :: t = pre ++ e :: post ∧
      ((a :: t).foldl (bestRatioStep r) (k, none)).1 = e.1 ∧
      (∀ x ∈ pre, ratioDifference r e.2 < ratioDifference r x.2) ∧
      (∀ x ∈ post, ratioDifference r e.2 ≤ ratioDifference r x.2) := by
  have hstep : bestRatioStep r (k, none) a = (a.1, some (ratioDifference r a.2)) := rfl
  rw [List.foldl_cons, hstep]
  rcases foldl_bestRatioStep_some r t a.1 (ratioDifference r a.2) with
    ⟨hres, hall⟩ | ⟨pre, e, post, hl, hres, hlt', hpre, hpost⟩
  · exact ⟨[], a, t, rfl, by rw [hres], fun x hx => absurd hx (List.not_mem_nil x), hall⟩
  · refine ⟨a :: pre, e, post, by rw [hl]; rfl, by rw [hres], ?_, hpost⟩
    intro x hx
    rcases List.mem_cons.mp hx with h | h
    · rw [h]; exact hlt'
    · exact hpre x h

/-- A 41x56 image: the computed differences to the five ratios, in units of `2 ^ (-53)`, are
589757094060422, 160842843834661, 611202806571711, 160842843834660 and 482528531503982, so
the fourth entry replaces the second. -/
theorem getBestAspectRatio_41_56 : getBestAspectRatio 41 56 = "5:7" := by
  have d1 : ratioDifference (toDouble (41 / 56)) (2 / 3) =
      589757094060422 / 9007199254740992 := by
    unfold ratioDifference
    rw [toDouble_41_56, toDouble_two_thirds, toDouble_sub_div _ _ (by norm_num)]
    norm_num [abs_of_nonneg]
  have d2 : ratioDifference (toDouble (41 / 56)) (3 / 4) =
      160842843834661 / 9007199254740992 := by
    unfold ratioDifference
    rw [toDouble_41_56, toDouble_three_quarters, toDouble_sub_div _ _ (by norm_num)]
    norm_num [abs_of_nonneg, abs_of_neg]
  have d3 : ratioDifference (toDouble (41 / 56)) (4 / 5) =
      611202806571711 / 9007199254740992 := by
    unfold ratioDifference
    rw [toDouble_41_56, toDouble_four_fifths, toDouble_sub_div _ _ (by norm_num)]
    norm_num [abs_of_nonneg, abs_of_neg]
  have d4 : ratioDifference (toDouble (41 / 56)) (5 / 7) =
      160842843834660 / 9007199254740992 := by
    unfold ratioDifference
    rw [toDouble_41_56, toDouble_five_sevenths, toDouble_sub_div _ _ (by norm_num)]
    norm_num [abs_of_nonneg, abs_of_neg]
  have d5 : ratioDifference (toDouble (41 / 56)) (11 / 14) =
      482528531503982 / 9007199254740992 := by
    unfold ratioDifference
    rw [toDouble_41_56, toDouble_eleven_fourteenths, toDouble_sub_div _ _ (by norm_num)]
    norm_num [abs_of_nonneg, abs_of_neg]
  simp only [getBestAspectRatio, ASPECT_RATIOS, List.foldl, bestRatioStep, d1, d2, d3, d4, d5]
  norm_num

/-- A 29x42 image: the computed differences to 2/3 and to 5/7 are both
`214457125112881 / 2 ^ 53`, the least of the five, so the first of the two entries stays. -/
theorem getBestAspectRatio_29_42 : getBestAspectRatio 29 42 = "2:3" := by
  have d1 : ratioDifference (toDouble (29 / 42)) (2 / 3) =
      214457125112881 / 9007199254740992 := by
    unfold ratioDifference
    rw [toDouble_29_42, toDouble_two_thirds, toDouble_sub_div _ _ (by norm_num)]
    norm_num [abs_of_nonneg]
  have d2 : ratioDifference (toDouble (29 / 42)) (3 / 4) =
      536142812782202 / 9007199254740992 := by
    unfold ratioDifference
    rw [toDouble_29_42, toDouble_three_quarters, toDouble_sub_div _ _ (by norm_num)]
    norm_num [abs_of_nonneg, abs_of_neg]
  have d3 : ratioDifference (toDouble (29 / 42)) (4 / 5) =
      986502775519252 / 9007199254740992 := by
    unfold ratioDifference
    rw [toDouble_29_42, toDouble_four_fifths, toDouble_sub_div _ _ (by norm_num)]
    norm_num [abs_of_nonneg, abs_of_neg]
  have d4 : ratioDifference (toDouble (29 / 42)) (5 / 7) =
      214457125112881 / 9007199254740992 := by
    unfold ratioDifference
    rw [toDouble_29_42, toDouble_five_sevenths, toDouble_sub_div _ _ (by norm_num)]
    norm_num [abs_of_nonneg, abs_of_neg]
  have d5 : ratioDifference (toDouble (29 / 42)) (11 / 14) =
      857828500451523 / 9007199254740992 := by
    unfold ratioDifference
    rw [toDouble_29_42, toDouble_eleven_fourteenths, toDouble_sub_div _ _ (by norm_num)]
    norm_num [abs_of_nonneg, abs_of_neg]
  simp only [getBestAspectRatio, ASPECT_RATIOS, List.foldl, bestRatioStep, d1, d2, d3, d4, d5]
  norm_num

/-- The computed difference is within `3 * (q + 1) / 2 ^ 53` of the exact one: three
roundings, each of relative error at most `2 ^ (-53)`. -/
theorem abs_ratioDifference_sub_le (q r : ℚ) (hq : 0 ≤ q) (hr0 : 0 ≤ r) (hr1 : r ≤ 1) :
    |(ratioDifference (toDouble q) r - |q - r|)| ≤ 3 * (q + 1) / 2 ^ 53 := by
  unfold ratioDifference
  have ha := abs_toDouble_sub_le q
  have hc := abs_toDouble_sub_le r
  have hs := abs_toDouble_sub_le (toDouble q - toDouble r)
  rw [abs_of_nonneg hq] at ha
  rw [abs_of_nonneg hr0] at hc
  generalize toDouble (toDouble q - toDouble r) = s at hs ⊢
  generalize toDouble q = a at ha hs ⊢
  generalize toDouble r = c at hc hs ⊢
  obtain ⟨ha1, ha2⟩ := abs_le.mp ha
  obtain ⟨hc1, hc2⟩ := abs_le.mp hc
  have hqr : |q - r| ≤ q + 1 := abs_le.mpr ⟨by linarith, by linarith⟩
  obtain ⟨hqr1, hqr2⟩ := abs_le.mp hqr
  have hrr : r / 2 ^ 53 ≤ (1 : ℚ) / 2 ^ 53 := by
    apply div_le_div_of_nonneg_right hr1
    positivity
  have hac : |a - c| ≤ (q + 1) + q / 2 ^ 53 + 1 / 2 ^ 53 :=
    abs_le.mpr ⟨by linarith, by linarith⟩
  obtain ⟨hs1, hs2⟩ := abs_le.mp hs
  have hdiv : |a - c| / 2 ^ 53 ≤ ((q + 1) + q / 2 ^ 53 + 1 / 2 ^ 53) / 2 ^ 53 := by
    apply div_le_div_of_nonneg_right hac
    positivity
  refine le_trans (abs_abs_sub_abs_le_abs_sub s (q - r)) ?_
  refine abs_le.mpr ⟨?_, ?_⟩
  · norm_num at *
    linarith
  · norm_num at *
    linarith

/-- Every ratio of the table is a whole number of 420ths between 0 and 1. -/
theorem ASPECT_RATIOS_entry (x : String × ℚ) (hx : x ∈ ASPECT_RATIOS) :
    ∃ n : ℤ, 0 ≤ n ∧ n ≤ 420 ∧ x.2 = (n : ℚ) / 420 := by
  simp only [ASPECT_RATIOS, List.mem_cons, List.mem_singleton, List.not_mem_nil, or_false] at hx
  rcases hx with h | h | h | h | h
  · exact ⟨280, by norm_num, by norm_num, by rw [h]; norm_num⟩
  · exact ⟨315, by norm_num, by norm_num, by rw [h]; norm_num⟩
  · exact ⟨336, by norm_num, by norm_num, by rw [h]; norm_num⟩
  · exact ⟨300, by norm_num, by norm_num, by rw [h]; norm_num⟩
  · exact ⟨330, by norm_num, by norm_num, by rw [h]; norm_num⟩

theorem abs_ratio_sub_eq (W H : ℕ) (hH : 0 < H) (n : ℤ) :
    |(W : ℚ) / H - (n : ℚ) / 420| = ((|420 * (W : ℤ) - n * H| : ℤ) : ℚ) / (420 * H) := by
  have hHq : (0 : ℚ) < H := by exact_mod_cast hH
  have e1 : (W : ℚ) / H - (n : ℚ) / 420 = (((420 * (W : ℤ) - n * H : ℤ)) : ℚ) / (420 * H) := by
    push_cast
    field_simp
    ring
  rw [e1, abs_div, abs_of_pos (by positivity : (0 : ℚ) < 420 * H), Int.cast_abs]

/-- For whole sides below `2 ^ 40`, an order between two computed differences carries over
to the exact differences: two exact differences that are not equal are at least
`1 / (420 * H)` apart, more than the rounding can bridge. -/
theorem exact_le_of_computed_le (W H : ℕ) (hW : 0 < W) (hH : 0 < H)
    (hWb : W < 2 ^ 40) (hHb : H < 2 ^ 40) (ne nx : ℤ)
    (hne0 : 0 ≤ ne) (hne1 : ne ≤ 420) (hnx0 : 0 ≤ nx) (hnx1 : nx ≤ 420)
    (h : ratioDifference (toDouble ((W : ℚ) / H)) ((ne : ℚ) / 420) ≤
      ratioDifference (toDouble ((W : ℚ) / H)) ((nx : ℚ) / 420)) :
    |(W : ℚ) / H - (ne : ℚ) / 420| ≤ |(W : ℚ) / H - (nx : ℚ) / 420| := by
  have hHq : (0 : ℚ) < H := by exact_mod_cast hH
  have hWq : (0 : ℚ) < W := by exact_mod_cast hW
  have hq : (0 : ℚ) ≤ (W : ℚ) / H := by positivity
  have hre0 : (0 : ℚ) ≤ (ne : ℚ) / 420 := by
    have : (0 : ℚ) ≤ ne := by exact_mod_cast hne0
    positivity
  have hre1 : (ne : ℚ) / 420 ≤ 1 := by
    have : (ne : ℚ) ≤ 420 := by exact_mod_cast hne1
    rw [div_le_one (by norm_num)]
    exact this
  have hrx0 : (0 : ℚ) ≤ (nx : ℚ) / 420 := by
    have : (0 : ℚ) ≤ nx := by exact_mod_cast hnx0
    positivity
  have hrx1 : (nx : ℚ) / 420 ≤ 1 := by
    have : (nx : ℚ) ≤ 420 := by exact_mod_cast hnx1
    rw [div_le_one (by norm_num)]
    exact this
  obtain ⟨he1, he2⟩ := abs_le.mp (abs_ratioDifference_sub_le _ _ hq hre0 hre1)
  obtain ⟨hx1, hx2⟩ := abs_le.mp (abs_ratioDifference_sub_le _ _ hq hrx0 hrx1)
  by_contra hlt
  push_neg at hlt
  have hclose : |(W : ℚ) / H - (ne : ℚ) / 420| ≤
      |(W : ℚ) / H - (nx : ℚ) / 420| + 6 * ((W : ℚ) / H + 1) / 2 ^ 53 := by
    linarith
  rw [abs_ratio_sub_eq W H hH ne, abs_ratio_sub_eq W H hH nx] at hlt hclose
  have hden : (0 : ℚ) < 420 * H := by positivity
  have hint : |420 * (W : ℤ) - nx * H| + 1 ≤ |420 * (W : ℤ) - ne * H| := by
    have := (div_lt_div_iff_of_pos_right hden).mp hlt
    have : |420 * (W : ℤ) - nx * H| < |420 * (W : ℤ) - ne * H| := by exact_mod_cast this
    omega
  have hintq : ((|420 * (W : ℤ) - nx * H| : ℤ) : ℚ) + 1 ≤
      ((|420 * (W : ℤ) - ne * H| : ℤ) : ℚ) := by exact_mod_cast hint
  generalize ((|420 * (W : ℤ) - nx * H| : ℤ) : ℚ) = X at hintq hclose
  generalize ((|420 * (W : ℤ) - ne * H| : ℤ) : ℚ) = E at hintq hclose
  have hWH : (W : ℚ) + H < 2 ^ 41 := by
    have h1 : (W : ℚ) < 2 ^ 40 := by exact_mod_cast hWb
    have h2 : (H : ℚ) < 2 ^ 40 := by exact_mod_cast hHb
    linarith
  have hmul : E ≤ X + 420 * H * (6 * ((W : ℚ) / H + 1) / 2 ^ 53) := by
    have := mul_le_mul_of_nonneg_left hclose (le_of_lt hden)
    rw [mul_add, mul_div_cancel₀ _ (ne_of_gt hden), mul_div_cancel₀ _ (ne_of_gt hden)] at this
    exact this
  have hsimp : 420 * (H : ℚ) * (6 * ((W : ℚ) / H + 1) / 2 ^ 53) =
      2520 * ((W : ℚ) + H) / 2 ^ 53 := by
    field_simp
    ring
  rw [hsimp] at hmul
  norm_num at hmul hWH
  linarith

/-- C20 (counterexample): a 41x56 image is at the same exact distance from 3/4 and from 5/7,
the least distance over the table, and `3:4` is declared before `5:7`; in double arithmetic
the difference to 5/7 comes out one unit in the last place below the difference to 3/4, and
`getBestAspectRatio` returns `5:7`.  So the returned key is not always the first of the keys
at the minimal distance. -/
theorem getBestAspectRatio_tie_counterexample :
    getBestAspectRatio 41 56 = "5:7" ∧
    |(41 : ℚ) / 56 - 3 / 4| = |(41 : ℚ) / 56 - 5 / 7| ∧
    (∀ x ∈ ASPECT_RATIOS, |(41 : ℚ) / 56 - 3 / 4| ≤ |(41 : ℚ) / 56 - x.2|) ∧
    ASPECT_RATIOS = [("2:3", 2 / 3), ("3:4", 3 / 4), ("4:5", 4 / 5)] ++
      ("5:7", 5 / 7) :: [("custom", 11 / 14)] ∧
    ¬ (∃ pre e post, ASPECT_RATIOS = pre ++ e :: post ∧
        getBestAspectRatio 41 56 = e.1 ∧
        (∀ x ∈ ASPECT_RATIOS, |(41 : ℚ) / 56 - e.2| ≤ |(41 : ℚ) / 56 - x.2|) ∧
        (∀ x ∈ pre, |(41 : ℚ) / 56 - e.2| < |(41 : ℚ) / 56 - x.2|)) := by
  refine ⟨getBestAspectRatio_41_56, by norm_num [abs_of_nonneg, abs_of_neg], ?_, rfl, ?_⟩
  · intro x hx
    simp only [ASPECT_RATIOS, List.mem_cons, List.mem_singleton, List.not_mem_nil,
      or_false] at hx
    rcases hx with h | h | h | h | h <;> rw [h] <;> norm_num [abs_of_nonneg, abs_of_neg]
  · rintro ⟨pre, e, post, hl, hk, -, hpre⟩
    rw [getBestAspectRatio_41_56] at hk
    rcases pre with _ | ⟨a, _ | ⟨b, _ | ⟨c, _ | ⟨d, pre⟩⟩⟩⟩
    · have he : e = ("2:3", 2 / 3) := by
        simp only [ASPECT_RATIOS, List.nil_append, List.cons.injEq] at hl
        exact hl.1.symm
      rw [he] at hk
      exact absurd hk (by decide)
    · have he : e = ("3:4", 3 / 4) := by
        simp only [ASPECT_RATIOS, List.cons_append, List.nil_append, List.cons.injEq] at hl
        exact hl.2.1.symm
      rw [he] at hk
      exact absurd hk (by decide)
    · have he : e = ("4:5", 4 / 5) := by
        simp only [ASPECT_RATIOS, List.cons_append, List.nil_append, List.cons.injEq] at hl
        exact hl.2.2.1.symm
      rw [he] at hk
      exact absurd hk (by decide)
    · simp only [ASPECT_RATIOS, List.cons_append, List.nil_append, List.cons.injEq] at hl
      have he : e = ("5:7", 5 / 7) := hl.2.2.2.1.symm
      have hb : b = ("3:4", 3 / 4) := hl.2.1.symm
      have := hpre b (by simp)
      rw [he, hb] at this
      norm_num [abs_of_nonneg, abs_of_neg] at this
    · simp only [ASPECT_RATIOS, List.cons_append, List.cons.injEq] at hl
      rcases pre with _ | ⟨f, pre⟩
      · have he : e = ("custom", 11 / 14) := by
          simp only [List.nil_append, List.cons.injEq] at hl
          exact hl.2.2.2.2.1.symm
        rw [he] at hk
        exact absurd hk (by decide)
      · simp at hl

/-- C20 (amended): for whole image sides from 1 to below `2 ^ 40`, `getBestAspectRatio`
returns one of the keys `2:3`, `3:4`, `4:5`, `5:7`, `custom`; the exact difference between
the image ratio and the ratio of the returned key is least over the whole table; and every
entry declared before the returned one has a strictly larger difference as the code
computes it, in double arithmetic (first wins on a tie of the computed differences, which
need not be a tie of the exact ones).  A 29x42 image, whose computed differences to 2/3 and
to 5/7 are equal, yields `2:3`. -/
theorem getBestAspectRatio_minimal (imageWidth imageHeight : ℕ)
    (hW : 0 < imageWidth) (hH : 0 < imageHeight)
    (hWb : imageWidth < 2 ^ 40) (hHb : imageHeight < 2 ^ 40) :
    getBestAspectRatio imageWidth imageHeight ∈ ["2:3", "3:4", "4:5", "5:7", "custom"] ∧
    (∃ pre e post, ASPECT_RATIOS = pre ++ e :: post ∧
      getBestAspectRatio imageWidth imageHeight = e.1 ∧
      (∀ x ∈ ASPECT_RATIOS,
        |(imageWidth : ℚ) / imageHeight - e.2| ≤ |(imageWidth : ℚ) / imageHeight - x.2|) ∧
      (∀ x ∈ pre,
        ratioDifference (toDouble ((imageWidth : ℚ) / imageHeight)) e.2 <
          ratioDifference (toDouble ((imageWidth : ℚ) / imageHeight)) x.2)) ∧
    getBestAspectRatio 29 42 = "2:3" := by
  obtain ⟨pre, e, post, hl, hres, hpre, hpost⟩ :=
    foldl_bestRatioStep_none (toDouble ((imageWidth : ℚ) / imageHeight)) ("2:3", 2 / 3)
      [("3:4", 3 / 4), ("4:5", 4 / 5), ("5:7", 5 / 7), ("custom", 11 / 14)] "4:5"
  have hdef : ASPECT_RATIOS = pre ++ e :: post := hl
  have hkey : getBestAspectRatio imageWidth imageHeight = e.1 := hres
  have hmem : e ∈ ASPECT_RATIOS := by
    rw [hdef]
    exact List.mem_append_right _ (List.mem_cons_self _ _)
  refine ⟨?_, ⟨pre, e, post, hdef, hkey, ?_, hpre⟩, getBestAspectRatio_29_42⟩
  · rw [hkey]
    have hkeys : ASPECT_RATIOS.map Prod.fst = ["2:3", "3:4", "4:5", "5:7", "custom"] := rfl
    rw [← hkeys]
    exact List.mem_map_of_mem _ hmem
  · intro x hx
    have hcomp : ratioDifference (toDouble ((imageWidth : ℚ) / imageHeight)) e.2 ≤
        ratioDifference (toDouble ((imageWidth : ℚ) / imageHeight)) x.2 := by
      have hx2 := hx
      rw [hdef] at hx2
      rcases List.mem_append.mp hx2 with h | h
      · exact le_of_lt (hpre x h)
      · rcases List.mem_cons.mp h with h' | h'
        · rw [h']
        · exact hpost x h'
    obtain ⟨ne, hne0, hne1, hne⟩ := ASPECT_RATIOS_entry e hmem
    obtain ⟨nx, hnx0, hnx1, hnx⟩ := ASPECT_RATIOS_entry x hx
    rw [hne, hnx] at hcomp ⊢
    exact exact_le_of_computed_le imageWidth imageHeight hW hH hWb hHb ne nx
      hne0 hne1 hnx0 hnx1 hcomp

theorem getBestAspectRatio_minimal_witness :
    getBestAspectRatio ((41 : ℕ) : ℚ) ((56 : ℕ) : ℚ) ∈ ["2:3", "3:4", "4:5", "5:7", "custom"] ∧
    (∃ pre e post, ASPECT_RATIOS = pre ++ e :: post ∧
      getBestAspectRatio ((41 : ℕ) : ℚ) ((56 : ℕ) : ℚ) = e.1 ∧
      (∀ x ∈ ASPECT_RATIOS,
        |((41 : ℕ) : ℚ) / ((56 : ℕ) : ℚ) - e.2| ≤ |((41 : ℕ) : ℚ) / ((56 : ℕ) : ℚ) - x.2|) ∧
      (∀ x ∈ pre,
        ratioDifference (toDouble (((41 : ℕ) : ℚ) / ((56 : ℕ) : ℚ))) e.2 <
          ratioDifference (toDouble (((41 : ℕ) : ℚ) / ((56 : ℕ) : ℚ))) x.2)) ∧
    getBestAspectRatio 29 42 = "2:3" :=
  getBestAspectRatio_minimal 41 56 (by norm_num) (by norm_num) (by norm_num) (by norm_num)

/-! ## File names -/

theorem extensionMatches_cons (c : Char) (rest : List Char) :
    extensionMatches (c :: rest) = true ↔
      c = '.' ∧ rest ≠ [] ∧ ∀ d ∈ rest, d ≠ '/' ∧ d ≠ '.' := by
  simp [extensionMatches, List.isEmpty_iff, and_assoc]

/-- Removing the extension of `pre.ext`, where `ext` is non-empty and free of `.` and `/`,
leaves `pre`, whatever `pre` contains. -/
theorem replaceExtension_append (ext : List Char) (hne : ext ≠ [])
    (hall : ∀ c ∈ ext, c ≠ '.' ∧ c ≠ '/') :
    ∀ pre : List Char, replaceExtension (pre ++ '.' :: ext) = pre := by
  intro pre
  induction pre with
  | nil =>
    have hm : extensionMatches ('.' :: ext) = true :=
      (extensionMatches_cons _ _).mpr ⟨rfl, hne, fun d hd => ⟨(hall d hd).2, (hall d hd).1⟩⟩
    simp only [List.nil_append, replaceExtension, hm, if_true]
  | cons c pre ih =>
    have hm : ¬ extensionMatches (c :: (pre ++ '.' :: ext)) = true := by
      rw [extensionMatches_cons]
      rintro ⟨_, _, h⟩
      exact (h '.' (List.mem_append_right _ (List.mem_cons_self _ _))).2 rfl
    show replaceExtension (c :: (pre ++ '.' :: ext)) = c :: pre
    rw [replaceExtension, if_neg hm, ih]

/-- A name that does not end in such an extension is left as it is. -/
theorem replaceExtension_of_no_extension :
    ∀ name : List Char,
      (¬ ∃ pre ext, name = pre ++ '.' :: ext ∧ ext ≠ [] ∧ ∀ c ∈ ext, c ≠ '.' ∧ c ≠ '/') →
      replaceExtension name = name := by
  intro name
  induction name with
  | nil => intro _; rfl
  | cons c rest ih =>
    intro h
    have hm : ¬ extensionMatches (c :: rest) = true := by
      rw [extensionMatches_cons]
      rintro ⟨hc, hne, hall⟩
      exact h ⟨[], rest, by rw [hc]; rfl, hne, fun d hd => ⟨(hall d hd).2, (hall d hd).1⟩⟩
    have hrest : ¬ ∃ pre ext, rest = pre ++ '.' :: ext ∧ ext ≠ [] ∧
        ∀ c ∈ ext, c ≠ '.' ∧ c ≠ '/' := by
      rintro ⟨pre, ext, he, hne, hall⟩
      exact h ⟨c :: pre, ext, by rw [he]; rfl, hne, hall⟩
    simp only [replaceExtension, if_neg hm, ih hrest]

/-- C18: `generateFilename` returns `base + "_" + label + "_300DPI." + ext`, where `ext` is
`jpg` for the format `jpeg` and the format string otherwise, and `base` is the original name
without its final extension (the last `.` followed by one or more characters other than `.`
and `/` up to the end), or the whole name when it has no such extension.  The name
`My Art.PNG` with label `8×10"` and format `jpeg` gives `My Art_8×10"_300DPI.jpg`. -/
theorem generateFilename_spec (originalName : String) (size : PrintSize) (format : String) :
    (∃ base : String,
      generateFilename originalName size format
        = base ++ "_" ++ size.label ++ "_300DPI." ++ (if format = "jpeg" then "jpg" else format) ∧
      (∀ pre ext, originalName.data = pre ++ '.' :: ext → ext ≠ [] →
        (∀ c ∈ ext, c ≠ '.' ∧ c ≠ '/') → base.data = pre) ∧
      ((¬ ∃ pre ext, originalName.data = pre ++ '.' :: ext ∧ ext ≠ [] ∧
          ∀ c ∈ ext, c ≠ '.' ∧ c ≠ '/') → base = originalName)) ∧
    generateFilename "My Art.PNG" { width := 8, height := 10, label := "8×10\"" } "jpeg"
      = "My Art_8×10\"_300DPI.jpg" := by
  refine ⟨⟨String.mk (replaceExtension originalName.data), rfl, ?_, ?_⟩, by decide⟩
  · intro pre ext he hne hall
    rw [he]
    exact replaceExtension_append ext hne hall pre
  · intro h
    rw [replaceExtension_of_no_extension _ h]

theorem generateFilename_spec_witness :
    generateFilename "photo.final.jpeg" { width := 4, height := 6, label := "4×6\"" } "png"
      = "photo.final_4×6\"_300DPI.png" ∧
    generateFilename "README" { width := 4, height := 6, label := "4×6\"" } "jpeg"
      = "README_4×6\"_300DPI.jpg" := by
  obtain ⟨⟨base, hname, hext, _⟩, _⟩ :=
    generateFilename_spec "photo.final.jpeg" { width := 4, height := 6, label := "4×6\"" } "png"
  obtain ⟨⟨base2, hname2, _, hnone⟩, _⟩ :=
    generateFilename_spec "README" { width := 4, height := 6, label := "4×6\"" } "jpeg"
  have hb : base.data = "photo.final".data :=
    hext "photo.final".data "jpeg".data rfl (by decide) (by decide)
  have hb' : base = "photo.final" := by
    cases base
    simp only at hb
    rw [hb]
  have hb2 : base2 = "README" := by
    apply hnone
    rintro ⟨pre, ext, he, _⟩
    have hmem : '.' ∈ "README".data := by
      rw [he]
      exact List.mem_append_right _ (List.mem_cons_self _ _)
    revert hmem
    decide
  rw [hname, hb']
  rw [hname2, hb2]
  exact ⟨by decide, by decide⟩

/-- C19 (the code departs from the claim): for the file name `my.art.png` the preview grid
names the 4x6 download `my_4×6"_300DPI.jpg`, cutting at the first dot, while `downloadSingle`
and the archive of `downloadAll` use `generateFilename`, which gives
`my.art_4×6"_300DPI.jpg`. -/
theorem handleDownload_name_differs :
    handleDownload "my.art.png"
        { size := { width := 4, height := 6, label := "4×6\"" },
          blob := { bytes := [], type := "image/jpeg" },
          pixelDimensions := { width := 1200, height := 1800, label := "4×6\"",
                               aspectRatio := 2 / 3 },
          url := "blob:1", cropSettings := none }
      = "my_4×6\"_300DPI.jpg" ∧
    downloadSingle
        { size := { width := 4, height := 6, label := "4×6\"" },
          blob := { bytes := [], type := "image/jpeg" },
          pixelDimensions := { width := 1200, height := 1800, label := "4×6\"",
                               aspectRatio := 2 / 3 },
          url := "blob:1", cropSettings := none } "my.art.png"
      = "my.art_4×6\"_300DPI.jpg" ∧
    (downloadAll
        [{ size := { width := 4, height := 6, label := "4×6\"" },
           blob := { bytes := [], type := "image/jpeg" },
           pixelDimensions := { width := 1200, height := 1800, label := "4×6\"",
                                aspectRatio := 2 / 3 },
           url := "blob:1", cropSettings := none }] "my.art.png").map Prod.fst
      = ["my.art_4×6\"_300DPI.jpg"] ∧
    generateFilename "my.art.png" { width := 4, height := 6, label := "4×6\"" } "jpeg"
      ≠ "my_4×6\"_300DPI.jpg" := by
  refine ⟨by decide, by decide, by decide, by decide⟩

/-! ## The render pipeline -/

/-- With the format `jpeg`, `processImageForSize` hands the encoder output to
`addDPIMetadata` with `TARGET_DPI`; the canvas and the destination rectangle have the pixel
dimensions of the print size. -/
theorem processImageForSize_jpeg (p : Platform) (image : Image) (printSize : PrintSize)
    (cropSettings : Option CropArea) :
    ∃ sx sy sw sh : ℚ,
      processImageForSize p image printSize cropSettings "jpeg" =
        match p.drawAndEncode (calculatePixelDimensions printSize).width
            (calculatePixelDimensions printSize).height image sx sy sw sh 0 0
            (calculatePixelDimensions printSize).width
            (calculatePixelDimensions printSize).height "image/jpeg" (92 / 100) with
        | .error e => .error e
        | .ok blob => .ok (addDPIMetadata p.exifInsert blob TARGET_DPI) := by
  cases cropSettings with
  | none =>
    exact ⟨_, _, _, _, by
      simp only [processImageForSize, if_true]
      rfl⟩
  | some crop =>
    exact ⟨_, _, _, _, by
      simp only [processImageForSize, if_true]
      rfl⟩

/-- C11 (the code departs from the claim): `processImageForSize` hands the encoder output
to `addDPIMetadata`, the EXIF insertion, and never to `embedDPIMetadata`, so nothing writes
the JFIF density fields.  For an encoder output whose JFIF header declares no unit and
density 1x1, the returned bytes still carry that header, with unit byte 0, both when the
EXIF insertion throws (the encoder bytes come back unchanged) and when it succeeds by
splicing an APP1 segment in after the start-of-image marker. -/
theorem processImageForSize_leaves_jfif_density :
    processImageForSize
        { drawAndEncode := fun _ _ _ _ _ _ _ _ _ _ _ _ _ =>
            .ok { bytes := [0xFF, 0xD8, 0xFF, 0xE0, 0x00, 0x10, 0x4A, 0x46, 0x49, 0x46, 0x00,
                            0x01, 0x01, 0x00, 0x00, 0x01, 0x00, 0x01, 0x00, 0x00, 0xFF, 0xD9],
                  type := "image/jpeg" },
          exifInsert := fun _ _ => .error "RangeError: Maximum call stack size exceeded",
          createObjectURL := fun _ => "blob:1" }
        { width := 4000, height := 3000, src := "photo.jpg" }
        { width := 8, height := 10, label := "8×10\"" } none "jpeg"
      = .ok { bytes := [0xFF, 0xD8, 0xFF, 0xE0, 0x00, 0x10, 0x4A, 0x46, 0x49, 0x46, 0x00,
                        0x01, 0x01, 0x00, 0x00, 0x01, 0x00, 0x01, 0x00, 0x00, 0xFF, 0xD9],
              type := "image/jpeg" } ∧
    markerAt [0xFF, 0xD8, 0xFF, 0xE0, 0x00, 0x10, 0x4A, 0x46, 0x49, 0x46, 0x00,
              0x01, 0x01, 0x00, 0x00, 0x01, 0x00, 0x01, 0x00, 0x00, 0xFF, 0xD9] 0xE0 2 ∧
    ([0xFF, 0xD8, 0xFF, 0xE0, 0x00, 0x10, 0x4A, 0x46, 0x49, 0x46, 0x00,
      0x01, 0x01, 0x00, 0x00, 0x01, 0x00, 0x01, 0x00, 0x00, 0xFF, 0xD9] : List Nat)[2 + 11]?
      = some 0 ∧
    processImageForSize
        { drawAndEncode := fun _ _ _ _ _ _ _ _ _ _ _ _ _ =>
            .ok { bytes := [0xFF, 0xD8, 0xFF, 0xE0, 0x00, 0x10, 0x4A, 0x46, 0x49, 0x46, 0x00,
                            0x01, 0x01, 0x00, 0x00, 0x01, 0x00, 0x01, 0x00, 0x00, 0xFF, 0xD9],
                  type := "image/jpeg" },
          exifInsert := fun jpegData _ =>
            .ok { bytes := jpegData.take 2 ++ [0xFF, 0xE1, 0x00, 0x02] ++ jpegData.drop 2,
                  type := "image/jpeg" },
          createObjectURL := fun _ => "blob:1" }
        { width := 4000, height := 3000, src := "photo.jpg" }
        { width := 8, height := 10, label := "8×10\"" } none "jpeg"
      = .ok { bytes := [0xFF, 0xD8, 0xFF, 0xE1, 0x00, 0x02, 0xFF, 0xE0, 0x00, 0x10, 0x4A, 0x46,
                        0x49, 0x46, 0x00, 0x01, 0x01, 0x00, 0x00, 0x01, 0x00, 0x01, 0x00, 0x00,
                        0xFF, 0xD9],
              type := "image/jpeg" } ∧
    markerAt [0xFF, 0xD8, 0xFF, 0xE1, 0x00, 0x02, 0xFF, 0xE0, 0x00, 0x10, 0x4A, 0x46,
              0x49, 0x46, 0x00, 0x01, 0x01, 0x00, 0x00, 0x01, 0x00, 0x01, 0x00, 0x00,
              0xFF, 0xD9] 0xE0 6 ∧
    ([0xFF, 0xD8, 0xFF, 0xE1, 0x00, 0x02, 0xFF, 0xE0, 0x00, 0x10, 0x4A, 0x46,
      0x49, 0x46, 0x00, 0x01, 0x01, 0x00, 0x00, 0x01, 0x00, 0x01, 0x00, 0x00,
      0xFF, 0xD9] : List Nat)[6 + 11]? = some 0 := by
  refine ⟨rfl, by decide, by decide, rfl, by decide, by decide⟩

/-- Every JPEG produced by `processImageForSize` is the encoder output passed through
`addDPIMetadata` with dpi = 300, that is, the blob returned by the EXIF insertion when the
insertion succeeds and the encoder output itself, unchanged, when the insertion throws. -/
theorem processImageForSize_embeds_exif (p : Platform) (image : Image) (printSize : PrintSize)
    (cropSettings : Option CropArea) (out : Blob)
    (h : processImageForSize p image printSize cropSettings "jpeg" = .ok out) :
    ∃ encoded : Blob,
      (∃ cw ch sx sy sw sh dx dy dw dh q,
        p.drawAndEncode cw ch image sx sy sw sh dx dy dw dh "image/jpeg" q = .ok encoded) ∧
      out = addDPIMetadata p.exifInsert encoded 300 ∧
      (∀ b, p.exifInsert encoded.bytes 300 = .ok b → out = b) ∧
      ((∃ e, p.exifInsert encoded.bytes 300 = .error e) → out = encoded) := by
  obtain ⟨sx, sy, sw, sh, heq⟩ := processImageForSize_jpeg p image printSize cropSettings
  rw [heq] at h
  cases henc : p.drawAndEncode (calculatePixelDimensions printSize).width
      (calculatePixelDimensions printSize).height image sx sy sw sh 0 0
      (calculatePixelDimensions printSize).width
      (calculatePixelDimensions printSize).height "image/jpeg" (92 / 100) with
  | error e =>
    rw [henc] at h
    exact Except.noConfusion h
  | ok encoded =>
    rw [henc] at h
    injection h with h
    have hout : out = addDPIMetadata p.exifInsert encoded 300 := h.symm
    refine ⟨encoded, ⟨_, _, _, _, _, _, _, _, _, _, _, henc⟩, hout, ?_, ?_⟩
    · intro b hb
      rw [hout]
      simp only [addDPIMetadata, hb]
    · rintro ⟨e, he⟩
      rw [hout]
      simp only [addDPIMetadata, he]

/-! ## Batch processing -/

/-- The loop of `processImageForAllSizes` appends, for the entries still to do and in their
order, one result per entry that was processed and one progress value `(j + 1) / total` per
entry that was processed, where `j` is the index of the entry. -/
theorem processImageForAllSizesFrom_eq (p : Platform) (image : Image) (total : ℕ) :
    ∀ (l : List PrintSize) (i : ℕ) (results : List ProcessedResult) (progress : List ℚ),
      processImageForAllSizesFrom p image total l i (results, progress) =
        (results ++ l.filterMap (fun size =>
            (processImageForSize p image size none "jpeg").toOption.map (fun blob =>
              { size := size, blob := blob, pixelDimensions := calculatePixelDimensions size,
                url := p.createObjectURL blob, cropSettings := none })),
         progress ++ (l.enumFrom i).filterMap (fun js =>
            if (processImageForSize p image js.2 none "jpeg").toBool
            then some (((js.1 : ℚ) + 1) / total) else none)) := by
  intro l
  induction l with
  | nil =>
    intro i results progress
    simp [processImageForAllSizesFrom]
  | cons size rest ih =>
    intro i results progress
    unfold processImageForAllSizesFrom
    cases h : processImageForSize p image size none "jpeg" with
    | error e =>
      simp only [ih, List.filterMap_cons, List.enumFrom_cons, h, Except.toOption, Except.toBool,
        Option.map_none']
      simp
    | ok blob =>
      simp only [ih, List.filterMap_cons, List.enumFrom_cons, h, Except.toOption, Except.toBool,
        Option.map_some', List.append_assoc, List.singleton_append, if_true]

/-- Entries kept plus entries dropped make up the whole list. -/
theorem length_kept_add_length_failed {α β γ : Type} (f : α → Except String β)
    (g : α → β → γ) (l : List α) :
    (l.filterMap (fun a => (f a).toOption.map (g a))).length
      + (l.filter (fun a => !(f a).toBool)).length = l.length := by
  induction l with
  | nil => rfl
  | cons a rest ih =>
    cases h : f a with
    | error e =>
      have e1 : (Except.error e : Except String β).toOption = none := rfl
      have e2 : (Except.error e : Except String β).toBool = false := rfl
      simp only [List.filterMap_cons, List.filter_cons, h, e1, e2, Option.map_none',
        Bool.not_false, if_true, List.length_cons]
      omega
    | ok b =>
      have e1 : (Except.ok b : Except String β).toOption = some b := rfl
      have e2 : (Except.ok b : Except String β).toBool = true := rfl
      simp only [List.filterMap_cons, List.filter_cons, h, e1, e2, Option.map_some',
        Bool.not_true, Bool.false_eq_true, if_false, List.length_cons]
      omega

/-- C12: `processImageForAllSizes` returns, in the order of the given list, exactly one
result for each entry whose `processImageForSize` succeeded and none for an entry that
failed, so `n` entries with `k` failures give `n - k` results; each result carries its own
size and `pixelDimensions = calculatePixelDimensions(size)`. -/
theorem processImageForAllSizes_results (p : Platform) (image : Image)
    (printSizes : List PrintSize) :
    (processImageForAllSizes p image printSizes).1 =
      printSizes.filterMap (fun size =>
        (processImageForSize p image size none "jpeg").toOption.map (fun blob =>
          { size := size, blob := blob, pixelDimensions := calculatePixelDimensions size,
            url := p.createObjectURL blob, cropSettings := none })) ∧
    (processImageForAllSizes p image printSizes).1.length
      + (printSizes.filter (fun size =>
          !(processImageForSize p image size none "jpeg").toBool)).length
      = printSizes.length ∧
    ∀ r ∈ (processImageForAllSizes p image printSizes).1,
      r.size ∈ printSizes ∧ r.pixelDimensions = calculatePixelDimensions r.size := by
  have hres : (processImageForAllSizes p image printSizes).1 =
      printSizes.filterMap (fun size =>
        (processImageForSize p image size none "jpeg").toOption.map (fun blob =>
          { size := size, blob := blob, pixelDimensions := calculatePixelDimensions size,
            url := p.createObjectURL blob, cropSettings := none })) := by
    unfold processImageForAllSizes
    rw [processImageForAllSizesFrom_eq]
    simp
  refine ⟨hres, ?_, ?_⟩
  · rw [hres]
    exact length_kept_add_length_failed
      (fun size => processImageForSize p image size none "jpeg")
      (fun size blob =>
        ({ size := size, blob := blob, pixelDimensions := calculatePixelDimensions size,
           url := p.createObjectURL blob, cropSettings := none } : ProcessedResult)) printSizes
  · intro r hr
    rw [hres, List.mem_filterMap] at hr
    obtain ⟨size, hmem, hsome⟩ := hr
    cases h : processImageForSize p image size none "jpeg" with
    | error e =>
      rw [h] at hsome
      simp [Except.toOption] at hsome
    | ok blob =>
      rw [h] at hsome
      simp only [Except.toOption, Option.map_some', Option.some.injEq] at hsome
      rw [← hsome]
      exact ⟨hmem, rfl⟩

/-- Thirteen catalog entries of which one, the 4x6 entry, fails to render give twelve
results. -/
theorem processImageForAllSizes_twelve_of_thirteen :
    (processImageForAllSizes
        { drawAndEncode := fun canvasWidth _ _ _ _ _ _ _ _ _ _ _ _ =>
            if canvasWidth = 1200 then .error "InvalidStateError"
            else .ok { bytes := [0xFF, 0xD8, 0xFF, 0xD9], type := "image/jpeg" },
          exifInsert := fun _ _ => .error "piexif: invalid jpeg",
          createObjectURL := fun _ => "blob:1" }
        { width := 4000, height := 3000, src := "photo.jpg" }
        (getAllSizes.take 13)).1.map (fun r => r.size.label)
      = ["8×12\"", "12×18\"", "20×30\"", "6×8\"", "9×12\"", "12×16\"", "18×24\"",
         "8×10\"", "11×14\"", "16×20\"", "5×7\"", "10×14\""] := by
  have h4 : inchesToPixels 4 = 1200 := by
    have h := inchesToPixels_natCast_mul 4
    norm_num at h
    exact h
  have h8 : inchesToPixels 8 = 2400 := by
    have h := inchesToPixels_natCast_mul 8
    norm_num at h
    exact h
  have h12 : inchesToPixels 12 = 3600 := by
    have h := inchesToPixels_natCast_mul 12
    norm_num at h
    exact h
  have h20 : inchesToPixels 20 = 6000 := by
    have h := inchesToPixels_natCast_mul 20
    norm_num at h
    exact h
  have h6 : inchesToPixels 6 = 1800 := by
    have h := inchesToPixels_natCast_mul 6
    norm_num at h
    exact h
  have h9 : inchesToPixels 9 = 2700 := by
    have h := inchesToPixels_natCast_mul 9
    norm_num at h
    exact h
  have h18 : inchesToPixels 18 = 5400 := by
    have h := inchesToPixels_natCast_mul 18
    norm_num at h
    exact h
  have h11 : inchesToPixels 11 = 3300 := by
    have h := inchesToPixels_natCast_mul 11
    norm_num at h
    exact h
  have h16 : inchesToPixels 16 = 4800 := by
    have h := inchesToPixels_natCast_mul 16
    norm_num at h
    exact h
  have h5 : inchesToPixels 5 = 1500 := by
    have h := inchesToPixels_natCast_mul 5
    norm_num at h
    exact h
  have h10 : inchesToPixels 10 = 3000 := by
    have h := inchesToPixels_natCast_mul 10
    norm_num at h
    exact h
  unfold processImageForAllSizes
  rw [processImageForAllSizesFrom_eq]
  simp [getAllSizes, PRINT_SIZES, processImageForSize, calculatePixelDimensions,
    Except.toOption, List.filterMap_cons, addDPIMetadata, h4, h8, h12, h20, h6, h9, h18, h11, h16, h5, h10]

/-- The values `onProgress` receives: `(j + 1) / n` for each index `j` whose entry was
processed, and nothing for an entry that failed. -/
theorem processImageForAllSizes_progress (p : Platform) (image : Image)
    (printSizes : List PrintSize) :
    (processImageForAllSizes p image printSizes).2 =
      (printSizes.enumFrom 0).filterMap (fun js =>
        if (processImageForSize p image js.2 none "jpeg").toBool
        then some (((js.1 : ℚ) + 1) / printSizes.length) else none) := by
  unfold processImageForAllSizes
  rw [processImageForAllSizesFrom_eq]
  simp

/-- C13 (the code departs from the claim): `onProgress` is called inside the `try` block,
after the result is pushed, so a failing entry reports nothing.  For the two entries 4x6 and
8x12, with the render of the second (2400 pixels wide) failing, `onProgress` receives the
single value 1/2 and never the value 1; when every render fails it is not called at all. -/
theorem processImageForAllSizes_progress_stops_short :
    (processImageForAllSizes
        { drawAndEncode := fun canvasWidth _ _ _ _ _ _ _ _ _ _ _ _ =>
            if canvasWidth = 2400 then .error "InvalidStateError"
            else .ok { bytes := [0xFF, 0xD8, 0xFF, 0xD9], type := "image/jpeg" },
          exifInsert := fun _ _ => .error "piexif: invalid jpeg",
          createObjectURL := fun _ => "blob:1" }
        { width := 4000, height := 3000, src := "photo.jpg" }
        [{ width := 4, height := 6, label := "4×6\"" },
         { width := 8, height := 12, label := "8×12\"" }]).2 = [1 / 2] ∧
    (processImageForAllSizes
        { drawAndEncode := fun _ _ _ _ _ _ _ _ _ _ _ _ _ => .error "InvalidStateError",
          exifInsert := fun _ _ => .error "piexif: invalid jpeg",
          createObjectURL := fun _ => "blob:1" }
        { width := 4000, height := 3000, src := "photo.jpg" }
        [{ width := 4, height := 6, label := "4×6\"" },
         { width := 8, height := 12, label := "8×12\"" }]).2 = [] := by
  have h4 : inchesToPixels 4 = 1200 := by
    have h := inchesToPixels_natCast_mul 4
    norm_num at h
    exact h
  have h8 : inchesToPixels 8 = 2400 := by
    have h := inchesToPixels_natCast_mul 8
    norm_num at h
    exact h
  constructor
  · simp only [processImageForAllSizes, processImageForAllSizesFrom, processImageForSize,
      calculatePixelDimensions, h4, h8]
    norm_num
  · rfl

/-! ## The crop editor -/

/-- The rounded auto-crop of an image with positive integer sides lies inside the image. -/
theorem crop_region_inside (W H : ℕ) (r : ℚ) (hH : 0 < H) (hr : 0 < r) :
    0 ≤ (calculateCropDimensions W H r).x ∧
    0 ≤ (calculateCropDimensions W H r).y ∧
    (calculateCropDimensions W H r).x + (calculateCropDimensions W H r).width ≤ W ∧
    (calculateCropDimensions W H r).y + (calculateCropDimensions W H r).height ≤ H := by
  have hHq : (0 : ℚ) < H := by exact_mod_cast hH
  by_cases h : (W : ℚ) / H > r
  · rw [crop_wide h]
    have hlt : (H : ℚ) * r < ((W : ℤ) : ℚ) := by
      have := (lt_div_iff₀ hHq).mp h
      simp only [Int.cast_natCast]
      linarith
    have hsum := jsRound_margin_add_band_lt hlt
    have hx : 0 ≤ jsRound (((W : ℚ) - H * r) / 2) := by
      apply jsRound_nonneg
      simp only [Int.cast_natCast] at hlt
      linarith
    have hh : jsRound (H : ℚ) = H := jsRound_natCast H
    simp only [Int.cast_natCast] at hsum
    refine ⟨hx, le_refl _, hsum, ?_⟩
    simp only [hh]
    omega
  · rw [crop_tall h]
    have hle : (W : ℚ) / r ≤ ((H : ℤ) : ℚ) := by
      have h1 : (W : ℚ) / H ≤ r := not_lt.mp h
      have h2 : (W : ℚ) ≤ r * H := (div_le_iff₀ hHq).mp h1
      simp only [Int.cast_natCast]
      rw [div_le_iff₀ hr]
      linarith
    have hsum := jsRound_margin_add_band hle
    have hy : 0 ≤ jsRound (((H : ℚ) - W / r) / 2) := by
      apply jsRound_nonneg
      simp only [Int.cast_natCast] at hle
      linarith
    have hw : jsRound (W : ℚ) = W := jsRound_natCast W
    simp only [Int.cast_natCast] at hsum
    refine ⟨le_refl _, hy, ?_, hsum⟩
    simp only [hw]
    omega

/-- The bounds of a crop rectangle inside a `W x H` image. -/
theorem toCropArea_inside (W H : ℕ) (r : ℚ) (hH : 0 < H) (hr : 0 < r) :
    0 ≤ (calculateCropDimensions W H r).toCropArea.x ∧
    0 ≤ (calculateCropDimensions W H r).toCropArea.y ∧
    (calculateCropDimensions W H r).toCropArea.x
      + (calculateCropDimensions W H r).toCropArea.width ≤ W ∧
    (calculateCropDimensions W H r).toCropArea.y
      + (calculateCropDimensions W H r).toCropArea.height ≤ H := by
  obtain ⟨h1, h2, h3, h4⟩ := crop_region_inside W H r hH hr
  simp only [CropRegion.toCropArea]
  refine ⟨by exact_mod_cast h1, by exact_mod_cast h2, by exact_mod_cast h3, by exact_mod_cast h4⟩

/-- C14: a pointer-move while dragging, on a canvas of positive size and with a crop no
larger than the image, moves only the crop origin: the new crop is
`(max(0, min(W - w, x + dx*W/cw)), max(0, min(H - h, y + dy*H/ch)), w, h)`.  A delta that
would push `x` below 0 gives exactly 0, one that would push `x + w` beyond `W` gives exactly
`W - w`, the same holds for `y`, and width and height do not change. -/
theorem handleMouseMove_clamped (image : Image) (s : EditorState) (dx dy cw ch : ℚ)
    (hdrag : s.isDragging = true) (hcw : 0 < cw) (hch : 0 < ch)
    (hw : s.cropArea.width ≤ image.width) (hh : s.cropArea.height ≤ image.height) :
    (handleMouseMove image s (s.dragStart.1 + dx) (s.dragStart.2 + dy) cw ch).cropArea =
      { x := max 0 (min ((image.width : ℚ) - s.cropArea.width)
               (s.cropArea.x + dx * image.width / cw)),
        y := max 0 (min ((image.height : ℚ) - s.cropArea.height)
               (s.cropArea.y + dy * image.height / ch)),
        width := s.cropArea.width,
        height := s.cropArea.height } ∧
    (s.cropArea.x + dx * image.width / cw < 0 →
      (handleMouseMove image s (s.dragStart.1 + dx) (s.dragStart.2 + dy) cw ch).cropArea.x = 0) ∧
    ((image.width : ℚ) < s.cropArea.x + dx * image.width / cw + s.cropArea.width →
      (handleMouseMove image s (s.dragStart.1 + dx) (s.dragStart.2 + dy) cw ch).cropArea.x
        = image.width - s.cropArea.width) ∧
    (s.cropArea.y + dy * image.height / ch < 0 →
      (handleMouseMove image s (s.dragStart.1 + dx) (s.dragStart.2 + dy) cw ch).cropArea.y = 0) ∧
    ((image.height : ℚ) < s.cropArea.y + dy * image.height / ch + s.cropArea.height →
      (handleMouseMove image s (s.dragStart.1 + dx) (s.dragStart.2 + dy) cw ch).cropArea.y
        = image.height - s.cropArea.height) := by
  have hmove : (handleMouseMove image s (s.dragStart.1 + dx) (s.dragStart.2 + dy) cw ch).cropArea =
      { x := max 0 (min ((image.width : ℚ) - s.cropArea.width)
               (s.cropArea.x + dx * image.width / cw)),
        y := max 0 (min ((image.height : ℚ) - s.cropArea.height)
               (s.cropArea.y + dy * image.height / ch)),
        width := s.cropArea.width,
        height := s.cropArea.height } := by
    simp only [handleMouseMove, hdrag, Bool.not_true, Bool.false_eq_true, if_false,
      add_sub_cancel_left, mul_div_assoc]
  have hw0 : (0 : ℚ) ≤ image.width - s.cropArea.width := by linarith
  have hh0 : (0 : ℚ) ≤ image.height - s.cropArea.height := by linarith
  refine ⟨hmove, ?_, ?_, ?_, ?_⟩
  · intro h
    rw [hmove]
    show max 0 (min ((image.width : ℚ) - s.cropArea.width)
      (s.cropArea.x + dx * image.width / cw)) = 0
    rw [min_eq_right (by linarith), max_eq_left (le_of_lt h)]
  · intro h
    rw [hmove]
    show max 0 (min ((image.width : ℚ) - s.cropArea.width)
      (s.cropArea.x + dx * image.width / cw)) = image.width - s.cropArea.width
    rw [min_eq_left (by linarith), max_eq_right hw0]
  · intro h
    rw [hmove]
    show max 0 (min ((image.height : ℚ) - s.cropArea.height)
      (s.cropArea.y + dy * image.height / ch)) = 0
    rw [min_eq_right (by linarith), max_eq_left (le_of_lt h)]
  · intro h
    rw [hmove]
    show max 0 (min ((image.height : ℚ) - s.cropArea.height)
      (s.cropArea.y + dy * image.height / ch)) = image.height - s.cropArea.height
    rw [min_eq_left (by linarith), max_eq_right hh0]

theorem handleMouseMove_clamped_witness :
    (handleMouseMove { width := 4000, height := 3000, src := "photo.jpg" }
        { cropArea := { x := 800, y := 0, width := 2400, height := 3000 },
          isDragging := true, dragStart := (100, 100), zoom := 1 }
        (100 + (-500)) (100 + 10) 800 600).cropArea.x = 0 ∧
    (handleMouseMove { width := 4000, height := 3000, src := "photo.jpg" }
        { cropArea := { x := 800, y := 0, width := 2400, height := 3000 },
          isDragging := true, dragStart := (100, 100), zoom := 1 }
        (100 + 500) (100 + 10) 800 600).cropArea.x = ((4000 : ℕ) : ℚ) - 2400 :=
  ⟨(handleMouseMove_clamped { width := 4000, height := 3000, src := "photo.jpg" }
      { cropArea := { x := 800, y := 0, width := 2400, height := 3000 },
        isDragging := true, dragStart := (100, 100), zoom := 1 }
      (-500) 10 800 600 rfl (by norm_num) (by norm_num) (by norm_num) (by norm_num)).2.1
      (by norm_num),
   (handleMouseMove_clamped { width := 4000, height := 3000, src := "photo.jpg" }
      { cropArea := { x := 800, y := 0, width := 2400, height := 3000 },
        isDragging := true, dragStart := (100, 100), zoom := 1 }
      500 10 800 600 rfl (by norm_num) (by norm_num) (by norm_num) (by norm_num)).2.2.1
      (by norm_num)⟩

/-- When the selected entry has no stored crop, `initializeCrop` yields the auto-crop. -/
theorem initializeCrop_auto (selected : ProcessedResult) (image : Image) (c : CropArea)
    (hnone : selected.cropSettings = none) :
    initializeCrop (some selected) (some image) c =
      (calculateCropDimensions image.width image.height
        (selected.size.width / selected.size.height)).toCropArea := by
  simp only [initializeCrop, hnone]

/-- One event keeps the crop inside the image and keeps its size, provided every
initialization yields the same crop `c0` lying inside the image. -/
theorem editorStep_preserves (selected : ProcessedResult) (image : Image) (c0 : CropArea)
    (hinit : ∀ c, initializeCrop (some selected) (some image) c = c0)
    (h0 : 0 ≤ c0.x ∧ 0 ≤ c0.y ∧ c0.x + c0.width ≤ image.width ∧
      c0.y + c0.height ≤ image.height)
    (s : EditorState) (e : EditorEvent)
    (hs : (0 ≤ s.cropArea.x ∧ 0 ≤ s.cropArea.y ∧
        s.cropArea.x + s.cropArea.width ≤ image.width ∧
        s.cropArea.y + s.cropArea.height ≤ image.height) ∧
      s.cropArea.width = c0.width ∧ s.cropArea.height = c0.height) :
    (0 ≤ (editorStep selected image s e).cropArea.x ∧
        0 ≤ (editorStep selected image s e).cropArea.y ∧
        (editorStep selected image s e).cropArea.x
          + (editorStep selected image s e).cropArea.width ≤ image.width ∧
        (editorStep selected image s e).cropArea.y
          + (editorStep selected image s e).cropArea.height ≤ image.height) ∧
      (editorStep selected image s e).cropArea.width = c0.width ∧
      (editorStep selected image s e).cropArea.height = c0.height := by
  obtain ⟨⟨hx, hy, hxw, hyh⟩, hw, hh⟩ := hs
  cases e with
  | mouseDown x y => exact ⟨⟨hx, hy, hxw, hyh⟩, hw, hh⟩
  | mouseUp => exact ⟨⟨hx, hy, hxw, hyh⟩, hw, hh⟩
  | reset =>
    simp only [editorStep, handleReset, hinit]
    exact ⟨h0, trivial, trivial⟩
  | zoomOut =>
    simp only [editorStep, setZoom]
    split
    · exact ⟨⟨hx, hy, hxw, hyh⟩, hw, hh⟩
    · simp only [hinit]
      exact ⟨h0, trivial, trivial⟩
  | zoomIn =>
    simp only [editorStep, setZoom]
    split
    · exact ⟨⟨hx, hy, hxw, hyh⟩, hw, hh⟩
    · simp only [hinit]
      exact ⟨h0, trivial, trivial⟩
  | mouseMove x y cw ch =>
    simp only [editorStep, handleMouseMove]
    split
    · exact ⟨⟨hx, hy, hxw, hyh⟩, hw, hh⟩
    · have hw0 : (0 : ℚ) ≤ image.width - s.cropArea.width := by linarith
      have hh0 : (0 : ℚ) ≤ image.height - s.cropArea.height := by linarith
      refine ⟨⟨le_max_left _ _, le_max_left _ _, ?_, ?_⟩, hw, hh⟩
      · have : max 0 (min ((image.width : ℚ) - s.cropArea.width)
            (s.cropArea.x + (x - s.dragStart.1) * ((image.width : ℚ) / cw)))
            ≤ image.width - s.cropArea.width := max_le hw0 (min_le_left _ _)
        show max 0 (min ((image.width : ℚ) - s.cropArea.width)
            (s.cropArea.x + (x - s.dragStart.1) * ((image.width : ℚ) / cw)))
            + s.cropArea.width ≤ image.width
        linarith
      · have : max 0 (min ((image.height : ℚ) - s.cropArea.height)
            (s.cropArea.y + (y - s.dragStart.2) * ((image.height : ℚ) / ch)))
            ≤ image.height - s.cropArea.height := max_le hh0 (min_le_left _ _)
        show max 0 (min ((image.height : ℚ) - s.cropArea.height)
            (s.cropArea.y + (y - s.dragStart.2) * ((image.height : ℚ) / ch)))
            + s.cropArea.height ≤ image.height
        linarith

/-- C15: starting from the initialization by auto-crop on an image with positive integer
sides, after any sequence of pointer-down, pointer-move (on a canvas of positive size),
pointer-up, reset and zoom events the crop area satisfies `0 ≤ x`, `0 ≤ y`,
`x + width ≤ imageWidth` and `y + height ≤ imageHeight`, and its width and height are those
computed at initialization. -/
theorem editor_crop_invariant (selected : ProcessedResult) (image : Image)
    (events : List EditorEvent)
    (hW : 0 < image.width) (hH : 0 < image.height)
    (hsw : 0 < selected.size.width) (hsh : 0 < selected.size.height)
    (hnone : selected.cropSettings = none)
    (hcanvas : ∀ x y cw ch, EditorEvent.mouseMove x y cw ch ∈ events → 0 < cw ∧ 0 < ch) :
    0 ≤ (events.foldl (editorStep selected image) (openEditor selected image)).cropArea.x ∧
    0 ≤ (events.foldl (editorStep selected image) (openEditor selected image)).cropArea.y ∧
    (events.foldl (editorStep selected image) (openEditor selected image)).cropArea.x
      + (events.foldl (editorStep selected image) (openEditor selected image)).cropArea.width
      ≤ image.width ∧
    (events.foldl (editorStep selected image) (openEditor selected image)).cropArea.y
      + (events.foldl (editorStep selected image) (openEditor selected image)).cropArea.height
      ≤ image.height ∧
    (events.foldl (editorStep selected image) (openEditor selected image)).cropArea.width
      = (openEditor selected image).cropArea.width ∧
    (events.foldl (editorStep selected image) (openEditor selected image)).cropArea.height
      = (openEditor selected image).cropArea.height := by
  have hr : 0 < selected.size.width / selected.size.height := div_pos hsw hsh
  have hinit : ∀ c, initializeCrop (some selected) (some image) c =
      (openEditor selected image).cropArea := by
    intro c
    simp only [openEditor, initializeCrop_auto selected image _ hnone]
  have h0 : 0 ≤ (openEditor selected image).cropArea.x ∧
      0 ≤ (openEditor selected image).cropArea.y ∧
      (openEditor selected image).cropArea.x + (openEditor selected image).cropArea.width
        ≤ image.width ∧
      (openEditor selected image).cropArea.y + (openEditor selected image).cropArea.height
        ≤ image.height := by
    simp only [openEditor, initializeCrop_auto selected image _ hnone]
    exact toCropArea_inside image.width image.height _ hH hr
  have hall : ∀ (evs : List EditorEvent) (s : EditorState),
      ((0 ≤ s.cropArea.x ∧ 0 ≤ s.cropArea.y ∧
          s.cropArea.x + s.cropArea.width ≤ image.width ∧
          s.cropArea.y + s.cropArea.height ≤ image.height) ∧
        s.cropArea.width = (openEditor selected image).cropArea.width ∧
        s.cropArea.height = (openEditor selected image).cropArea.height) →
      ((0 ≤ (evs.foldl (editorStep selected image) s).cropArea.x ∧
          0 ≤ (evs.foldl (editorStep selected image) s).cropArea.y ∧
          (evs.foldl (editorStep selected image) s).cropArea.x
            + (evs.foldl (editorStep selected image) s).cropArea.width ≤ image.width ∧
          (evs.foldl (editorStep selected image) s).cropArea.y
            + (evs.foldl (editorStep selected image) s).cropArea.height ≤ image.height) ∧
        (evs.foldl (editorStep selected image) s).cropArea.width
          = (openEditor selected image).cropArea.width ∧
        (evs.foldl (editorStep selected image) s).cropArea.height
          = (openEditor selected image).cropArea.height) := by
    intro evs
    induction evs with
    | nil => intro s hs; exact hs
    | cons e rest ih =>
      intro s hs
      exact ih _ (editorStep_preserves selected image _ hinit h0 s e hs)
  obtain ⟨⟨h1, h2, h3, h4⟩, h5, h6⟩ := hall events (openEditor selected image) ⟨h0, rfl, rfl⟩
  exact ⟨h1, h2, h3, h4, h5, h6⟩

theorem editor_crop_invariant_witness :
    0 ≤ (([.mouseDown 100 100, .mouseMove 50 100 800 600, .zoomIn, .mouseMove 900 100 880 660,
          .mouseUp, .reset] : List EditorEvent).foldl
        (editorStep
          { size := { width := 8, height := 10, label := "8×10\"" },
            blob := { bytes := [0xFF, 0xD8, 0xFF, 0xD9], type := "image/jpeg" },
            pixelDimensions := { width := 2400, height := 3000, label := "8×10\"",
                                 aspectRatio := 4 / 5 },
            url := "blob:1", cropSettings := none }
          { width := 4000, height := 3000, src := "photo.jpg" })
        (openEditor
          { size := { width := 8, height := 10, label := "8×10\"" },
            blob := { bytes := [0xFF, 0xD8, 0xFF, 0xD9], type := "image/jpeg" },
            pixelDimensions := { width := 2400, height := 3000, label := "8×10\"",
                                 aspectRatio := 4 / 5 },
            url := "blob:1", cropSettings := none }
          { width := 4000, height := 3000, src := "photo.jpg" })).cropArea.x :=
  (editor_crop_invariant
    { size := { width := 8, height := 10, label := "8×10\"" },
      blob := { bytes := [0xFF, 0xD8, 0xFF, 0xD9], type := "image/jpeg" },
      pixelDimensions := { width := 2400, height := 3000, label := "8×10\"",
                           aspectRatio := 4 / 5 },
      url := "blob:1", cropSettings := none }
    { width := 4000, height := 3000, src := "photo.jpg" }
    [.mouseDown 100 100, .mouseMove 50 100 800 600, .zoomIn, .mouseMove 900 100 880 660,
      .mouseUp, .reset]
    (by decide) (by decide) (by norm_num) (by norm_num) rfl
    (by
      intro x y cw ch hmem
      simp only [List.mem_cons, EditorEvent.mouseMove.injEq, reduceCtorEq, false_or,
        List.mem_singleton, or_false, List.not_mem_nil] at hmem
      rcases hmem with ⟨_, _, h1, h2⟩ | ⟨_, _, h1, h2⟩
      · rw [h1, h2]; norm_num
      · rw [h1, h2]; norm_num)).1

/-- The editor opened on the 8x10 entry of a 4000x3000 image starts from the auto-crop
`(800, 0, 2400, 3000)`. -/
theorem openEditor_example :
    (openEditor
        { size := { width := 8, height := 10, label := "8×10\"" },
          blob := { bytes := [0xFF, 0xD8, 0xFF, 0xD9], type := "image/jpeg" },
          pixelDimensions := { width := 2400, height := 3000, label := "8×10\"",
                               aspectRatio := 4 / 5 },
          url := "blob:1", cropSettings := none }
        { width := 4000, height := 3000, src := "photo.jpg" })
      = { cropArea := { x := 800, y := 0, width := 2400, height := 3000 },
          isDragging := false, dragStart := (0, 0), zoom := 1 } := by
  have e : calculateCropDimensions ((4000 : ℕ) : ℚ) ((3000 : ℕ) : ℚ) ((8 : ℚ) / 10)
      = { x := 800, y := 0, width := 2400, height := 3000 } := by
    have h : (8 : ℚ) / 10 = 4 / 5 := by norm_num
    rw [h]
    simpa using crop_example
  simp only [openEditor, initializeCrop, e, CropRegion.toCropArea]
  norm_num

/-- C16 (the code departs from the claim): the effect that runs `initializeCrop` lists `zoom`
among its dependencies, so a zoom change resets the crop.  On a 4000x3000 image with the 8x10
entry, pressing at (100, 100) and dragging 50 display pixels to the right on an 800x600
canvas moves the crop from `x = 800` to `x = 1050`; the following zoom-in puts it back at
`x = 800`. -/
theorem zoom_resets_crop :
    (([.mouseDown 100 100, .mouseMove 150 100 800 600] : List EditorEvent).foldl
        (editorStep
          { size := { width := 8, height := 10, label := "8×10\"" },
            blob := { bytes := [0xFF, 0xD8, 0xFF, 0xD9], type := "image/jpeg" },
            pixelDimensions := { width := 2400, height := 3000, label := "8×10\"",
                                 aspectRatio := 4 / 5 },
            url := "blob:1", cropSettings := none }
          { width := 4000, height := 3000, src := "photo.jpg" })
        (openEditor
          { size := { width := 8, height := 10, label := "8×10\"" },
            blob := { bytes := [0xFF, 0xD8, 0xFF, 0xD9], type := "image/jpeg" },
            pixelDimensions := { width := 2400, height := 3000, label := "8×10\"",
                                 aspectRatio := 4 / 5 },
            url := "blob:1", cropSettings := none }
          { width := 4000, height := 3000, src := "photo.jpg" })).cropArea
      = { x := 1050, y := 0, width := 2400, height := 3000 } ∧
    (([.mouseDown 100 100, .mouseMove 150 100 800 600, .zoomIn] : List EditorEvent).foldl
        (editorStep
          { size := { width := 8, height := 10, label := "8×10\"" },
            blob := { bytes := [0xFF, 0xD8, 0xFF, 0xD9], type := "image/jpeg" },
            pixelDimensions := { width := 2400, height := 3000, label := "8×10\"",
                                 aspectRatio := 4 / 5 },
            url := "blob:1", cropSettings := none }
          { width := 4000, height := 3000, src := "photo.jpg" })
        (openEditor
          { size := { width := 8, height := 10, label := "8×10\"" },
            blob := { bytes := [0xFF, 0xD8, 0xFF, 0xD9], type := "image/jpeg" },
            pixelDimensions := { width := 2400, height := 3000, label := "8×10\"",
                                 aspectRatio := 4 / 5 },
            url := "blob:1", cropSettings := none }
          { width := 4000, height := 3000, src := "photo.jpg" })).cropArea
      = { x := 800, y := 0, width := 2400, height := 3000 } := by
  have e : calculateCropDimensions ((4000 : ℕ) : ℚ) ((3000 : ℕ) : ℚ) ((8 : ℚ) / 10)
      = { x := 800, y := 0, width := 2400, height := 3000 } := by
    have h : (8 : ℚ) / 10 = 4 / 5 := by norm_num
    rw [h]
    simpa using crop_example
  have hz : ¬ (min (3 : ℚ) (1 + 1 / 10) = 1) := by norm_num
  constructor
  · simp only [List.foldl_cons, List.foldl_nil, openEditor_example, editorStep,
      handleMouseDown, handleMouseMove]
    norm_num
  · simp only [List.foldl_cons, List.foldl_nil, openEditor_example, editorStep,
      handleMouseDown, handleMouseMove, setZoom, if_neg hz, initializeCrop, e,
      CropRegion.toCropArea]
    norm_num

/-! ## Applying a crop -/

/-- After a successful `handleApply` the collection is the old one with every element whose
size label equals the label of the selected entry given the new blob, url and crop. -/
theorem handleApply_processedImages (p : Platform) (store : AppStore) (cropArea : CropArea)
    (selected : ProcessedResult) (image : Image) (newBlob : Blob)
    (hsel : store.selectedImageForCrop = some selected)
    (himg : store.originalImage = some image)
    (hok : processImageForSize p image selected.size (some cropArea) "jpeg" = .ok newBlob) :
    (handleApply p store cropArea).processedImages =
      store.processedImages.map (fun img =>
        if img.size.label = selected.size.label then
          { img with blob := newBlob, url := p.createObjectURL newBlob,
                     cropSettings := some cropArea }
        else img) := by
  simp only [handleApply, hsel, himg, hok, setProcessing, setProcessedImages, closeCropEditor]

/-- C17 (the code departs from the claim): `handleApply` picks the elements to replace by
their size label, and the catalog lists 11x14 twice, under `4:5` and under `custom`.  On the
collection produced from the whole catalog, applying a crop to the 11x14 entry at index 9
replaces the element at index 9 and also the one at index 14. -/
theorem handleApply_replaces_both_11x14 :
    (processImageForAllSizes
        { drawAndEncode := fun _ _ _ _ _ _ _ _ _ _ _ _ _ =>
            .ok { bytes := [0xFF, 0xD8, 0xFF, 0xD9], type := "image/jpeg" },
          exifInsert := fun _ _ => .error "piexif: invalid jpeg",
          createObjectURL := fun _ => "blob:1" }
        { width := 4000, height := 3000, src := "photo.jpg" } getAllSizes).1.map
        (fun img => (img.size.label, img.cropSettings))
      = [("4×6\"", none), ("8×12\"", none), ("12×18\"", none), ("20×30\"", none),
         ("6×8\"", none), ("9×12\"", none), ("12×16\"", none), ("18×24\"", none),
         ("8×10\"", none), ("11×14\"", none), ("16×20\"", none),
         ("5×7\"", none), ("10×14\"", none), ("15×21\"", none),
         ("11×14\"", none)] ∧
    (handleApply
        { drawAndEncode := fun _ _ _ _ _ _ _ _ _ _ _ _ _ =>
            .ok { bytes := [0xFF, 0xD8, 0xFF, 0xD9], type := "image/jpeg" },
          exifInsert := fun _ _ => .error "piexif: invalid jpeg",
          createObjectURL := fun _ => "blob:1" }
        { originalFile := some "photo.jpg",
          originalImage := some { width := 4000, height := 3000, src := "photo.jpg" },
          previewUrl := some "blob:0",
          isProcessing := false,
          processingProgress := 100,
          processedImages :=
            (processImageForAllSizes
              { drawAndEncode := fun _ _ _ _ _ _ _ _ _ _ _ _ _ =>
                  .ok { bytes := [0xFF, 0xD8, 0xFF, 0xD9], type := "image/jpeg" },
                exifInsert := fun _ _ => .error "piexif: invalid jpeg",
                createObjectURL := fun _ => "blob:1" }
              { width := 4000, height := 3000, src := "photo.jpg" } getAllSizes).1,
          selectedSizes := getAllSizes,
          activeTab := "preview",
          showCropEditor := true,
          selectedImageForCrop := some
            { size := { width := 11, height := 14, label := "11×14\"" },
              blob := { bytes := [0xFF, 0xD8, 0xFF, 0xD9], type := "image/jpeg" },
              pixelDimensions :=
                calculatePixelDimensions { width := 11, height := 14, label := "11×14\"" },
              url := "blob:1", cropSettings := none },
          error := none }
        { x := 900, y := 0, width := 2357, height := 3000 }).processedImages.map
        (fun img => (img.size.label, img.cropSettings))
      = [("4×6\"", none), ("8×12\"", none), ("12×18\"", none), ("20×30\"", none),
         ("6×8\"", none), ("9×12\"", none), ("12×16\"", none), ("18×24\"", none),
         ("8×10\"", none),
         ("11×14\"", some { x := 900, y := 0, width := 2357, height := 3000 }),
         ("16×20\"", none),
         ("5×7\"", none), ("10×14\"", none), ("15×21\"", none),
         ("11×14\"", some { x := 900, y := 0, width := 2357, height := 3000 })] := by
  have hall : (processImageForAllSizes
        { drawAndEncode := fun _ _ _ _ _ _ _ _ _ _ _ _ _ =>
            .ok { bytes := [0xFF, 0xD8, 0xFF, 0xD9], type := "image/jpeg" },
          exifInsert := fun _ _ => .error "piexif: invalid jpeg",
          createObjectURL := fun _ => "blob:1" }
        { width := 4000, height := 3000, src := "photo.jpg" } getAllSizes).1
      = getAllSizes.map (fun size =>
          { size := size, blob := { bytes := [0xFF, 0xD8, 0xFF, 0xD9], type := "image/jpeg" },
            pixelDimensions := calculatePixelDimensions size,
            url := "blob:1", cropSettings := none }) := by
    unfold processImageForAllSizes
    rw [processImageForAllSizesFrom_eq]
    simp only [List.nil_append]
    rfl
  constructor
  · rw [hall]
    rfl
  · rw [hall]
    simp [handleApply, setProcessing, setProcessedImages, closeCropEditor, processImageForSize,
      addDPIMetadata, getAllSizes, PRINT_SIZES]

/-! ## The raster that is rendered -/

/-- C21: for every source image, print size, optional crop and format, `processImageForSize`
draws on a canvas of exactly `calculatePixelDimensions(printSize).width x .height`, into the
destination rectangle with origin (0, 0) and that same size, from the source rectangle given
by `cropSettings` when present and otherwise by
`calculateCropDimensions(image.width, image.height, printSize.width / printSize.height)`,
whose ratio is the `aspectRatio` carried by the target pixel dimensions. -/
theorem processImageForSize_raster (p : Platform) (image : Image) (printSize : PrintSize)
    (format : String) :
    (∀ crop : CropArea,
      processImageForSize p image printSize (some crop) format =
        match p.drawAndEncode (calculatePixelDimensions printSize).width
            (calculatePixelDimensions printSize).height image
            crop.x crop.y crop.width crop.height
            0 0 (calculatePixelDimensions printSize).width
            (calculatePixelDimensions printSize).height
            (if format = "jpeg" then "image/jpeg" else "image/png")
            ((QUALITY_SETTINGS.lookup format).getD (92 / 100)) with
        | .error e => .error e
        | .ok blob =>
          if format = "jpeg" then .ok (addDPIMetadata p.exifInsert blob TARGET_DPI)
          else .ok blob) ∧
    processImageForSize p image printSize none format =
      (match p.drawAndEncode (calculatePixelDimensions printSize).width
          (calculatePixelDimensions printSize).height image
          (calculateCropDimensions image.width image.height
            (calculatePixelDimensions printSize).aspectRatio).x
          (calculateCropDimensions image.width image.height
            (calculatePixelDimensions printSize).aspectRatio).y
          (calculateCropDimensions image.width image.height
            (calculatePixelDimensions printSize).aspectRatio).width
          (calculateCropDimensions image.width image.height
            (calculatePixelDimensions printSize).aspectRatio).height
          0 0 (calculatePixelDimensions printSize).width
          (calculatePixelDimensions printSize).height
          (if format = "jpeg" then "image/jpeg" else "image/png")
          ((QUALITY_SETTINGS.lookup format).getD (92 / 100)) with
      | .error e => .error e
      | .ok blob =>
        if format = "jpeg" then .ok (addDPIMetadata p.exifInsert blob TARGET_DPI)
        else .ok blob) ∧
    (calculatePixelDimensions printSize).aspectRatio = printSize.width / printSize.height ∧
    (calculatePixelDimensions printSize).width = inchesToPixels printSize.width ∧
    (calculatePixelDimensions printSize).height = inchesToPixels printSize.height := by
  refine ⟨fun crop => rfl, rfl, rfl, rfl, rfl⟩

/-! ## The grouping of the catalog -/

/-- C22 (the code departs from the claim): the group `4:5` of `PRINT_SIZES` lists the 11x14
entry, whose ratio 11/14 is not the ratio 4/5 that `ASPECT_RATIOS` gives for `4:5`.  Every
other entry has exactly the ratio of the key it is listed under. -/
theorem print_sizes_group_4_5_holds_11x14 :
    ({ width := 11, height := 14, label := "11×14\"" } : PrintSize)
      ∈ (PRINT_SIZES.lookup "4:5").getD [] ∧
    ASPECT_RATIOS.lookup "4:5" = some (4 / 5) ∧
    ({ width := 11, height := 14, label := "11×14\"" } : PrintSize).width
        / ({ width := 11, height := 14, label := "11×14\"" } : PrintSize).height
      ≠ 4 / 5 ∧
    (∀ group ∈ PRINT_SIZES, ∀ entry ∈ group.2,
      entry ≠ { width := 11, height := 14, label := "11×14\"" } ∨ group.1 = "custom" →
      ASPECT_RATIOS.lookup group.1 = some (entry.width / entry.height)) := by
  have l1 : ASPECT_RATIOS.lookup "2:3" = some (2 / 3) := rfl
  have l2 : ASPECT_RATIOS.lookup "3:4" = some (3 / 4) := rfl
  have l3 : ASPECT_RATIOS.lookup "4:5" = some (4 / 5) := rfl
  have l4 : ASPECT_RATIOS.lookup "5:7" = some (5 / 7) := rfl
  have l5 : ASPECT_RATIOS.lookup "custom" = some (11 / 14) := rfl
  have g3 : PRINT_SIZES.lookup "4:5" = some
      [{ width := 8, height := 10, label := "8×10\"" },
       { width := 11, height := 14, label := "11×14\"" },
       { width := 16, height := 20, label := "16×20\"" }] := rfl
  refine ⟨?_, l3, by norm_num, ?_⟩
  · rw [g3]
    simp
  · intro group hg entry he hne
    simp only [PRINT_SIZES, List.mem_cons, List.mem_singleton, List.not_mem_nil, or_false] at hg
    rcases hg with rfl | rfl | rfl | rfl | rfl
    · simp only [List.mem_cons, List.mem_singleton, List.not_mem_nil, or_false] at he
      rcases he with rfl | rfl | rfl | rfl <;>
        norm_num [l1]
    · simp only [List.mem_cons, List.mem_singleton, List.not_mem_nil, or_false] at he
      rcases he with rfl | rfl | rfl | rfl <;>
        norm_num [l2]
    · simp only [List.mem_cons, List.mem_singleton, List.not_mem_nil, or_false] at he
      rcases he with rfl | rfl | rfl
      · norm_num [l3]
      · simp at hne
      · norm_num [l3]
    · simp only [List.mem_cons, List.mem_singleton, List.not_mem_nil, or_false] at he
      rcases he with rfl | rfl | rfl <;>
        norm_num [l4]
    · simp only [List.mem_cons, List.mem_singleton, List.not_mem_nil, or_false] at he
      rcases he with rfl
      simp only [l5]

/-! ## Closing the editor -/

/-- C25: `closeCropEditor` sets `showCropEditor` to false and `selectedImageForCrop` to null
and leaves `processedImages` and every other field of the store as it was. -/
theorem closeCropEditor_frame (store : AppStore) :
    (closeCropEditor store).showCropEditor = false ∧
    (closeCropEditor store).selectedImageForCrop = none ∧
    (closeCropEditor store).processedImages = store.processedImages ∧
    (closeCropEditor store).originalFile = store.originalFile ∧
    (closeCropEditor store).originalImage = store.originalImage ∧
    (closeCropEditor store).previewUrl = store.previewUrl ∧
    (closeCropEditor store).isProcessing = store.isProcessing ∧
    (closeCropEditor store).processingProgress = store.processingProgress ∧
    (closeCropEditor store).selectedSizes = store.selectedSizes ∧
    (closeCropEditor store).activeTab = store.activeTab ∧
    (closeCropEditor store).error = store.error :=
  ⟨rfl, rfl, rfl, rfl, rfl, rfl, rfl, rfl, rfl, rfl, rfl⟩

/-! ## Pixels and inches -/

theorem pixelsToInches_mul (p : ℚ) : pixelsToInches p * (TARGET_DPI : ℚ) = p := by
  unfold pixelsToInches TARGET_DPI
  norm_num

/-- C26: for every pixel count `p ≥ 1` the round trip through inches is within one unit,
`|inchesToPixels(pixelsToInches(p)) - p| ≤ 1`, and for every integer `p ≥ 1` it returns `p`
exactly. -/
theorem inchesToPixels_pixelsToInches (p : ℚ) (hp : 1 ≤ p) :
    |(inchesToPixels (pixelsToInches p) : ℚ) - p| ≤ 1 ∧
    (∀ n : ℕ, p = n → inchesToPixels (pixelsToInches p) = n) := by
  have hround : inchesToPixels (pixelsToInches p) = jsRound p := by
    unfold inchesToPixels
    rw [pixelsToInches_mul]
  constructor
  · rw [hround]
    have h := jsRound_abs_sub_le p
    linarith
  · intro n hn
    rw [hround, hn]
    exact jsRound_natCast n

theorem inchesToPixels_pixelsToInches_witness :
    |(inchesToPixels (pixelsToInches (2400 : ℚ)) : ℚ) - 2400| ≤ 1 ∧
    inchesToPixels (pixelsToInches (2400 : ℚ)) = ((2400 : ℕ) : ℤ) :=
  ⟨(inchesToPixels_pixelsToInches 2400 (by norm_num)).1,
   (inchesToPixels_pixelsToInches 2400 (by norm_num)).2 2400 (by norm_num)⟩

/-! ## Centering and non-emptiness of the auto-crop -/

/-- With the margin rounded from `(n - c)/2` and the band rounded from `c`, the two margins
of a side of length `n` differ by at most one. -/
theorem jsRound_margins_differ (c : ℚ) (n : ℤ) :
    |jsRound ((n - c) / 2) - (n - jsRound ((n - c) / 2) - jsRound c)| ≤ 1 := by
  have h1 := jsRound_le (((n : ℚ) - c) / 2)
  have h2 := jsRound_gt (((n : ℚ) - c) / 2)
  have h3 := jsRound_le c
  have h4 := jsRound_gt c
  have hup : ((jsRound ((n - c) / 2) - (n - jsRound ((n - c) / 2) - jsRound c) : ℤ) : ℚ) < 2 := by
    push_cast
    linarith
  have hlo : (-2 : ℚ) < ((jsRound ((n - c) / 2) - (n - jsRound ((n - c) / 2) - jsRound c) : ℤ) : ℚ) := by
    push_cast
    linarith
  have hup' : jsRound ((n - c) / 2) - (n - jsRound ((n - c) / 2) - jsRound c) < 2 := by
    exact_mod_cast hup
  have hlo' : -2 < jsRound ((n - c) / 2) - (n - jsRound ((n - c) / 2) - jsRound c) := by
    exact_mod_cast hlo
  rw [abs_le]
  constructor <;> omega

/-- C28: for positive integer image sides and a positive target ratio, the region returned by
`calculateCropDimensions` has its left margin `x` and right margin `imageWidth - x - width`
differing by at most 1, and its top margin `y` and bottom margin `imageHeight - y - height`
differing by at most 1. -/
theorem calculateCropDimensions_centered (W H : ℕ) (r : ℚ)
    (hW : 0 < W) (hH : 0 < H) (hr : 0 < r) :
    |(calculateCropDimensions W H r).x
        - (W - (calculateCropDimensions W H r).x - (calculateCropDimensions W H r).width)| ≤ 1 ∧
    |(calculateCropDimensions W H r).y
        - (H - (calculateCropDimensions W H r).y - (calculateCropDimensions W H r).height)| ≤ 1 := by
  by_cases h : (W : ℚ) / H > r
  · rw [crop_wide h]
    have hm := jsRound_margins_differ ((H : ℚ) * r) (W : ℤ)
    simp only [Int.cast_natCast] at hm
    refine ⟨hm, ?_⟩
    simp only [jsRound_natCast]
    norm_num
  · rw [crop_tall h]
    have hm := jsRound_margins_differ ((W : ℚ) / r) (H : ℤ)
    simp only [Int.cast_natCast] at hm
    refine ⟨?_, hm⟩
    simp only [jsRound_natCast]
    norm_num

theorem calculateCropDimensions_centered_witness :
    |(calculateCropDimensions (4001 : ℕ) (3000 : ℕ) (4 / 5)).x
        - ((4001 : ℕ) - (calculateCropDimensions (4001 : ℕ) (3000 : ℕ) (4 / 5)).x
            - (calculateCropDimensions (4001 : ℕ) (3000 : ℕ) (4 / 5)).width)| ≤ 1 ∧
    |(calculateCropDimensions (4001 : ℕ) (3000 : ℕ) (4 / 5)).y
        - ((3000 : ℕ) - (calculateCropDimensions (4001 : ℕ) (3000 : ℕ) (4 / 5)).y
            - (calculateCropDimensions (4001 : ℕ) (3000 : ℕ) (4 / 5)).height)| ≤ 1 :=
  calculateCropDimensions_centered 4001 3000 (4 / 5) (by decide) (by decide) (by norm_num)

theorem jsRound_pos {x : ℚ} (hx : 1 / 2 ≤ x) : 1 ≤ jsRound x := by
  unfold jsRound
  rw [Int.le_floor]
  push_cast
  linarith

/-- For a target ratio between 1/2 and 2 the auto-crop of an image with positive integer
sides has at least one pixel in each direction. -/
theorem crop_nonempty_of_ratio (W H : ℕ) (r : ℚ) (hW : 0 < W) (hH : 0 < H)
    (hlo : 1 / 2 ≤ r) (hhi : r ≤ 2) :
    1 ≤ (calculateCropDimensions W H r).width ∧
    1 ≤ (calculateCropDimensions W H r).height := by
  have hWq : (1 : ℚ) ≤ W := by exact_mod_cast hW
  have hHq : (1 : ℚ) ≤ H := by exact_mod_cast hH
  have hr : (0 : ℚ) < r := by linarith
  by_cases h : (W : ℚ) / H > r
  · rw [crop_wide h]
    refine ⟨jsRound_pos ?_, ?_⟩
    · nlinarith
    · rw [jsRound_natCast]
      show (1 : ℤ) ≤ (H : ℤ)
      omega
  · rw [crop_tall h]
    refine ⟨?_, jsRound_pos ?_⟩
    · rw [jsRound_natCast]
      show (1 : ℤ) ≤ (W : ℤ)
      omega
    · rw [le_div_iff₀ hr]
      nlinarith

/-- C29: for positive integer image sides and every target ratio among the catalog ratios
2/3, 3/4, 4/5, 5/7 and 11/14, `calculateCropDimensions` returns `width ≥ 1` and
`height ≥ 1`. -/
theorem calculateCropDimensions_nonempty (W H : ℕ) (r : ℚ) (hW : 0 < W) (hH : 0 < H)
    (hr : r ∈ ASPECT_RATIOS.map Prod.snd) :
    ASPECT_RATIOS.map Prod.snd = [2 / 3, 3 / 4, 4 / 5, 5 / 7, 11 / 14] ∧
    1 ≤ (calculateCropDimensions W H r).width ∧
    1 ≤ (calculateCropDimensions W H r).height := by
  have hlist : ASPECT_RATIOS.map Prod.snd = [2 / 3, 3 / 4, 4 / 5, 5 / 7, 11 / 14] := rfl
  refine ⟨hlist, ?_⟩
  rw [hlist] at hr
  simp only [List.mem_cons, List.mem_singleton, List.not_mem_nil, or_false] at hr
  rcases hr with rfl | rfl | rfl | rfl | rfl <;>
    exact crop_nonempty_of_ratio W H _ hW hH (by norm_num) (by norm_num)

theorem calculateCropDimensions_nonempty_witness :
    ASPECT_RATIOS.map Prod.snd = [2 / 3, 3 / 4, 4 / 5, 5 / 7, 11 / 14] ∧
    1 ≤ (calculateCropDimensions (1 : ℕ) (1 : ℕ) (2 / 3)).width ∧
    1 ≤ (calculateCropDimensions (1 : ℕ) (1 : ℕ) (2 / 3)).height :=
  calculateCropDimensions_nonempty 1 1 (2 / 3) (by decide) (by decide)
    (by simp [ASPECT_RATIOS])

/-! ## Colliding file names -/

/-- Two file names generated from the same original name and format agree only when the
size labels agree. -/
theorem generateFilename_label_inj (originalName format : String) (s1 s2 : PrintSize)
    (h : generateFilename originalName s1 format = generateFilename originalName s2 format) :
    s1.label = s2.label := by
  unfold generateFilename at h
  have hd := congrArg String.data h
  simp only [String.data_append] at hd
  rw [List.append_left_inj, List.append_left_inj, List.append_right_inj] at hd
  exact String.ext hd

theorem getAllSizes_labels :
    getAllSizes.map (fun size => size.label) =
      ["4×6\"", "8×12\"", "12×18\"", "20×30\"", "6×8\"", "9×12\"", "12×16\"", "18×24\"",
       "8×10\"", "11×14\"", "16×20\"", "5×7\"", "10×14\"", "15×21\"", "11×14\""] := rfl

theorem catalog_labels_distinct :
    ∀ i, i < 15 → ∀ j, j < 15 → i ≠ j → ¬ (i = 9 ∧ j = 14) → ¬ (i = 14 ∧ j = 9) →
      (["4×6\"", "8×12\"", "12×18\"", "20×30\"", "6×8\"", "9×12\"", "12×16\"", "18×24\"",
        "8×10\"", "11×14\"", "16×20\"", "5×7\"", "10×14\"", "15×21\"", "11×14\""] :
          List String)[i]? ≠
      (["4×6\"", "8×12\"", "12×18\"", "20×30\"", "6×8\"", "9×12\"", "12×16\"", "18×24\"",
        "8×10\"", "11×14\"", "16×20\"", "5×7\"", "10×14\"", "15×21\"", "11×14\""] :
          List String)[j]? := by
  intro i hi j hj
  interval_cases i <;> interval_cases j <;> decide

/-- C27: the flattened catalog has 15 entries; the entries at positions 9 (group `4:5`) and
14 (group `custom`) both are 11x14 with the label `11×14"`, so for every original file name
`generateFilename` gives them the same file name, and every other pair of distinct positions
of the catalog gets distinct file names. -/
theorem generateFilename_collisions (originalName format : String) :
    getAllSizes.length = 15 ∧
    getAllSizes[9]? = some { width := 11, height := 14, label := "11×14\"" } ∧
    getAllSizes[14]? = some { width := 11, height := 14, label := "11×14\"" } ∧
    (∀ s9 s14, getAllSizes[9]? = some s9 → getAllSizes[14]? = some s14 →
      generateFilename originalName s9 format = generateFilename originalName s14 format) ∧
    (∀ i j si sj, getAllSizes[i]? = some si → getAllSizes[j]? = some sj →
      i ≠ j → ¬ (i = 9 ∧ j = 14) → ¬ (i = 14 ∧ j = 9) →
      generateFilename originalName si format ≠ generateFilename originalName sj format) := by
  have h9 : getAllSizes[9]? = some { width := 11, height := 14, label := "11×14\"" } := rfl
  have h14 : getAllSizes[14]? = some { width := 11, height := 14, label := "11×14\"" } := rfl
  have hlen : getAllSizes.length = 15 := rfl
  refine ⟨hlen, h9, h14, ?_, ?_⟩
  · intro s9 s14 e9 e14
    rw [h9] at e9
    rw [h14] at e14
    injection e9 with e9
    injection e14 with e14
    rw [← e9, ← e14]
  · intro i j si sj hi hj hne h1 h2 heq
    have hlab := generateFilename_label_inj originalName format si sj heq
    have hil : i < 15 := by
      have := (List.getElem?_eq_some_iff.mp hi).1
      omega
    have hjl : j < 15 := by
      have := (List.getElem?_eq_some_iff.mp hj).1
      omega
    have ei : (getAllSizes.map (fun size => size.label))[i]? = some si.label := by
      rw [List.getElem?_map, hi]
      rfl
    have ej : (getAllSizes.map (fun size => size.label))[j]? = some sj.label := by
      rw [List.getElem?_map, hj]
      rfl
    rw [getAllSizes_labels] at ei ej
    apply catalog_labels_distinct i hil j hjl hne h1 h2
    rw [ei, ej, hlab]

theorem generateFilename_collisions_witness :
    generateFilename "My Art.PNG" { width := 11, height := 14, label := "11×14\"" } "jpeg"
      = generateFilename "My Art.PNG" { width := 11, height := 14, label := "11×14\"" } "jpeg" ∧
    generateFilename "My Art.PNG" { width := 8, height := 10, label := "8×10\"" } "jpeg"
      ≠ generateFilename "My Art.PNG" { width := 11, height := 14, label := "11×14\"" } "jpeg" :=
  ⟨(generateFilename_collisions "My Art.PNG" "jpeg").2.2.2.1
      { width := 11, height := 14, label := "11×14\"" }
      { width := 11, height := 14, label := "11×14\"" } rfl rfl,
   (generateFilename_collisions "My Art.PNG" "jpeg").2.2.2.2 8 14
      { width := 8, height := 10, label := "8×10\"" }
      { width := 11, height := 14, label := "11×14\"" } rfl rfl
      (by decide) (by decide) (by decide)⟩

/-! ## A failed apply -/

/-- C23: if `processImageForSize` fails during `handleApply`, then afterwards the editor is
still open on the same entry (`showCropEditor` true, `selectedImageForCrop` unchanged),
`cropArea` is unchanged, `processedImages` is unchanged and `isProcessing` is false. -/
theorem handleApply_failure_keeps_editor (p : Platform) (store : AppStore) (s : EditorState)
    (selected : ProcessedResult) (image : Image) (e : String)
    (hopen : store.showCropEditor = true)
    (hsel : store.selectedImageForCrop = some selected)
    (himg : store.originalImage = some image)
    (hfail : processImageForSize p image selected.size (some s.cropArea) "jpeg" = .error e) :
    (handleApplyInEditor p store s).1.showCropEditor = true ∧
    (handleApplyInEditor p store s).1.selectedImageForCrop = some selected ∧
    (handleApplyInEditor p store s).2.cropArea = s.cropArea ∧
    (handleApplyInEditor p store s).1.processedImages = store.processedImages ∧
    (handleApplyInEditor p store s).1.isProcessing = false := by
  simp only [handleApplyInEditor, handleApply, hsel, himg, hfail, setProcessing, hopen]
  exact ⟨trivial, trivial, trivial, trivial, trivial⟩

theorem handleApply_failure_keeps_editor_witness :
    (handleApplyInEditor
        { drawAndEncode := fun _ _ _ _ _ _ _ _ _ _ _ _ _ => .error "InvalidStateError",
          exifInsert := fun _ _ => .error "piexif: invalid jpeg",
          createObjectURL := fun _ => "blob:1" }
        { originalFile := some "photo.jpg",
          originalImage := some { width := 4000, height := 3000, src := "photo.jpg" },
          previewUrl := some "blob:0",
          isProcessing := false,
          processingProgress := 100,
          processedImages :=
            [{ size := { width := 8, height := 10, label := "8×10\"" },
               blob := { bytes := [0xFF, 0xD8, 0xFF, 0xD9], type := "image/jpeg" },
               pixelDimensions := { width := 2400, height := 3000, label := "8×10\"",
                                    aspectRatio := 4 / 5 },
               url := "blob:1", cropSettings := none }],
          selectedSizes := [],
          activeTab := "preview",
          showCropEditor := true,
          selectedImageForCrop := some
            { size := { width := 8, height := 10, label := "8×10\"" },
              blob := { bytes := [0xFF, 0xD8, 0xFF, 0xD9], type := "image/jpeg" },
              pixelDimensions := { width := 2400, height := 3000, label := "8×10\"",
                                   aspectRatio := 4 / 5 },
              url := "blob:1", cropSettings := none },
          error := none }
        { cropArea := { x := 1050, y := 0, width := 2400, height := 3000 },
          isDragging := false, dragStart := (150, 100), zoom := 1 }).1.isProcessing = false :=
  (handleApply_failure_keeps_editor
    { drawAndEncode := fun _ _ _ _ _ _ _ _ _ _ _ _ _ => .error "InvalidStateError",
      exifInsert := fun _ _ => .error "piexif: invalid jpeg",
      createObjectURL := fun _ => "blob:1" }
    { originalFile := some "photo.jpg",
      originalImage := some { width := 4000, height := 3000, src := "photo.jpg" },
      previewUrl := some "blob:0",
      isProcessing := false,
      processingProgress := 100,
      processedImages :=
        [{ size := { width := 8, height := 10, label := "8×10\"" },
           blob := { bytes := [0xFF, 0xD8, 0xFF, 0xD9], type := "image/jpeg" },
           pixelDimensions := { width := 2400, height := 3000, label := "8×10\"",
                                aspectRatio := 4 / 5 },
           url := "blob:1", cropSettings := none }],
      selectedSizes := [],
      activeTab := "preview",
      showCropEditor := true,
      selectedImageForCrop := some
        { size := { width := 8, height := 10, label := "8×10\"" },
          blob := { bytes := [0xFF, 0xD8, 0xFF, 0xD9], type := "image/jpeg" },
          pixelDimensions := { width := 2400, height := 3000, label := "8×10\"",
                               aspectRatio := 4 / 5 },
          url := "blob:1", cropSettings := none },
      error := none }
    { cropArea := { x := 1050, y := 0, width := 2400, height := 3000 },
      isDragging := false, dragStart := (150, 100), zoom := 1 }
    { size := { width := 8, height := 10, label := "8×10\"" },
      blob := { bytes := [0xFF, 0xD8, 0xFF, 0xD9], type := "image/jpeg" },
      pixelDimensions := { width := 2400, height := 3000, label := "8×10\"",
                           aspectRatio := 4 / 5 },
      url := "blob:1", cropSettings := none }
    { width := 4000, height := 3000, src := "photo.jpg" }
    "InvalidStateError" rfl rfl rfl rfl).2.2.2.2

/-! ## Initializing and restoring the crop -/

/-- The outcome of `initializeCrop` for an open editor does not depend on the crop it
replaces. -/
theorem initializeCrop_const (selected : ProcessedResult) (image : Image) (c c' : CropArea) :
    initializeCrop (some selected) (some image) c
      = initializeCrop (some selected) (some image) c' := by
  simp only [initializeCrop]

/-- C24: for every selected entry and source image, `initializeCrop`, run on open and on
reset, sets `cropArea` to the stored `cropSettings` of the entry when it has them and
otherwise to `calculateCropDimensions(image.width, image.height, size.width / size.height)`;
a reset after any sequence of editor events yields exactly the `cropArea` of the initial
open. -/
theorem initializeCrop_deterministic (selected : ProcessedResult) (image : Image) :
    (∀ c stored, selected.cropSettings = some stored →
      initializeCrop (some selected) (some image) c = stored) ∧
    (∀ c, selected.cropSettings = none →
      initializeCrop (some selected) (some image) c =
        (calculateCropDimensions image.width image.height
          (selected.size.width / selected.size.height)).toCropArea) ∧
    (∀ c, (openEditor selected image).cropArea = initializeCrop (some selected) (some image) c) ∧
    (∀ s, (handleReset selected image s).cropArea
      = initializeCrop (some selected) (some image) s.cropArea) ∧
    (∀ events : List EditorEvent,
      (editorStep selected image
          (events.foldl (editorStep selected image) (openEditor selected image)) .reset).cropArea
        = (openEditor selected image).cropArea) := by
  refine ⟨?_, ?_, ?_, ?_, ?_⟩
  · intro c stored h
    simp only [initializeCrop, h]
  · intro c h
    exact initializeCrop_auto selected image c h
  · intro c
    exact initializeCrop_const selected image { x := 0, y := 0, width := 100, height := 100 } c
  · intro s
    rfl
  · intro events
    exact initializeCrop_const selected image
      (events.foldl (editorStep selected image) (openEditor selected image)).cropArea
      { x := 0, y := 0, width := 100, height := 100 }

theorem initializeCrop_deterministic_witness :
    (editorStep
        { size := { width := 8, height := 10, label := "8×10\"" },
          blob := { bytes := [0xFF, 0xD8, 0xFF, 0xD9], type := "image/jpeg" },
          pixelDimensions := { width := 2400, height := 3000, label := "8×10\"",
                               aspectRatio := 4 / 5 },
          url := "blob:1",
          cropSettings := some { x := 900, y := 0, width := 2400, height := 3000 } }
        { width := 4000, height := 3000, src := "photo.jpg" }
        (([.mouseDown 100 100, .mouseMove 150 100 800 600, .mouseUp] : List EditorEvent).foldl
          (editorStep
            { size := { width := 8, height := 10, label := "8×10\"" },
              blob := { bytes := [0xFF, 0xD8, 0xFF, 0xD9], type := "image/jpeg" },
              pixelDimensions := { width := 2400, height := 3000, label := "8×10\"",
                                   aspectRatio := 4 / 5 },
              url := "blob:1",
              cropSettings := some { x := 900, y := 0, width := 2400, height := 3000 } }
            { width := 4000, height := 3000, src := "photo.jpg" })
          (openEditor
            { size := { width := 8, height := 10, label := "8×10\"" },
              blob := { bytes := [0xFF, 0xD8, 0xFF, 0xD9], type := "image/jpeg" },
              pixelDimensions := { width := 2400, height := 3000, label := "8×10\"",
                                   aspectRatio := 4 / 5 },
              url := "blob:1",
              cropSettings := some { x := 900, y := 0, width := 2400, height := 3000 } }
            { width := 4000, height := 3000, src := "photo.jpg" }))
        .reset).cropArea
      = { x := 900, y := 0, width := 2400, height := 3000 } :=
  ((initializeCrop_deterministic
      { size := { width := 8, height := 10, label := "8×10\"" },
        blob := { bytes := [0xFF, 0xD8, 0xFF, 0xD9], type := "image/jpeg" },
        pixelDimensions := { width := 2400, height := 3000, label := "8×10\"",
                             aspectRatio := 4 / 5 },
        url := "blob:1",
        cropSettings := some { x := 900, y := 0, width := 2400, height := 3000 } }
      { width := 4000, height := 3000, src := "photo.jpg" }).2.2.2.2
    [.mouseDown 100 100, .mouseMove 150 100 800 600, .mouseUp]).trans
  (((initializeCrop_deterministic
      { size := { width := 8, height := 10, label := "8×10\"" },
        blob := { bytes := [0xFF, 0xD8, 0xFF, 0xD9], type := "image/jpeg" },
        pixelDimensions := { width := 2400, height := 3000, label := "8×10\"",
                             aspectRatio := 4 / 5 },
        url := "blob:1",
        cropSettings := some { x := 900, y := 0, width := 2400, height := 3000 } }
      { width := 4000, height := 3000, src := "photo.jpg" }).2.2.1
    { x := 0, y := 0, width := 100, height := 100 }).trans
  ((initializeCrop_deterministic
      { size := { width := 8, height := 10, label := "8×10\"" },
        blob := { bytes := [0xFF, 0xD8, 0xFF, 0xD9], type := "image/jpeg" },
        pixelDimensions := { width := 2400, height := 3000, label := "8×10\"",
                             aspectRatio := 4 / 5 },
        url := "blob:1",
        cropSettings := some { x := 900, y := 0, width := 2400, height := 3000 } }
      { width := 4000, height := 3000, src := "photo.jpg" }).1
    { x := 0, y := 0, width := 100, height := 100 }
    { x := 900, y := 0, width := 2400, height := 3000 } rfl))

/-- C30: after a successful `handleApply` with `cropArea = C`, the element that stood for the
selected entry has `cropSettings = C` and the size and pixel dimensions it had before, and
opening the editor on that element initializes `cropArea` to `C`, not to the auto-crop. -/
theorem applied_crop_restored (p : Platform) (store : AppStore) (C : CropArea)
    (E : ProcessedResult) (image : Image) (newBlob : Blob) (i : ℕ)
    (hsel : store.selectedImageForCrop = some E)
    (himg : store.originalImage = some image)
    (hok : processImageForSize p image E.size (some C) "jpeg" = .ok newBlob)
    (hi : store.processedImages[i]? = some E) :
    ∃ E' : ProcessedResult,
      (handleApply p store C).processedImages[i]? = some E' ∧
      E'.cropSettings = some C ∧
      E'.size = E.size ∧
      E'.pixelDimensions = E.pixelDimensions ∧
      (openCropEditor (handleApply p store C) E').showCropEditor = true ∧
      (openCropEditor (handleApply p store C) E').selectedImageForCrop = some E' ∧
      (openEditor E' image).cropArea = C := by
  refine ⟨{ E with blob := newBlob, url := p.createObjectURL newBlob, cropSettings := some C },
    ?_, rfl, rfl, rfl, rfl, rfl, rfl⟩
  rw [handleApply_processedImages p store C E image newBlob hsel himg hok,
    List.getElem?_map, hi]
  simp

theorem applied_crop_restored_witness :
    ∃ E' : ProcessedResult,
      (handleApply
        { drawAndEncode := fun _ _ _ _ _ _ _ _ _ _ _ _ _ =>
            .ok { bytes := [0xFF, 0xD8, 0xFF, 0xDB, 0xFF, 0xD9], type := "image/jpeg" },
          exifInsert := fun _ _ => .error "piexif: invalid jpeg",
          createObjectURL := fun _ => "blob:3" }
        { originalFile := some "photo.jpg",
          originalImage := some { width := 4000, height := 3000, src := "photo.jpg" },
          previewUrl := some "blob:0",
          isProcessing := false,
          processingProgress := 100,
          processedImages :=
            [{ size := { width := 8, height := 10, label := "8×10\"" },
               blob := { bytes := [0xFF, 0xD8, 0xFF, 0xD9], type := "image/jpeg" },
               pixelDimensions := { width := 2400, height := 3000, label := "8×10\"",
                                    aspectRatio := 4 / 5 },
               url := "blob:1", cropSettings := none },
             { size := { width := 16, height := 20, label := "16×20\"" },
               blob := { bytes := [0xFF, 0xD8, 0xFF, 0xD9], type := "image/jpeg" },
               pixelDimensions := { width := 4800, height := 6000, label := "16×20\"",
                                    aspectRatio := 4 / 5 },
               url := "blob:2", cropSettings := none }],
          selectedSizes := [],
          activeTab := "preview",
          showCropEditor := true,
          selectedImageForCrop := some
            { size := { width := 8, height := 10, label := "8×10\"" },
              blob := { bytes := [0xFF, 0xD8, 0xFF, 0xD9], type := "image/jpeg" },
              pixelDimensions := { width := 2400, height := 3000, label := "8×10\"",
                                   aspectRatio := 4 / 5 },
              url := "blob:1", cropSettings := none },
          error := none }
        { x := 1050, y := 0, width := 2400, height := 3000 }).processedImages[0]? = some E' ∧
      E'.cropSettings = some { x := 1050, y := 0, width := 2400, height := 3000 } ∧
      (openEditor E' { width := 4000, height := 3000, src := "photo.jpg" }).cropArea
        = { x := 1050, y := 0, width := 2400, height := 3000 } := by
  obtain ⟨E', h1, h2, _, _, _, _, h7⟩ :=
    applied_crop_restored
      { drawAndEncode := fun _ _ _ _ _ _ _ _ _ _ _ _ _ =>
            .ok { bytes := [0xFF, 0xD8, 0xFF, 0xDB, 0xFF, 0xD9], type := "image/jpeg" },
          exifInsert := fun _ _ => .error "piexif: invalid jpeg",
          createObjectURL := fun _ => "blob:3" }
      { originalFile := some "photo.jpg",
            originalImage := some { width := 4000, height := 3000, src := "photo.jpg" },
            previewUrl := some "blob:0",
            isProcessing := false,
            processingProgress := 100,
            processedImages :=
              [{ size := { width := 8, height := 10, label := "8×10\"" },
                 blob := { bytes := [0xFF, 0xD8, 0xFF, 0xD9], type := "image/jpeg" },
                 pixelDimensions := { width := 2400, height := 3000, label := "8×10\"",
                                      aspectRatio := 4 / 5 },
                 url := "blob:1", cropSettings := none },
               { size := { width := 16, height := 20, label := "16×20\"" },
                 blob := { bytes := [0xFF, 0xD8, 0xFF, 0xD9], type := "image/jpeg" },
                 pixelDimensions := { width := 4800, height := 6000, label := "16×20\"",
                                      aspectRatio := 4 / 5 },
                 url := "blob:2", cropSettings := none }],
            selectedSizes := [],
            activeTab := "preview",
            showCropEditor := true,
            selectedImageForCrop := some
              { size := { width := 8, height := 10, label := "8×10\"" },
                blob := { bytes := [0xFF, 0xD8, 0xFF, 0xD9], type := "image/jpeg" },
                pixelDimensions := { width := 2400, height := 3000, label := "8×10\"",
                                     aspectRatio := 4 / 5 },
                url := "blob:1", cropSettings := none },
            error := none }
      { x := 1050, y := 0, width := 2400, height := 3000 }
      { size := { width := 8, height := 10, label := "8×10\"" },
        blob := { bytes := [0xFF, 0xD8, 0xFF, 0xD9], type := "image/jpeg" },
        pixelDimensions := { width := 2400, height := 3000, label := "8×10\"",
                             aspectRatio := 4 / 5 },
        url := "blob:1", cropSettings := none }
      { width := 4000, height := 3000, src := "photo.jpg" }
      { bytes := [0xFF, 0xD8, 0xFF, 0xDB, 0xFF, 0xD9], type := "image/jpeg" }
      0 rfl rfl rfl rfl
  exact ⟨E', h1, h2, h7⟩

end EtsyPrintSizing
